import Mathlib

/-!
# Smart valve firmware: charge controller, valve controller and telemetry

A shallow embedding of the firmware's three engines (MPPT charge controller,
valve controller, Modbus-like telemetry handler) together with the narrow
parts of the hardware drivers they call, followed by theorems about them.

Conventions of the embedding.

* The module-level `static` variables of each C file become the fields of one
  context structure per module; every C function becomes a function from
  context to context (plus a return value where the C function has one).
* Machine integers are `Nat` / `Int`. A conversion to a fixed-width type is
  written with `u8`, `u16`, `u32`, `i8`, `i16`, `i32`. The target is an MSP430,
  whose `int` is 16 bits wide, so an expression mixing a `uint16_t` and an
  `int` constant is evaluated in 16-bit unsigned arithmetic.
* Values produced outside the embedded code (the tick counter `system_millis`,
  the converted ADC readings, the bytes delivered by the receive interrupt, the
  motor fault pin) are explicit inputs.
-/

namespace SmartValve

/-! ## Fixed-width integer conversions -/

/-- Conversion to `uint8_t`. -/
def u8 (x : Nat) : Nat := x % 256

/-- Conversion to `uint16_t`. -/
def u16 (x : Nat) : Nat := x % 65536

/-- Conversion to `uint32_t`. -/
def u32 (x : Nat) : Nat := x % 4294967296

/-- Conversion of a signed mathematical value to `int8_t`: the value modulo 2^8
taken in the range -128 .. 127 (two's complement wrap). -/
def i8 : Int → Int
  | Int.ofNat n =>
      if n % 256 < 128 then Int.ofNat (n % 256) else Int.negSucc (255 - n % 256)
  | Int.negSucc n =>
      if n % 256 < 128 then Int.negSucc (n % 256) else Int.ofNat (255 - n % 256)

/-- Conversion of a signed mathematical value to `int16_t`: the value modulo
2^16 taken in the range -32768 .. 32767 (two's complement wrap). -/
def i16 : Int → Int
  | Int.ofNat n =>
      if n % 65536 < 32768 then Int.ofNat (n % 65536) else Int.negSucc (65535 - n % 65536)
  | Int.negSucc n =>
      if n % 65536 < 32768 then Int.negSucc (n % 65536) else Int.ofNat (65535 - n % 65536)

/-- Conversion of a signed mathematical value to `int32_t`: the value modulo
2^32 taken in the range -2^31 .. 2^31-1 (two's complement wrap). -/
def i32 : Int → Int
  | Int.ofNat n =>
      if n % 4294967296 < 2147483648 then Int.ofNat (n % 4294967296)
      else Int.negSucc (4294967295 - n % 4294967296)
  | Int.negSucc n =>
      if n % 4294967296 < 2147483648 then Int.negSucc (n % 4294967296)
      else Int.ofNat (4294967295 - n % 4294967296)

/-- Conversion of a signed mathematical value to `uint16_t`. -/
def u16_of_int (x : Int) : Nat := (x % 65536).toNat

/-- Subtraction of two `uint32_t` values, as the C operator `-` computes it. -/
def sub_u32 (a b : Nat) : Nat :=
  if u32 b ≤ u32 a then u32 a - u32 b else u32 a + 4294967296 - u32 b

/-! ## hal_pwm.h / hal_pwm.c -/

@[simp] def PWM_PERIOD_TICKS : Nat := 20
@[simp] def PWM_DEADTIME_TICKS : Nat := 2
@[simp] def PWM_MAX_DUTY_TICKS : Nat := 36
@[simp] def PWM_MIN_DUTY_TICKS : Nat := 2

inductive PWM_Phase_t where
  | PWM_PHASE_1
  | PWM_PHASE_2
  | PWM_BOTH_PHASES
  deriving DecidableEq

/-- State of the PWM driver: the three `static` variables of `hal_pwm.c`, the
four Timer_B0 compare registers it writes, and the two gate-driver enable pins. -/
structure HAL_PWM where
  current_duty_phase1 : Nat
  current_duty_phase2 : Nat
  pwm_running : Bool
  /-- Timer_B0 CCR1, low side of phase 1. -/
  ccr1 : Nat
  /-- Timer_B0 CCR2, high side of phase 1. -/
  ccr2 : Nat
  /-- Timer_B0 CCR4, low side of phase 2. -/
  ccr4 : Nat
  /-- Timer_B0 CCR6, high side of phase 2. -/
  ccr6 : Nat
  /-- Level of the panel-side driver enable pin (P_EN). -/
  panel_en : Bool
  /-- Level of the load-side driver enable pin (L_EN). -/
  load_en : Bool
  deriving DecidableEq

/-- Driver state at power-up: the initial values of the `static` variables. -/
def HAL_PWM_boot : HAL_PWM :=
  { current_duty_phase1 := 0, current_duty_phase2 := 0, pwm_running := false,
    ccr1 := 0, ccr2 := 0, ccr4 := 0, ccr6 := 0, panel_en := false, load_en := false }

def clamp_duty_ticks (duty_ticks : Nat) : Nat :=
  if duty_ticks > PWM_MAX_DUTY_TICKS then PWM_MAX_DUTY_TICKS
  else if duty_ticks < PWM_MIN_DUTY_TICKS then PWM_MIN_DUTY_TICKS
  else duty_ticks

def calculate_low_side_ticks (high_side_ticks : Nat) : Nat :=
  let low_side := u16 (high_side_ticks + PWM_DEADTIME_TICKS)
  if low_side > PWM_PERIOD_TICKS then PWM_PERIOD_TICKS else low_side

def HAL_PWM_SetDuty (phase : PWM_Phase_t) (duty_ticks : Nat) (p : HAL_PWM) : HAL_PWM :=
  let duty_ticks := clamp_duty_ticks duty_ticks
  let low_side_ticks := calculate_low_side_ticks duty_ticks
  match phase with
  | .PWM_PHASE_1 =>
      { p with ccr2 := duty_ticks, ccr1 := low_side_ticks, current_duty_phase1 := duty_ticks }
  | .PWM_PHASE_2 =>
      { p with ccr6 := duty_ticks, ccr4 := low_side_ticks, current_duty_phase2 := duty_ticks }
  | .PWM_BOTH_PHASES =>
      { p with ccr2 := duty_ticks, ccr1 := low_side_ticks, ccr6 := duty_ticks,
               ccr4 := low_side_ticks, current_duty_phase1 := duty_ticks,
               current_duty_phase2 := duty_ticks }

def HAL_PWM_Start (p : HAL_PWM) : HAL_PWM :=
  if !p.pwm_running then { p with pwm_running := true } else p

def HAL_PWM_Stop (p : HAL_PWM) : HAL_PWM :=
  if p.pwm_running then
    { HAL_PWM_SetDuty .PWM_BOTH_PHASES 0 p with pwm_running := false }
  else p

def HAL_PWM_EnableDrivers (panel_en load_en : Bool) (p : HAL_PWM) : HAL_PWM :=
  { p with panel_en := panel_en, load_en := load_en }

def HAL_PWM_GetDuty (phase : PWM_Phase_t) (p : HAL_PWM) : Nat :=
  if phase = .PWM_PHASE_1 then p.current_duty_phase1
  else if phase = .PWM_PHASE_2 then p.current_duty_phase2
  else u16 (p.current_duty_phase1 + p.current_duty_phase2) >>> 1

def HAL_PWM_IsRunning (p : HAL_PWM) : Bool := p.pwm_running

/-! ## mppt_manager.h -/

@[simp] def BATTERY_ABSORB_MV : Nat := 28800
@[simp] def BATTERY_FLOAT_MV : Nat := 27400
@[simp] def BATTERY_LOW_MV : Nat := 21000
@[simp] def BATTERY_RECONNECT_MV : Nat := 24000
@[simp] def PANEL_MIN_MV : Nat := 25000
@[simp] def PANEL_START_DELTA_MV : Nat := 1000
@[simp] def MAX_DUTY_TICKS : Nat := 36
@[simp] def MIN_DUTY_TICKS : Nat := 2
@[simp] def STARTUP_DUTY_TICKS : Nat := 12
@[simp] def MPPT_PERTURB_STEP_TICKS : Nat := 1
@[simp] def MPPT_UPDATE_INTERVAL_MS : Nat := 100
@[simp] def MPPT_STARTUP_DELAY_MS : Nat := 1000
@[simp] def MPPT_POWER_THRESHOLD_MW : Nat := 50
@[simp] def MPPT_HYSTERESIS_COUNT : Nat := 3

inductive MPPT_State_t where
  | MPPT_STATE_IDLE
  | MPPT_STATE_STARTUP
  | MPPT_STATE_BULK
  | MPPT_STATE_ABSORB
  | MPPT_STATE_FLOAT
  | MPPT_STATE_FAULT
  | MPPT_STATE_NIGHT
  deriving DecidableEq

inductive MPPT_Fault_t where
  | MPPT_FAULT_NONE
  | MPPT_FAULT_OVERVOLTAGE
  | MPPT_FAULT_UNDERVOLTAGE
  | MPPT_FAULT_OVERCURRENT
  | MPPT_FAULT_PV_SHORT
  deriving DecidableEq

open MPPT_State_t MPPT_Fault_t

structure MPPT_Status_t where
  state : MPPT_State_t
  fault : MPPT_Fault_t
  pv_voltage_mv : Nat
  pv_current_ma : Nat
  pv_power_mw : Nat
  battery_voltage_mv : Nat
  battery_current_ma : Nat
  battery_power_mw : Nat
  duty_ticks : Nat
  energy_today_wh : Nat
  runtime_seconds : Nat
  charging_enabled : Bool
  panel_connected : Bool
  battery_connected : Bool
  deriving DecidableEq

/-! ## mppt_manager.c -/

/-- The private variables of `mppt_manager.c`, together with the state of the
PWM driver the module commands. -/
structure MPPT_Ctx where
  mppt_status : MPPT_Status_t
  perturb_direction : Int
  last_power_mw : Nat
  hysteresis_counter : Nat
  state_entry_time_ms : Nat
  last_process_time_ms : Nat
  pwm : HAL_PWM
  deriving DecidableEq

/-- What one call of `MPPT_Process` reads from outside the module: the tick
counter at entry, the tick counter as `auto_restart_check` reads it again (it is
`volatile` and advanced by an interrupt), and the four converted readings
returned by the `HAL_ADC_Get*` functions after `HAL_ADC_Read`. -/
structure MPPT_Env where
  system_millis : Nat
  system_millis_restart : Nat
  pv_voltage_mv : Nat
  pv_current_ma : Nat
  battery_voltage_mv : Nat
  battery_current_ma : Nat
  deriving DecidableEq

def MPPT_Init (system_millis : Nat) (pwm : HAL_PWM) : MPPT_Ctx :=
  { mppt_status :=
      { state := MPPT_STATE_IDLE, fault := MPPT_FAULT_NONE,
        pv_voltage_mv := 0, pv_current_ma := 0, pv_power_mw := 0,
        battery_voltage_mv := 0, battery_current_ma := 0, battery_power_mw := 0,
        duty_ticks := 0, energy_today_wh := 0, runtime_seconds := 0,
        charging_enabled := false, panel_connected := false, battery_connected := false },
    pwm := HAL_PWM_EnableDrivers false false pwm,
    perturb_direction := 1,
    last_power_mw := 0,
    hysteresis_counter := 0,
    state_entry_time_ms := u32 system_millis,
    last_process_time_ms := u32 system_millis }

def update_measurements (env : MPPT_Env) (c : MPPT_Ctx) : MPPT_Ctx :=
  let pv_voltage_mv := u16 env.pv_voltage_mv
  let pv_current_ma := u16 env.pv_current_ma
  let battery_voltage_mv := u16 env.battery_voltage_mv
  let battery_current_ma := u16 env.battery_current_ma
  { c with mppt_status :=
      { c.mppt_status with
        pv_voltage_mv := pv_voltage_mv,
        pv_current_ma := pv_current_ma,
        battery_voltage_mv := battery_voltage_mv,
        battery_current_ma := battery_current_ma,
        pv_power_mw := u32 (pv_voltage_mv * pv_current_ma) / 1000,
        battery_power_mw := u32 (battery_voltage_mv * battery_current_ma) / 1000,
        panel_connected := decide (pv_voltage_mv > 5000),
        battery_connected := decide (battery_voltage_mv > 10000) } }

/-- The under-voltage block of `check_faults` (the `if` / `else if` pair). -/
def check_faults_undervoltage (c : MPPT_Ctx) : MPPT_Ctx :=
  -- Under-voltage (disconnect load only)
  if c.mppt_status.battery_voltage_mv < BATTERY_LOW_MV ∧
      c.mppt_status.battery_connected = true then
    { c with mppt_status := { c.mppt_status with fault := MPPT_FAULT_UNDERVOLTAGE },
             pwm := HAL_PWM_EnableDrivers true false c.pwm }
  else if c.mppt_status.battery_voltage_mv > BATTERY_RECONNECT_MV then
    if c.mppt_status.fault = MPPT_FAULT_UNDERVOLTAGE then
      { c with mppt_status := { c.mppt_status with fault := MPPT_FAULT_NONE },
               pwm := HAL_PWM_EnableDrivers true true c.pwm }
    else c
  else c

/-- The PV short circuit block of `check_faults`. -/
def check_faults_pv_short (c : MPPT_Ctx) : MPPT_Ctx :=
  if c.mppt_status.pv_current_ma > 15000 ∧ c.mppt_status.pv_voltage_mv < 5000 then
    { c with mppt_status := { c.mppt_status with fault := MPPT_FAULT_PV_SHORT,
                                                 state := MPPT_STATE_FAULT },
             pwm := HAL_PWM_Stop c.pwm }
  else c

def check_faults (c : MPPT_Ctx) : MPPT_Ctx :=
  -- Over-voltage protection (28.8V + 0.5V hysteresis), with early return
  if c.mppt_status.battery_voltage_mv > BATTERY_ABSORB_MV + 500 then
    { c with mppt_status := { c.mppt_status with fault := MPPT_FAULT_OVERVOLTAGE,
                                                 state := MPPT_STATE_FAULT },
             pwm := HAL_PWM_Stop c.pwm }
  else check_faults_pv_short (check_faults_undervoltage c)

/-- The signed power difference `delta_power` of `perturb_and_observe`. -/
def delta_power (c : MPPT_Ctx) : Int :=
  i32 (i32 (c.mppt_status.pv_power_mw : Int) - i32 (c.last_power_mw : Int))

/-- The decision logic of `perturb_and_observe`: the three-way `if` on
`delta_power`. -/
def perturb_and_observe_decide (c : MPPT_Ctx) : MPPT_Ctx :=
  if delta_power c > (MPPT_POWER_THRESHOLD_MW : Int) then
    -- Power increased - good direction: hysteresis_counter++
    if u8 (c.hysteresis_counter + 1) ≥ MPPT_HYSTERESIS_COUNT then
      -- Confirmed improvement - take step
      { c with mppt_status := { c.mppt_status with
                 duty_ticks := u16_of_int ((c.mppt_status.duty_ticks : Int) +
                   c.perturb_direction * (MPPT_PERTURB_STEP_TICKS : Int)) },
               hysteresis_counter := 0 }
    else { c with hysteresis_counter := u8 (c.hysteresis_counter + 1) }
  else if delta_power c < -(MPPT_POWER_THRESHOLD_MW : Int) then
    -- Power decreased - reverse direction
    { c with perturb_direction := i8 (-c.perturb_direction),
             mppt_status := { c.mppt_status with
               duty_ticks := u16_of_int ((c.mppt_status.duty_ticks : Int) +
                 i8 (-c.perturb_direction) * (MPPT_PERTURB_STEP_TICKS : Int)) },
             hysteresis_counter := 0 }
  else
    -- Negligible change - reset counter
    { c with hysteresis_counter := 0 }

/-- The clamp of `perturb_and_observe` (and of nothing else): 2..36 ticks. -/
def perturb_and_observe_clamp (duty_ticks : Nat) : Nat :=
  if duty_ticks > MAX_DUTY_TICKS then MAX_DUTY_TICKS
  else if duty_ticks < MIN_DUTY_TICKS then MIN_DUTY_TICKS
  else duty_ticks

/-- The tail of `perturb_and_observe`: clamp, apply to the PWM hardware, store
the power of this step. -/
def perturb_and_observe_apply (current_power_mw : Nat) (c : MPPT_Ctx) : MPPT_Ctx :=
  { c with mppt_status := { c.mppt_status with
             duty_ticks := perturb_and_observe_clamp c.mppt_status.duty_ticks },
           pwm := HAL_PWM_SetDuty .PWM_BOTH_PHASES
             (perturb_and_observe_clamp c.mppt_status.duty_ticks) c.pwm,
           last_power_mw := current_power_mw }

def perturb_and_observe (c : MPPT_Ctx) : MPPT_Ctx :=
  perturb_and_observe_apply c.mppt_status.pv_power_mw (perturb_and_observe_decide c)

/-- The clamped `new_duty` of `constant_voltage_control`. -/
def constant_voltage_duty (target_mv : Nat) (battery_voltage_mv duty_ticks : Nat) : Int :=
  let voltage_error_mv : Int := i32 ((u16 target_mv : Int) - (battery_voltage_mv : Int))
  -- Proportional control (gain = 1/100); C division truncates toward zero
  let duty_adjustment : Int := i16 (Int.tdiv voltage_error_mv 100)
  let new_duty : Int := i16 (i16 (duty_ticks : Int) + duty_adjustment)
  if new_duty > (MAX_DUTY_TICKS : Int) then (MAX_DUTY_TICKS : Int)
  else if new_duty < (MIN_DUTY_TICKS : Int) then (MIN_DUTY_TICKS : Int)
  else new_duty

def constant_voltage_control (target_mv : Nat) (c : MPPT_Ctx) : MPPT_Ctx :=
  { c with mppt_status := { c.mppt_status with
             duty_ticks := u16_of_int (constant_voltage_duty target_mv
               c.mppt_status.battery_voltage_mv c.mppt_status.duty_ticks) },
           pwm := HAL_PWM_SetDuty .PWM_BOTH_PHASES
             (u16_of_int (constant_voltage_duty target_mv
               c.mppt_status.battery_voltage_mv c.mppt_status.duty_ticks)) c.pwm }

def auto_restart_check (system_millis : Nat) (c : MPPT_Ctx) : MPPT_Ctx :=
  -- Check PV voltage sufficient
  if c.mppt_status.pv_voltage_mv < PANEL_MIN_MV then
    { c with mppt_status := { c.mppt_status with state := MPPT_STATE_NIGHT } }
  -- Check PV > Battery + 1V (16-bit unsigned sum)
  else if c.mppt_status.pv_voltage_mv <
      u16 (c.mppt_status.battery_voltage_mv + PANEL_START_DELTA_MV) then c
  -- Check battery connected
  else if !c.mppt_status.battery_connected then c
  -- All conditions met - start
  else
    { c with mppt_status := { c.mppt_status with state := MPPT_STATE_STARTUP },
             state_entry_time_ms := u32 system_millis }

/-- The test `(current_time_ms - last_process_time_ms) < MPPT_UPDATE_INTERVAL_MS`
that makes `MPPT_Process` return at once. -/
def MPPT_interval_pending (env : MPPT_Env) (c : MPPT_Ctx) : Bool :=
  decide (sub_u32 env.system_millis c.last_process_time_ms < MPPT_UPDATE_INTERVAL_MS)

/-- The `case MPPT_STATE_IDLE` of `MPPT_Process`. -/
def MPPT_case_idle (env : MPPT_Env) (c : MPPT_Ctx) : MPPT_Ctx :=
  if c.mppt_status.charging_enabled then
    auto_restart_check env.system_millis_restart
      { c with pwm := HAL_PWM_EnableDrivers false false (HAL_PWM_Stop c.pwm),
               mppt_status := { c.mppt_status with duty_ticks := 0 } }
  else
    { c with pwm := HAL_PWM_EnableDrivers false false (HAL_PWM_Stop c.pwm),
             mppt_status := { c.mppt_status with duty_ticks := 0 } }

/-- The `case MPPT_STATE_STARTUP` of `MPPT_Process`. -/
def MPPT_case_startup (current_time_ms : Nat) (c : MPPT_Ctx) : MPPT_Ctx :=
  if sub_u32 current_time_ms c.state_entry_time_ms > MPPT_STARTUP_DELAY_MS then
    -- Start with 30% duty (12 ticks)
    { c with mppt_status := { c.mppt_status with duty_ticks := STARTUP_DUTY_TICKS,
                                                 state := MPPT_STATE_BULK },
             pwm := HAL_PWM_Start (HAL_PWM_SetDuty .PWM_BOTH_PHASES STARTUP_DUTY_TICKS
               (HAL_PWM_EnableDrivers true true c.pwm)),
             last_power_mw := c.mppt_status.pv_power_mw,
             hysteresis_counter := 0,
             state_entry_time_ms := current_time_ms }
  else { c with pwm := HAL_PWM_EnableDrivers true true c.pwm }

/-- The transition test that closes the Bulk, Absorb and Float cases: when
`leave` holds the state becomes `next` and the entry time is stamped. -/
def MPPT_transition (leave : Bool) (next : MPPT_State_t) (current_time_ms : Nat)
    (c : MPPT_Ctx) : MPPT_Ctx :=
  if leave then
    { c with mppt_status := { c.mppt_status with state := next },
             state_entry_time_ms := current_time_ms }
  else c

/-- The `case MPPT_STATE_BULK` of `MPPT_Process`. -/
def MPPT_case_bulk (current_time_ms : Nat) (c : MPPT_Ctx) : MPPT_Ctx :=
  -- Maximum Power Point Tracking, then check for absorption transition
  MPPT_transition
    (decide ((perturb_and_observe c).mppt_status.battery_voltage_mv ≥ BATTERY_ABSORB_MV))
    MPPT_STATE_ABSORB current_time_ms (perturb_and_observe c)

/-- The `case MPPT_STATE_ABSORB` of `MPPT_Process`. -/
def MPPT_case_absorb (current_time_ms : Nat) (c : MPPT_Ctx) : MPPT_Ctx :=
  -- Constant voltage mode at 28.8V, then transition to float when current drops
  MPPT_transition
    (decide ((constant_voltage_control BATTERY_ABSORB_MV c).mppt_status.battery_current_ma
      < 5000))
    MPPT_STATE_FLOAT current_time_ms (constant_voltage_control BATTERY_ABSORB_MV c)

/-- The `case MPPT_STATE_FLOAT` of `MPPT_Process`. -/
def MPPT_case_float (current_time_ms : Nat) (c : MPPT_Ctx) : MPPT_Ctx :=
  -- Maintain float voltage (27.4V), return to bulk if voltage drops
  MPPT_transition
    (decide ((constant_voltage_control BATTERY_FLOAT_MV c).mppt_status.battery_voltage_mv
      < BATTERY_FLOAT_MV - 500))
    MPPT_STATE_BULK current_time_ms (constant_voltage_control BATTERY_FLOAT_MV c)

/-- The `case MPPT_STATE_NIGHT` of `MPPT_Process`. -/
def MPPT_case_night (c : MPPT_Ctx) : MPPT_Ctx :=
  -- Check for sunrise (16-bit unsigned sum)
  if c.mppt_status.pv_voltage_mv >
      u16 (c.mppt_status.battery_voltage_mv + PANEL_START_DELTA_MV) then
    { c with pwm := HAL_PWM_Stop c.pwm,
             mppt_status := { c.mppt_status with duty_ticks := 0, state := MPPT_STATE_IDLE } }
  else
    { c with pwm := HAL_PWM_Stop c.pwm,
             mppt_status := { c.mppt_status with duty_ticks := 0 } }

/-- The `case MPPT_STATE_FAULT` of `MPPT_Process`. -/
def MPPT_case_fault (c : MPPT_Ctx) : MPPT_Ctx :=
  { c with pwm := HAL_PWM_EnableDrivers false false (HAL_PWM_Stop c.pwm),
           mppt_status := { c.mppt_status with duty_ticks := 0 } }

/-- The `switch(mppt_status.state)` of `MPPT_Process`. -/
def MPPT_state_machine (env : MPPT_Env) (current_time_ms : Nat) (c : MPPT_Ctx) : MPPT_Ctx :=
  match c.mppt_status.state with
  | MPPT_STATE_IDLE => MPPT_case_idle env c
  | MPPT_STATE_STARTUP => MPPT_case_startup current_time_ms c
  | MPPT_STATE_BULK => MPPT_case_bulk current_time_ms c
  | MPPT_STATE_ABSORB => MPPT_case_absorb current_time_ms c
  | MPPT_STATE_FLOAT => MPPT_case_float current_time_ms c
  | MPPT_STATE_NIGHT => MPPT_case_night c
  | MPPT_STATE_FAULT => MPPT_case_fault c

/-- The part of `MPPT_Process` that runs before the `switch`: time stamp,
measurements, fault checks, runtime. -/
def MPPT_before_switch (env : MPPT_Env) (c : MPPT_Ctx) : MPPT_Ctx :=
  { check_faults (update_measurements env
      { c with last_process_time_ms := u32 env.system_millis }) with
    mppt_status :=
      { (check_faults (update_measurements env
          { c with last_process_time_ms := u32 env.system_millis })).mppt_status with
        runtime_seconds := u32 env.system_millis / 1000 } }

/-- The energy counter update that ends `MPPT_Process`. -/
def MPPT_energy_update (c : MPPT_Ctx) : MPPT_Ctx :=
  { c with mppt_status := { c.mppt_status with
      energy_today_wh := u32 (c.mppt_status.energy_today_wh +
        u32 (c.mppt_status.battery_power_mw * 100) / 3600 / 1000) } }

def MPPT_Process (env : MPPT_Env) (c : MPPT_Ctx) : MPPT_Ctx :=
  -- Enforce 100ms update interval
  if MPPT_interval_pending env c then c
  else
    MPPT_energy_update
      (MPPT_state_machine env (u32 env.system_millis) (MPPT_before_switch env c))

/-- The out-parameter of `MPPT_GetStatus`: `none` stands for a `NULL` pointer,
`some` for a caller-owned record, which receives a copy of the status. -/
def MPPT_GetStatus (status : Option MPPT_Status_t) (c : MPPT_Ctx) : Option MPPT_Status_t :=
  match status with
  | none => none
  | some _ => some c.mppt_status

def MPPT_EnableCharging (c : MPPT_Ctx) : MPPT_Ctx :=
  { c with mppt_status := { c.mppt_status with charging_enabled := true } }

def MPPT_DisableCharging (c : MPPT_Ctx) : MPPT_Ctx :=
  { c with mppt_status := { c.mppt_status with charging_enabled := false,
                                               state := MPPT_STATE_IDLE },
           pwm := HAL_PWM_EnableDrivers false false (HAL_PWM_Stop c.pwm) }

def MPPT_EmergencyStop (c : MPPT_Ctx) : MPPT_Ctx :=
  { c with mppt_status := { c.mppt_status with state := MPPT_STATE_FAULT,
                                               fault := MPPT_FAULT_OVERCURRENT },
           pwm := HAL_PWM_EnableDrivers false false (HAL_PWM_Stop c.pwm) }

def MPPT_ClearFaults (c : MPPT_Ctx) : MPPT_Ctx :=
  if c.mppt_status.state = MPPT_STATE_FAULT then
    { c with mppt_status := { c.mppt_status with fault := MPPT_FAULT_NONE,
                                                 state := MPPT_STATE_IDLE } }
  else c

def MPPT_ResetDailyEnergy (c : MPPT_Ctx) : MPPT_Ctx :=
  { c with mppt_status := { c.mppt_status with energy_today_wh := 0 } }

def MPPT_IsCharging (c : MPPT_Ctx) : Bool :=
  c.mppt_status.state = MPPT_STATE_BULK ||
  c.mppt_status.state = MPPT_STATE_ABSORB ||
  c.mppt_status.state = MPPT_STATE_FLOAT

/-- One call of a public operation of the charge controller. -/
inductive MPPT_Op where
  | Init (system_millis : Nat)
  | Process (env : MPPT_Env)
  | GetStatus
  | EnableCharging
  | DisableCharging
  | EmergencyStop
  | ClearFaults
  | ResetDailyEnergy
  deriving DecidableEq

/-- Effect of one public operation on the module state. -/
def MPPT_apply (c : MPPT_Ctx) (op : MPPT_Op) : MPPT_Ctx :=
  match op with
  | .Init system_millis => MPPT_Init system_millis c.pwm
  | .Process env => MPPT_Process env c
  | .GetStatus => c
  | .EnableCharging => MPPT_EnableCharging c
  | .DisableCharging => MPPT_DisableCharging c
  | .EmergencyStop => MPPT_EmergencyStop c
  | .ClearFaults => MPPT_ClearFaults c
  | .ResetDailyEnergy => MPPT_ResetDailyEnergy c

/-- State after `MPPT_Init` at tick `t0` followed by the operations `ops`. -/
def MPPT_run (t0 : Nat) (pwm : HAL_PWM) (ops : List MPPT_Op) : MPPT_Ctx :=
  ops.foldl MPPT_apply (MPPT_Init t0 pwm)

/-- States reachable from `MPPT_Init` by a sequence of public operations. -/
def MPPT_Reachable (c : MPPT_Ctx) : Prop :=
  ∃ (t0 : Nat) (pwm : HAL_PWM) (ops : List MPPT_Op), c = MPPT_run t0 pwm ops

/-! ## hal_motor.h / hal_motor.c -/

@[simp] def MOTOR_PWM_PERIOD : Nat := 400

inductive MotorDir_t where
  | MOTOR_STOP
  | MOTOR_OPENING
  | MOTOR_CLOSING
  deriving DecidableEq

/-- State of the motor driver: the encoder counter of `hal_motor.c`, the four
output pins it drives and the Timer_B3 compare register that sets the speed. -/
structure HAL_Motor where
  encoder_counter : Nat
  /-- Level of the motor power enable pin. -/
  main_power : Bool
  /-- Level of the logic enable pin. -/
  logic_en : Bool
  /-- Level of the direction pin (high while opening). -/
  dir_pin : Bool
  /-- Level of the brake pin. -/
  brake : Bool
  /-- Timer_B3 CCR2, the motor PWM compare value. -/
  pwm_compare : Nat
  deriving DecidableEq

/-- Motor driver state at power-up: the encoder counter has its initial value 0
and the output pins are low. -/
def HAL_Motor_boot : HAL_Motor :=
  { encoder_counter := 0, main_power := false, logic_en := false, dir_pin := false,
    brake := false, pwm_compare := 0 }

def HAL_Motor_SetMainPower (enable : Bool) (m : HAL_Motor) : HAL_Motor :=
  { m with main_power := enable }

/-- The call `HAL_Motor_Brake(false)` made from `HAL_Motor_Move` is written out
as the pin write it performs. -/
def HAL_Motor_Move (dir : MotorDir_t) (speed_percent : Nat) (m : HAL_Motor) : HAL_Motor :=
  let speed_percent := if u8 speed_percent > 100 then 100 else u8 speed_percent
  -- Logic Enable ON
  let m1 : HAL_Motor := { m with logic_en := true }
  let (speed_percent, m2) : Nat × HAL_Motor :=
    if dir = .MOTOR_OPENING then (speed_percent, { m1 with dir_pin := true, brake := false })
    else if dir = .MOTOR_CLOSING then (speed_percent, { m1 with dir_pin := false, brake := false })
    else (0, { m1 with logic_en := false })
  -- Set PWM
  { m2 with pwm_compare := u16 (u32 (MOTOR_PWM_PERIOD * speed_percent) / 100) }

def HAL_Motor_Brake (enable : Bool) (m : HAL_Motor) : HAL_Motor :=
  if enable then { HAL_Motor_Move .MOTOR_STOP 0 m with brake := true }
  else { m with brake := false }

def HAL_Motor_GetEncoderCount (m : HAL_Motor) : Nat := m.encoder_counter

def HAL_Motor_ResetEncoder (m : HAL_Motor) : HAL_Motor := { m with encoder_counter := 0 }

/-- The "initial safe state" part of `HAL_Motor_Init`. -/
def HAL_Motor_Init (m : HAL_Motor) : HAL_Motor :=
  HAL_Motor_Brake true (HAL_Motor_Move .MOTOR_STOP 0 (HAL_Motor_SetMainPower false m))

/-- The encoder interrupt `Port1_ISR`, for one falling edge of the encoder pin. -/
def Port1_ISR (m : HAL_Motor) : HAL_Motor :=
  { m with encoder_counter := u32 (m.encoder_counter + 1) }

/-! ## valve_controller.h / valve_controller.c -/

@[simp] def VALVE_TIMEOUT_MS : Nat := 15000
@[simp] def VALVE_STALL_CURRENT_MA : Nat := 1200
@[simp] def VALVE_MIN_ENCODER_DIFF : Nat := 5

inductive ValveState_t where
  | VALVE_IDLE_CLOSED
  | VALVE_IDLE_OPEN
  | VALVE_PRE_OPENING
  | VALVE_OPENING
  | VALVE_PRE_CLOSING
  | VALVE_CLOSING
  | VALVE_FAULT
  deriving DecidableEq

open ValveState_t

/-- Integer value of an enumerator of `ValveState_t`. -/
def ValveState_t.toNat : ValveState_t → Nat
  | VALVE_IDLE_CLOSED => 0
  | VALVE_IDLE_OPEN => 1
  | VALVE_PRE_OPENING => 2
  | VALVE_OPENING => 3
  | VALVE_PRE_CLOSING => 4
  | VALVE_CLOSING => 5
  | VALVE_FAULT => 6

/-- The `static` variables of `valve_controller.c`. -/
structure Valve_Ctx where
  state : ValveState_t
  process_timer : Nat
  last_encoder_val : Nat
  current_speed : Nat
  deriving DecidableEq

/-- Values of the `static` variables of `valve_controller.c` at power-up. -/
def Valve_boot : Valve_Ctx :=
  { state := VALVE_IDLE_CLOSED, process_timer := 0, last_encoder_val := 0, current_speed := 0 }

def Valve_Init (v : Valve_Ctx) (m : HAL_Motor) : Valve_Ctx × HAL_Motor :=
  ({ v with state := VALVE_IDLE_CLOSED }, HAL_Motor_Init m)

def Valve_Open (v : Valve_Ctx) : Valve_Ctx :=
  if v.state = VALVE_IDLE_CLOSED ∨ v.state = VALVE_IDLE_OPEN then
    { v with state := VALVE_PRE_OPENING, process_timer := 0 }
  else v

def Valve_Close (v : Valve_Ctx) : Valve_Ctx :=
  if v.state = VALVE_IDLE_CLOSED ∨ v.state = VALVE_IDLE_OPEN then
    { v with state := VALVE_PRE_CLOSING, process_timer := 0 }
  else v

def Valve_GetState (v : Valve_Ctx) : ValveState_t := v.state

/-- What one call of `Valve_Process` reads from outside the module. -/
structure Valve_Env where
  /-- Value returned by `HAL_Motor_IsFault()`: the level of the driver fault pin. -/
  motor_fault : Bool
  /-- Value returned by `HAL_ADC_GetRawValue(VAL_LOAD_CURRENT_ADC_CH)`: the raw
  sample of the motor current channel. -/
  load_current_raw : Nat
  deriving DecidableEq

/-- The `current_ma` of `check_stall`: `((uint32_t)raw * 5000) / 4095`. -/
def check_stall_current_ma (raw : Nat) : Nat := u32 (u16 raw * 5000) / 4095

/-- Returns the verdict together with the module state, whose
`last_encoder_val` the encoder check updates. -/
def check_stall (env : Valve_Env) (v : Valve_Ctx) (m : HAL_Motor) : Bool × Valve_Ctx :=
  -- 1. Current Check
  if check_stall_current_ma env.load_current_raw > VALVE_STALL_CURRENT_MA then (true, v)
  -- 2. Encoder Check, only if speed is high enough (>50%)
  else if v.current_speed > 50 then
    (decide (sub_u32 (HAL_Motor_GetEncoderCount m) v.last_encoder_val < VALVE_MIN_ENCODER_DIFF),
     { v with last_encoder_val := HAL_Motor_GetEncoderCount m })
  else (false, v)

/-- The cases `VALVE_PRE_OPENING` and `VALVE_PRE_CLOSING` of `Valve_Process`,
which differ only in the state they move on to. -/
def Valve_case_pre (next : ValveState_t) (s : Valve_Ctx × HAL_Motor) : Valve_Ctx × HAL_Motor :=
  -- Power ON driver, reset encoder, speed 20; wait 100ms for power to stabilize
  if s.1.process_timer > 100 then
    ({ s.1 with last_encoder_val := 0, current_speed := 20, state := next, process_timer := 0 },
     HAL_Motor_ResetEncoder (HAL_Motor_SetMainPower true s.2))
  else
    ({ s.1 with last_encoder_val := 0, current_speed := 20 },
     HAL_Motor_ResetEncoder (HAL_Motor_SetMainPower true s.2))

/-- Step 1 of the moving cases: soft start (ramp up). -/
def Valve_soft_start (dir : MotorDir_t) (s : Valve_Ctx × HAL_Motor) : Valve_Ctx × HAL_Motor :=
  if s.1.current_speed < 100 then
    ({ s.1 with current_speed := u8 (s.1.current_speed + 5) },
     HAL_Motor_Move dir (u8 (s.1.current_speed + 5)) s.2)
  else s

/-- Step 2 of the moving cases: check timeout. -/
def Valve_check_timeout (s : Valve_Ctx × HAL_Motor) : Valve_Ctx × HAL_Motor :=
  if s.1.process_timer > VALVE_TIMEOUT_MS then
    ({ s.1 with state := VALVE_FAULT },
     HAL_Motor_SetMainPower false (HAL_Motor_Move .MOTOR_STOP 0 s.2))
  else s

/-- Step 3 of the moving cases: check stall (end of travel), ignoring the first
500 ms; `done` is the idle state entered when the stall is detected. -/
def Valve_check_stall (done : ValveState_t) (env : Valve_Env) (s : Valve_Ctx × HAL_Motor) :
    Valve_Ctx × HAL_Motor :=
  if s.1.process_timer > 500 then
    if (check_stall env s.1 s.2).1 then
      ({ (check_stall env s.1 s.2).2 with state := done },
       HAL_Motor_SetMainPower false (HAL_Motor_Brake true s.2))
    else ((check_stall env s.1 s.2).2, s.2)
  else s

/-- The cases `VALVE_OPENING` and `VALVE_CLOSING` of `Valve_Process`, which
differ only in the direction driven and the idle state reached. -/
def Valve_case_moving (dir : MotorDir_t) (done : ValveState_t) (env : Valve_Env)
    (s : Valve_Ctx × HAL_Motor) : Valve_Ctx × HAL_Motor :=
  Valve_check_stall done env (Valve_check_timeout (Valve_soft_start dir s))

/-- The `switch (state)` of `Valve_Process`. -/
def Valve_switch (env : Valve_Env) (s : Valve_Ctx × HAL_Motor) : Valve_Ctx × HAL_Motor :=
  match s.1.state with
  | VALVE_PRE_OPENING => Valve_case_pre VALVE_OPENING s
  | VALVE_OPENING => Valve_case_moving .MOTOR_OPENING VALVE_IDLE_OPEN env s
  | VALVE_PRE_CLOSING => Valve_case_pre VALVE_CLOSING s
  | VALVE_CLOSING => Valve_case_moving .MOTOR_CLOSING VALVE_IDLE_CLOSED env s
  | _ => s

def Valve_Process (env : Valve_Env) (v : Valve_Ctx) (m : HAL_Motor) : Valve_Ctx × HAL_Motor :=
  -- Assuming 50ms interval call: process_timer += 50
  -- Safety: check driver fault pin
  if env.motor_fault then
    ({ v with process_timer := u32 (v.process_timer + 50), state := VALVE_FAULT },
     HAL_Motor_SetMainPower false m)
  else Valve_switch env ({ v with process_timer := u32 (v.process_timer + 50) }, m)

/-- One call of a public operation of the valve controller, or one encoder
interrupt. -/
inductive Valve_Op where
  | Init
  | Open
  | Close
  | Process (env : Valve_Env)
  | Encoder
  deriving DecidableEq

/-- Effect of one operation on the valve controller and the motor driver. -/
def Valve_apply (s : Valve_Ctx × HAL_Motor) (op : Valve_Op) : Valve_Ctx × HAL_Motor :=
  match op with
  | .Init => Valve_Init s.1 s.2
  | .Open => (Valve_Open s.1, s.2)
  | .Close => (Valve_Close s.1, s.2)
  | .Process env => Valve_Process env s.1 s.2
  | .Encoder => (s.1, Port1_ISR s.2)

/-- State after power-up, `Valve_Init`, and then the operations `ops`. -/
def Valve_run (m0 : HAL_Motor) (ops : List Valve_Op) : Valve_Ctx × HAL_Motor :=
  ops.foldl Valve_apply (Valve_Init Valve_boot m0)

/-- States reachable from `Valve_Init` after power-up. -/
def Valve_Reachable (s : Valve_Ctx × HAL_Motor) : Prop :=
  ∃ (m0 : HAL_Motor) (ops : List Valve_Op), s = Valve_run m0 ops

/-- One 50 ms period: `pulses` encoder interrupts, then one `Valve_Process`. -/
def Valve_period (pulses : Nat) (env : Valve_Env) (s : Valve_Ctx × HAL_Motor) :
    Valve_Ctx × HAL_Motor :=
  Valve_Process env s.1 (Port1_ISR^[pulses] s.2)

/-- The state after `k` consecutive periods, period `j` having `pulses j`
encoder interrupts and inputs `envs j`. -/
def Valve_iterate (pulses : Nat → Nat) (envs : Nat → Valve_Env) :
    Nat → Valve_Ctx × HAL_Motor → Valve_Ctx × HAL_Motor
  | 0, s => s
  | k + 1, s => Valve_period (pulses k) (envs k) (Valve_iterate pulses envs k s)

/-- The verdict `check_stall` gives when it is called in a moving period that
starts in state `s`, has `pulses` encoder interrupts and reads the inputs `env`:
the call comes after the soft start of that period. -/
def Valve_stall_seen (dir : MotorDir_t) (pulses : Nat) (env : Valve_Env)
    (s : Valve_Ctx × HAL_Motor) : Bool :=
  (check_stall env (Valve_soft_start dir (s.1, Port1_ISR^[pulses] s.2)).1
    (Valve_soft_start dir (s.1, Port1_ISR^[pulses] s.2)).2).1

/-! ## hal_adc.h / hal_adc.c (conversions) -/

@[simp] def ADC_RESOLUTION : Nat := 4096
@[simp] def ADC_VREF_MV : Nat := 2500
@[simp] def VOLTAGE_RATIO_X10 : Nat := 188
@[simp] def CURRENT_FACTOR_X10 : Nat := 10

/-- Convert value from raw to voltage. -/
def Calculate_Voltage (raw_val : Nat) (ratio_x10 : Nat) : Nat :=
  u16 (u32 (u32 (u16 raw_val * ADC_VREF_MV) * u32 ratio_x10) / ADC_RESOLUTION / 10)

/-- Convert value from raw to current. -/
def Calculate_Current (raw_val : Nat) (factor_x10 : Nat) : Nat :=
  u16 (u32 (u32 (u16 raw_val * ADC_VREF_MV) / ADC_RESOLUTION * u32 factor_x10) / 10)

/-- The latest results of the five channels, as `HAL_ADC_Read` stores them. -/
structure HAL_ADC where
  adc_results : List Nat
  deriving DecidableEq

/-- Read of element `i` of the `uint16_t` array `adc_results`. -/
def HAL_ADC_result (a : HAL_ADC) (i : Nat) : Nat := u16 (a.adc_results.getD i 0)

def HAL_ADC_GetPV_Voltage_mV (a : HAL_ADC) : Nat :=
  Calculate_Voltage (HAL_ADC_result a 0) VOLTAGE_RATIO_X10

def HAL_ADC_GetBatt_Voltage_mV (a : HAL_ADC) : Nat :=
  Calculate_Voltage (HAL_ADC_result a 1) VOLTAGE_RATIO_X10

def HAL_ADC_GetPV_Current_mA (a : HAL_ADC) : Nat :=
  Calculate_Current (HAL_ADC_result a 2) CURRENT_FACTOR_X10

def HAL_ADC_GetBatt_Current_mA (a : HAL_ADC) : Nat :=
  Calculate_Current (HAL_ADC_result a 3) CURRENT_FACTOR_X10

/-- The inputs of one `MPPT_Process` call when the four readings are the ones
the ADC driver returns for the stored results `a`. -/
def MPPT_Env_of_ADC (system_millis system_millis_restart : Nat) (a : HAL_ADC) : MPPT_Env :=
  { system_millis := system_millis,
    system_millis_restart := system_millis_restart,
    pv_voltage_mv := HAL_ADC_GetPV_Voltage_mV a,
    pv_current_ma := HAL_ADC_GetPV_Current_mA a,
    battery_voltage_mv := HAL_ADC_GetBatt_Voltage_mV a,
    battery_current_ma := HAL_ADC_GetBatt_Current_mA a }

/-! ## hal_uart.h / hal_uart.c -/

@[simp] def UART_RX_BUFFER_SIZE : Nat := 16

/-- Read of element `i` of a `uint8_t` array. -/
def rd (buffer : List Nat) (i : Nat) : Nat := u8 (buffer.getD i 0)

/-- State of the serial driver: the receive buffer, its fill index and the
ready flag of `hal_uart.c`; the level of the RS485 driver-enable pin; and every
byte handed to the transmitter so far, oldest first. -/
structure HAL_UART where
  rx_buffer : List Nat
  rx_index : Nat
  data_ready : Bool
  rs485_en : Bool
  tx_line : List Nat
  deriving DecidableEq

/-- Serial driver state at power-up, with an empty 16-byte receive buffer. -/
def HAL_UART_boot : HAL_UART :=
  { rx_buffer := List.replicate 16 0, rx_index := 0, data_ready := false,
    rs485_en := false, tx_line := [] }

/-- Transmission of `buffer[0 .. length-1]`; the driver-enable pin is raised
for the duration and is low again on return. -/
def HAL_UART_TxBuffer (buffer : List Nat) (length : Nat) (u : HAL_UART) : HAL_UART :=
  { u with tx_line := u.tx_line ++ (List.range (u16 length)).map (rd buffer),
           rs485_en := false }

def HAL_UART_IsDataReady (u : HAL_UART) : Bool := u.data_ready

/-- The copy loop `for (i = 0; i < count; i++) dest_buffer[i] = rx_buffer[i]`. -/
def HAL_UART_copy (rx_buffer : List Nat) : Nat → List Nat → List Nat
  | 0, dest_buffer => dest_buffer
  | i + 1, dest_buffer => (HAL_UART_copy rx_buffer i dest_buffer).set i (rd rx_buffer i)

/-- Returns the byte count, the driver state and the destination buffer. -/
def HAL_UART_GetData (u : HAL_UART) (dest_buffer : List Nat) : Nat × HAL_UART × List Nat :=
  if !u.data_ready then (0, u, dest_buffer)
  else
    let count := u.rx_index
    (count, { u with rx_index := 0, data_ready := false },
      HAL_UART_copy u.rx_buffer count dest_buffer)

/-- The receive branch of the interrupt routine `USCI_A1_ISR`. -/
def USCI_A1_ISR (received_byte : Nat) (u : HAL_UART) : HAL_UART :=
  if u.rx_index < UART_RX_BUFFER_SIZE then
    let u1 : HAL_UART :=
      { u with rx_buffer := u.rx_buffer.set u.rx_index (u8 received_byte),
               rx_index := u16 (u.rx_index + 1) }
    if u1.rx_index ≥ 8 then { u1 with data_ready := true } else u1
  else u

/-- One event at the serial driver: a received byte, or a `HAL_UART_GetData`
call. -/
inductive HAL_UART_Op where
  | Rx (received_byte : Nat)
  | GetData (dest_buffer : List Nat)
  deriving DecidableEq

/-- Effect of one event on the serial driver state. -/
def HAL_UART_apply (u : HAL_UART) (op : HAL_UART_Op) : HAL_UART :=
  match op with
  | .Rx received_byte => USCI_A1_ISR received_byte u
  | .GetData dest_buffer => (HAL_UART_GetData u dest_buffer).2.1

/-- Serial driver state after power-up and then the events `ops`. -/
def HAL_UART_run (ops : List HAL_UART_Op) : HAL_UART :=
  ops.foldl HAL_UART_apply HAL_UART_boot

/-- Serial driver states reachable from the empty buffer. -/
def HAL_UART_Reachable (u : HAL_UART) : Prop :=
  ∃ ops : List HAL_UART_Op, u = HAL_UART_run ops

/-! ## telemetry.h / telemetry.c -/

@[simp] def DEVICE_ID : Nat := 0x01
@[simp] def REG_VALVE_STATE : Nat := 0x0001
@[simp] def REG_BATT_VOLTAGE : Nat := 0x0002
@[simp] def REG_PV_VOLTAGE : Nat := 0x0003
@[simp] def REG_MOTOR_CURRENT : Nat := 0x0004
@[simp] def REG_ENCODER_COUNT : Nat := 0x0005
@[simp] def REG_COMMAND_VALVE : Nat := 0x0010

/-- One pass of the inner bit loop of `calculate_crc`. -/
def crc16_shift (crc : Nat) : Nat :=
  if crc &&& 0x0001 ≠ 0 then (crc >>> 1) ^^^ 0xA001 else crc >>> 1

/-- Body of the outer loop of `calculate_crc` for one byte: the xor with the
byte followed by the eight passes of the bit loop. -/
def crc16_update (crc : Nat) (byte : Nat) : Nat :=
  crc16_shift^[8] (crc ^^^ byte)

def calculate_crc (buffer : List Nat) (length : Nat) : Nat :=
  (List.range (u16 length)).foldl (fun crc pos => crc16_update crc (rd buffer pos)) 0xFFFF

/-- The whole firmware state the telemetry handler works on: its own two
buffers, the serial driver, and the modules it queries or commands. -/
structure Telemetry_Ctx where
  rx_data : List Nat
  tx_data : List Nat
  uart : HAL_UART
  valve : Valve_Ctx
  motor : HAL_Motor
  mppt : MPPT_Ctx
  deriving DecidableEq

/-- The `received_crc` of `Telemetry_Process`: bytes 6 and 7, low byte first. -/
def Telemetry_received_crc (rx_data : List Nat) : Nat :=
  u16 ((rd rx_data 7 <<< 8) ||| rd rx_data 6)

/-- Modelled from the spec: `Telemetry_Process` reads `MPPT_GetStatus().v_batt_mv`,
but the repository declares no `MPPT_GetStatus` that returns a record and no
member `v_batt_mv`; by the register map of the spec the register holds the
battery voltage in mV. -/
def MPPT_GetStatus_v_batt_mv (c : MPPT_Ctx) : Nat := c.mppt_status.battery_voltage_mv

/-- Modelled from the spec: `Telemetry_Process` reads `MPPT_GetStatus().v_pv_mv`,
which the repository does not declare; by the register map of the spec the
register holds the PV voltage in mV. -/
def MPPT_GetStatus_v_pv_mv (c : MPPT_Ctx) : Nat := c.mppt_status.pv_voltage_mv

/-- Modelled from the spec: `Telemetry_Process` reads `MPPT_GetStatus().i_batt_ma`,
which the repository does not declare; by the register map of the spec the
register holds a current measurement in mA, by its name the battery current. -/
def MPPT_GetStatus_i_batt_ma (c : MPPT_Ctx) : Nat := c.mppt_status.battery_current_ma

/-- The `switch (reg_addr)` of the read branch of `Telemetry_Process`, with the
conversion to the `uint16_t` variable `response_val`. -/
def Telemetry_response_val (s : Telemetry_Ctx) (reg_addr : Nat) : Nat :=
  if reg_addr = REG_VALVE_STATE then u16 (Valve_GetState s.valve).toNat
  else if reg_addr = REG_BATT_VOLTAGE then u16 (MPPT_GetStatus_v_batt_mv s.mppt)
  else if reg_addr = REG_PV_VOLTAGE then u16 (MPPT_GetStatus_v_pv_mv s.mppt)
  else if reg_addr = REG_MOTOR_CURRENT then u16 (MPPT_GetStatus_i_batt_ma s.mppt)
  else if reg_addr = REG_ENCODER_COUNT then u16 (HAL_Motor_GetEncoderCount s.motor)
  else 0xFFFF

/-- The five assignments that construct the response packet in `tx_data`:
`[ID] [03] [ByteCount] [DataH] [DataL]`. -/
def Telemetry_response_head (response_val : Nat) (tx_data : List Nat) : List Nat :=
  ((((tx_data.set 0 DEVICE_ID).set 1 0x03).set 2 0x02).set 3
    ((response_val >>> 8) &&& 0xFF)).set 4 (response_val &&& 0xFF)

/-- The response packet with the CRC appended: `[CRCL] [CRCH]` in bytes 5, 6. -/
def Telemetry_response_packet (response_val : Nat) (tx_data : List Nat) : List Nat :=
  ((Telemetry_response_head response_val tx_data).set 5
    (calculate_crc (Telemetry_response_head response_val tx_data) 5 &&& 0xFF)).set 6
    ((calculate_crc (Telemetry_response_head response_val tx_data) 5 >>> 8) &&& 0xFF)

/-- Scenario 1 of `Telemetry_Process`: read holding registers (0x03). -/
def Telemetry_read (reg_addr : Nat) (s : Telemetry_Ctx) : Telemetry_Ctx :=
  { s with tx_data := Telemetry_response_packet (Telemetry_response_val s reg_addr) s.tx_data,
           uart := HAL_UART_TxBuffer
             (Telemetry_response_packet (Telemetry_response_val s reg_addr) s.tx_data) 7 s.uart }

/-- Scenario 2 of `Telemetry_Process`: write single register (0x06). -/
def Telemetry_write (reg_addr reg_data : Nat) (s : Telemetry_Ctx) : Telemetry_Ctx :=
  if reg_addr = REG_COMMAND_VALVE then
    -- Response: echo the request
    { s with valve := if reg_data = 1 then Valve_Open s.valve else Valve_Close s.valve,
             uart := HAL_UART_TxBuffer s.rx_data 8 s.uart }
  else s

/-- The `reg_addr` of `Telemetry_Process`: bytes 2 and 3, high byte first. -/
def Telemetry_reg_addr (rx_data : List Nat) : Nat :=
  u16 ((rd rx_data 2 <<< 8) ||| rd rx_data 3)

/-- The `reg_data` of `Telemetry_Process`: bytes 4 and 5, high byte first. -/
def Telemetry_reg_data (rx_data : List Nat) : Nat :=
  u16 ((rd rx_data 4 <<< 8) ||| rd rx_data 5)

/-- Steps 3 to 5 of `Telemetry_Process`, on the frame already in `rx_data`:
verify the CRC, verify the device id, parse and execute the command. -/
def Telemetry_dispatch (s : Telemetry_Ctx) : Telemetry_Ctx :=
  if calculate_crc s.rx_data 6 ≠ Telemetry_received_crc s.rx_data then s
  else if rd s.rx_data 0 ≠ DEVICE_ID then s
  else if rd s.rx_data 1 = 0x03 then Telemetry_read (Telemetry_reg_addr s.rx_data) s
  else if rd s.rx_data 1 = 0x06 then
    Telemetry_write (Telemetry_reg_addr s.rx_data) (Telemetry_reg_data s.rx_data) s
  else s

/-- Step 2 of `Telemetry_Process`: the call `HAL_UART_GetData(rx_data)`. -/
def Telemetry_retrieve (s : Telemetry_Ctx) : Telemetry_Ctx :=
  { s with uart := (HAL_UART_GetData s.uart s.rx_data).2.1,
           rx_data := (HAL_UART_GetData s.uart s.rx_data).2.2 }

def Telemetry_Process (s : Telemetry_Ctx) : Telemetry_Ctx :=
  -- 1. Check if mail has arrived
  if !HAL_UART_IsDataReady s.uart then s
  -- 2. Retrieve the mail; an incomplete packet is ignored
  else if u16 (HAL_UART_GetData s.uart s.rx_data).1 < 8 then Telemetry_retrieve s
  else Telemetry_dispatch (Telemetry_retrieve s)

/-- The arrays of the telemetry handler and of the serial driver have their
declared size of 16 bytes, and the fill index of the serial driver lies within
its buffer. -/
def Telemetry_sized (s : Telemetry_Ctx) : Prop :=
  s.rx_data.length = 16 ∧ s.tx_data.length = 16 ∧
  s.uart.rx_buffer.length = UART_RX_BUFFER_SIZE ∧ s.uart.rx_index ≤ UART_RX_BUFFER_SIZE

instance (s : Telemetry_Ctx) : Decidable (Telemetry_sized s) := by
  unfold Telemetry_sized; infer_instance

/-- The serial driver holds a complete frame: the ready flag is set and at
least 8 bytes are buffered. -/
def Telemetry_frame_ready (s : Telemetry_Ctx) : Prop :=
  s.uart.data_ready = true ∧ 8 ≤ s.uart.rx_index

instance (s : Telemetry_Ctx) : Decidable (Telemetry_frame_ready s) := by
  unfold Telemetry_frame_ready; infer_instance

/-- The state in which bit `k` of byte `i` of the frame held by the serial driver
is flipped. -/
def Telemetry_flip_bit (i k : Nat) (s : Telemetry_Ctx) : Telemetry_Ctx :=
  { s with uart := { s.uart with
      rx_buffer := s.uart.rx_buffer.set i (rd s.uart.rx_buffer i ^^^ (1 <<< k)) } }

/-- The firmware state at power-up, with the valve controller in the state
`valve`, once the bytes `frame` have arrived on the serial line; the two `static`
arrays of `telemetry.c` are zero-initialised. -/
def Telemetry_with_frame (frame : List Nat) (valve : Valve_Ctx) : Telemetry_Ctx :=
  { rx_data := List.replicate 16 0, tx_data := List.replicate 16 0,
    uart := HAL_UART_run (frame.map HAL_UART_Op.Rx), valve := valve,
    motor := HAL_Motor_boot, mppt := MPPT_Init 0 HAL_PWM_boot }

/-! ## Closed forms used by the proofs

The definitions below restate, field by field, what the functions above leave
behind; each is proved equal to the function it restates before it is used. -/

/-- Charge state left by `check_faults` when it runs on the readings `env`. -/
def MPPT_checked_state (env : MPPT_Env) (state : MPPT_State_t) : MPPT_State_t :=
  if u16 env.battery_voltage_mv > BATTERY_ABSORB_MV + 500 then MPPT_STATE_FAULT
  else if u16 env.pv_current_ma > 15000 ∧ u16 env.pv_voltage_mv < 5000 then MPPT_STATE_FAULT
  else state

/-- Fault code left by `check_faults` when it runs on the readings `env`. -/
def MPPT_checked_fault (env : MPPT_Env) (fault : MPPT_Fault_t) : MPPT_Fault_t :=
  if u16 env.battery_voltage_mv > BATTERY_ABSORB_MV + 500 then MPPT_FAULT_OVERVOLTAGE
  else if u16 env.pv_current_ma > 15000 ∧ u16 env.pv_voltage_mv < 5000 then
    MPPT_FAULT_PV_SHORT
  else if u16 env.battery_voltage_mv < BATTERY_LOW_MV ∧ u16 env.battery_voltage_mv > 10000 then
    MPPT_FAULT_UNDERVOLTAGE
  else if u16 env.battery_voltage_mv > BATTERY_RECONNECT_MV ∧
      fault = MPPT_FAULT_UNDERVOLTAGE then MPPT_FAULT_NONE
  else fault

/-- PWM driver state left by the under-voltage block of `check_faults`. -/
def MPPT_checked_undervoltage_pwm (env : MPPT_Env) (fault : MPPT_Fault_t) (pwm : HAL_PWM) :
    HAL_PWM :=
  if u16 env.battery_voltage_mv < BATTERY_LOW_MV ∧ u16 env.battery_voltage_mv > 10000 then
    HAL_PWM_EnableDrivers true false pwm
  else if u16 env.battery_voltage_mv > BATTERY_RECONNECT_MV ∧
      fault = MPPT_FAULT_UNDERVOLTAGE then HAL_PWM_EnableDrivers true true pwm
  else pwm

/-- PWM driver state left by `check_faults` when it runs on the readings `env`. -/
def MPPT_checked_pwm (env : MPPT_Env) (fault : MPPT_Fault_t) (pwm : HAL_PWM) : HAL_PWM :=
  if u16 env.battery_voltage_mv > BATTERY_ABSORB_MV + 500 then HAL_PWM_Stop pwm
  else if u16 env.pv_current_ma > 15000 ∧ u16 env.pv_voltage_mv < 5000 then
    HAL_PWM_Stop (MPPT_checked_undervoltage_pwm env fault pwm)
  else MPPT_checked_undervoltage_pwm env fault pwm

/-- Perturb direction left by `perturb_and_observe`. -/
def perturb_and_observe_direction (c : MPPT_Ctx) : Int :=
  if delta_power c > (MPPT_POWER_THRESHOLD_MW : Int) then c.perturb_direction
  else if delta_power c < -(MPPT_POWER_THRESHOLD_MW : Int) then i8 (-c.perturb_direction)
  else c.perturb_direction

/-- Hysteresis counter left by `perturb_and_observe`. -/
def perturb_and_observe_counter (c : MPPT_Ctx) : Nat :=
  if delta_power c > (MPPT_POWER_THRESHOLD_MW : Int) then
    if u8 (c.hysteresis_counter + 1) ≥ MPPT_HYSTERESIS_COUNT then 0
    else u8 (c.hysteresis_counter + 1)
  else 0

/-- Duty value before the clamp in `perturb_and_observe`. -/
def perturb_and_observe_raw_duty (c : MPPT_Ctx) : Nat :=
  if delta_power c > (MPPT_POWER_THRESHOLD_MW : Int) then
    if u8 (c.hysteresis_counter + 1) ≥ MPPT_HYSTERESIS_COUNT then
      u16_of_int ((c.mppt_status.duty_ticks : Int) +
        c.perturb_direction * (MPPT_PERTURB_STEP_TICKS : Int))
    else c.mppt_status.duty_ticks
  else if delta_power c < -(MPPT_POWER_THRESHOLD_MW : Int) then
    u16_of_int ((c.mppt_status.duty_ticks : Int) +
      i8 (-c.perturb_direction) * (MPPT_PERTURB_STEP_TICKS : Int))
  else c.mppt_status.duty_ticks

/-- The PV power `update_measurements` computes from the readings `env`. -/
def MPPT_env_pv_power (env : MPPT_Env) : Nat :=
  u32 (u16 env.pv_voltage_mv * u16 env.pv_current_ma) / 1000

/-- The battery power `update_measurements` computes from the readings `env`. -/
def MPPT_env_battery_power (env : MPPT_Env) : Nat :=
  u32 (u16 env.battery_voltage_mv * u16 env.battery_current_ma) / 1000

/-- Invariant of the charge controller kept by every public operation. -/
def MPPT_Inv (c : MPPT_Ctx) : Prop :=
  ((c.mppt_status.state = MPPT_STATE_BULK ∨ c.mppt_status.state = MPPT_STATE_ABSORB ∨
      c.mppt_status.state = MPPT_STATE_FLOAT) →
    2 ≤ c.mppt_status.duty_ticks ∧ c.mppt_status.duty_ticks ≤ 36) ∧
  (c.mppt_status.state = MPPT_STATE_STARTUP → c.mppt_status.duty_ticks = 0) ∧
  (c.perturb_direction = 1 ∨ c.perturb_direction = -1) ∧
  c.hysteresis_counter ≤ 2 ∧
  c.last_power_mw ≤ 4294836 ∧
  c.mppt_status.pv_power_mw ≤ 4294836 ∧
  (c.mppt_status.state = MPPT_STATE_FAULT → c.pwm.pwm_running = false)

/-- Invariant of the valve controller and the motor driver kept by every
operation. -/
def Valve_Inv (s : Valve_Ctx × HAL_Motor) : Prop :=
  s.1.current_speed ≤ 100 ∧ s.1.current_speed % 5 = 0 ∧
  ((s.1.state = VALVE_OPENING ∨ s.1.state = VALVE_CLOSING) →
    s.2.main_power = true ∧ s.1.process_timer % 50 = 0 ∧ s.1.process_timer ≤ 15000 ∧
    s.1.current_speed = min 100 (20 + s.1.process_timer / 10) ∧
    (s.1.process_timer ≤ 500 → s.1.last_encoder_val = 0)) ∧
  ((s.1.state = VALVE_IDLE_CLOSED ∨ s.1.state = VALVE_IDLE_OPEN) →
    s.2.main_power = false ∧ s.2.brake = true)

/-- Invariant of the serial driver kept by the receive interrupt and by
`HAL_UART_GetData`. -/
def HAL_UART_Inv (u : HAL_UART) : Prop :=
  u.rx_index ≤ 16 ∧ (u.data_ready = true ↔ 8 ≤ u.rx_index)

/-! ## Lemmas on the fixed-width conversions -/

theorem i32_eq (x : Int) : i32 x = (x + 2147483648) % 4294967296 - 2147483648 := by
  cases x with
  | ofNat n =>
      simp only [i32]
      split_ifs <;> simp only [Int.ofNat_eq_coe, Int.negSucc_eq] <;> omega
  | negSucc n =>
      simp only [i32]
      split_ifs <;> simp only [Int.ofNat_eq_coe, Int.negSucc_eq] <;> omega

theorem i16_eq (x : Int) : i16 x = (x + 32768) % 65536 - 32768 := by
  cases x with
  | ofNat n =>
      simp only [i16]
      split_ifs <;> simp only [Int.ofNat_eq_coe, Int.negSucc_eq] <;> omega
  | negSucc n =>
      simp only [i16]
      split_ifs <;> simp only [Int.ofNat_eq_coe, Int.negSucc_eq] <;> omega

theorem i8_eq (x : Int) : i8 x = (x + 128) % 256 - 128 := by
  cases x with
  | ofNat n =>
      simp only [i8]
      split_ifs <;> simp only [Int.ofNat_eq_coe, Int.negSucc_eq] <;> omega
  | negSucc n =>
      simp only [i8]
      split_ifs <;> simp only [Int.ofNat_eq_coe, Int.negSucc_eq] <;> omega

theorem sub_u32_eq (a b : Nat) :
    sub_u32 a b = (a % 4294967296 + 4294967296 - b % 4294967296) % 4294967296 := by
  unfold sub_u32 u32
  split_ifs <;> omega

/-! ## Lemmas on the charge controller -/



theorem check_faults_undervoltage_eq (c : MPPT_Ctx) :
    check_faults_undervoltage c =
      { c with
        mppt_status := { c.mppt_status with
          fault :=
            if c.mppt_status.battery_voltage_mv < BATTERY_LOW_MV ∧
                c.mppt_status.battery_connected = true then MPPT_FAULT_UNDERVOLTAGE
            else if c.mppt_status.battery_voltage_mv > BATTERY_RECONNECT_MV ∧
                c.mppt_status.fault = MPPT_FAULT_UNDERVOLTAGE then MPPT_FAULT_NONE
            else c.mppt_status.fault },
        pwm :=
            if c.mppt_status.battery_voltage_mv < BATTERY_LOW_MV ∧
                c.mppt_status.battery_connected = true then
              HAL_PWM_EnableDrivers true false c.pwm
            else if c.mppt_status.battery_voltage_mv > BATTERY_RECONNECT_MV ∧
                c.mppt_status.fault = MPPT_FAULT_UNDERVOLTAGE then
              HAL_PWM_EnableDrivers true true c.pwm
            else c.pwm } := by
  unfold check_faults_undervoltage
  split_ifs <;> first | rfl | (exfalso; simp_all; done) | (exfalso; simp_all; omega)

theorem MPPT_before_switch_eq (env : MPPT_Env) (c : MPPT_Ctx) :
    MPPT_before_switch env c =
      { c with
        last_process_time_ms := u32 env.system_millis,
        mppt_status := { c.mppt_status with
          state := MPPT_checked_state env c.mppt_status.state,
          fault := MPPT_checked_fault env c.mppt_status.fault,
          pv_voltage_mv := u16 env.pv_voltage_mv,
          pv_current_ma := u16 env.pv_current_ma,
          battery_voltage_mv := u16 env.battery_voltage_mv,
          battery_current_ma := u16 env.battery_current_ma,
          pv_power_mw := u32 (u16 env.pv_voltage_mv * u16 env.pv_current_ma) / 1000,
          battery_power_mw :=
            u32 (u16 env.battery_voltage_mv * u16 env.battery_current_ma) / 1000,
          panel_connected := decide (u16 env.pv_voltage_mv > 5000),
          battery_connected := decide (u16 env.battery_voltage_mv > 10000),
          runtime_seconds := u32 env.system_millis / 1000 },
        pwm := MPPT_checked_pwm env c.mppt_status.fault c.pwm } := by
  unfold MPPT_before_switch check_faults
  rw [check_faults_undervoltage_eq]
  unfold check_faults_pv_short update_measurements MPPT_checked_state MPPT_checked_fault
    MPPT_checked_pwm MPPT_checked_undervoltage_pwm
  simp only [decide_eq_true_eq]
  split_ifs <;> rfl

theorem perturb_and_observe_eq (c : MPPT_Ctx) :
    perturb_and_observe c =
      { c with
        mppt_status := { c.mppt_status with
          duty_ticks := perturb_and_observe_clamp (perturb_and_observe_raw_duty c) },
        perturb_direction := perturb_and_observe_direction c,
        hysteresis_counter := perturb_and_observe_counter c,
        last_power_mw := c.mppt_status.pv_power_mw,
        pwm := HAL_PWM_SetDuty .PWM_BOTH_PHASES
          (perturb_and_observe_clamp (perturb_and_observe_raw_duty c)) c.pwm } := by
  unfold perturb_and_observe perturb_and_observe_decide perturb_and_observe_direction
    perturb_and_observe_counter perturb_and_observe_raw_duty perturb_and_observe_apply
  split_ifs <;> rfl

theorem MPPT_transition_eq (leave : Bool) (next : MPPT_State_t) (t : Nat) (c : MPPT_Ctx) :
    MPPT_transition leave next t c =
      { c with
        mppt_status := { c.mppt_status with
          state := if leave then next else c.mppt_status.state },
        state_entry_time_ms := if leave then t else c.state_entry_time_ms } := by
  unfold MPPT_transition
  split_ifs <;> rfl

theorem MPPT_case_idle_eq (env : MPPT_Env) (c : MPPT_Ctx) :
    MPPT_case_idle env c =
      { c with
        mppt_status := { c.mppt_status with
          duty_ticks := 0,
          state :=
            if c.mppt_status.charging_enabled = false then c.mppt_status.state
            else if c.mppt_status.pv_voltage_mv < PANEL_MIN_MV then MPPT_STATE_NIGHT
            else if c.mppt_status.pv_voltage_mv <
                u16 (c.mppt_status.battery_voltage_mv + PANEL_START_DELTA_MV) then
              c.mppt_status.state
            else if c.mppt_status.battery_connected = false then c.mppt_status.state
            else MPPT_STATE_STARTUP },
        state_entry_time_ms :=
            if c.mppt_status.charging_enabled = false then c.state_entry_time_ms
            else if c.mppt_status.pv_voltage_mv < PANEL_MIN_MV then c.state_entry_time_ms
            else if c.mppt_status.pv_voltage_mv <
                u16 (c.mppt_status.battery_voltage_mv + PANEL_START_DELTA_MV) then
              c.state_entry_time_ms
            else if c.mppt_status.battery_connected = false then c.state_entry_time_ms
            else u32 env.system_millis_restart,
        pwm := HAL_PWM_EnableDrivers false false (HAL_PWM_Stop c.pwm) } := by
  unfold MPPT_case_idle auto_restart_check
  simp only [Bool.not_eq_true']
  split_ifs <;> first | rfl | (exfalso; simp_all)

theorem MPPT_case_startup_eq (t : Nat) (c : MPPT_Ctx) :
    MPPT_case_startup t c =
      { c with
        mppt_status := { c.mppt_status with
          duty_ticks :=
            if sub_u32 t c.state_entry_time_ms > MPPT_STARTUP_DELAY_MS then STARTUP_DUTY_TICKS
            else c.mppt_status.duty_ticks,
          state :=
            if sub_u32 t c.state_entry_time_ms > MPPT_STARTUP_DELAY_MS then MPPT_STATE_BULK
            else c.mppt_status.state },
        pwm :=
          if sub_u32 t c.state_entry_time_ms > MPPT_STARTUP_DELAY_MS then
            HAL_PWM_Start (HAL_PWM_SetDuty .PWM_BOTH_PHASES STARTUP_DUTY_TICKS
              (HAL_PWM_EnableDrivers true true c.pwm))
          else HAL_PWM_EnableDrivers true true c.pwm,
        last_power_mw :=
          if sub_u32 t c.state_entry_time_ms > MPPT_STARTUP_DELAY_MS then
            c.mppt_status.pv_power_mw
          else c.last_power_mw,
        hysteresis_counter :=
          if sub_u32 t c.state_entry_time_ms > MPPT_STARTUP_DELAY_MS then 0
          else c.hysteresis_counter,
        state_entry_time_ms :=
          if sub_u32 t c.state_entry_time_ms > MPPT_STARTUP_DELAY_MS then t
          else c.state_entry_time_ms } := by
  unfold MPPT_case_startup
  split_ifs <;> rfl

theorem MPPT_case_night_eq (c : MPPT_Ctx) :
    MPPT_case_night c =
      { c with
        mppt_status := { c.mppt_status with
          duty_ticks := 0,
          state :=
            if c.mppt_status.pv_voltage_mv >
                u16 (c.mppt_status.battery_voltage_mv + PANEL_START_DELTA_MV) then
              MPPT_STATE_IDLE
            else c.mppt_status.state },
        pwm := HAL_PWM_Stop c.pwm } := by
  unfold MPPT_case_night
  split_ifs <;> rfl

theorem MPPT_case_bulk_eq (t : Nat) (c : MPPT_Ctx) :
    MPPT_case_bulk t c =
      { c with
        mppt_status := { c.mppt_status with
          duty_ticks := perturb_and_observe_clamp (perturb_and_observe_raw_duty c),
          state :=
            if c.mppt_status.battery_voltage_mv ≥ BATTERY_ABSORB_MV then MPPT_STATE_ABSORB
            else c.mppt_status.state },
        perturb_direction := perturb_and_observe_direction c,
        hysteresis_counter := perturb_and_observe_counter c,
        last_power_mw := c.mppt_status.pv_power_mw,
        state_entry_time_ms :=
          if c.mppt_status.battery_voltage_mv ≥ BATTERY_ABSORB_MV then t
          else c.state_entry_time_ms,
        pwm := HAL_PWM_SetDuty .PWM_BOTH_PHASES
          (perturb_and_observe_clamp (perturb_and_observe_raw_duty c)) c.pwm } := by
  unfold MPPT_case_bulk
  rw [MPPT_transition_eq, perturb_and_observe_eq]
  simp only [decide_eq_true_eq]

theorem MPPT_case_absorb_eq (t : Nat) (c : MPPT_Ctx) :
    MPPT_case_absorb t c =
      { c with
        mppt_status := { c.mppt_status with
          duty_ticks := u16_of_int (constant_voltage_duty BATTERY_ABSORB_MV
            c.mppt_status.battery_voltage_mv c.mppt_status.duty_ticks),
          state :=
            if c.mppt_status.battery_current_ma < 5000 then MPPT_STATE_FLOAT
            else c.mppt_status.state },
        state_entry_time_ms :=
          if c.mppt_status.battery_current_ma < 5000 then t else c.state_entry_time_ms,
        pwm := HAL_PWM_SetDuty .PWM_BOTH_PHASES
          (u16_of_int (constant_voltage_duty BATTERY_ABSORB_MV
            c.mppt_status.battery_voltage_mv c.mppt_status.duty_ticks)) c.pwm } := by
  unfold MPPT_case_absorb
  rw [MPPT_transition_eq]
  unfold constant_voltage_control
  simp only [decide_eq_true_eq]

theorem MPPT_case_float_eq (t : Nat) (c : MPPT_Ctx) :
    MPPT_case_float t c =
      { c with
        mppt_status := { c.mppt_status with
          duty_ticks := u16_of_int (constant_voltage_duty BATTERY_FLOAT_MV
            c.mppt_status.battery_voltage_mv c.mppt_status.duty_ticks),
          state :=
            if c.mppt_status.battery_voltage_mv < BATTERY_FLOAT_MV - 500 then MPPT_STATE_BULK
            else c.mppt_status.state },
        state_entry_time_ms :=
          if c.mppt_status.battery_voltage_mv < BATTERY_FLOAT_MV - 500 then t
          else c.state_entry_time_ms,
        pwm := HAL_PWM_SetDuty .PWM_BOTH_PHASES
          (u16_of_int (constant_voltage_duty BATTERY_FLOAT_MV
            c.mppt_status.battery_voltage_mv c.mppt_status.duty_ticks)) c.pwm } := by
  unfold MPPT_case_float
  rw [MPPT_transition_eq]
  unfold constant_voltage_control
  simp only [decide_eq_true_eq]

theorem MPPT_Process_exec (env : MPPT_Env) (c : MPPT_Ctx)
    (h : MPPT_interval_pending env c = false) :
    MPPT_Process env c =
      MPPT_energy_update
        (MPPT_state_machine env (u32 env.system_millis) (MPPT_before_switch env c)) := by
  unfold MPPT_Process
  rw [h]
  rfl

theorem MPPT_Process_pending (env : MPPT_Env) (c : MPPT_Ctx)
    (h : MPPT_interval_pending env c = true) : MPPT_Process env c = c := by
  unfold MPPT_Process
  rw [h]
  rfl

theorem HAL_PWM_Stop_running (p : HAL_PWM) : (HAL_PWM_Stop p).pwm_running = false := by
  unfold HAL_PWM_Stop
  split_ifs with h
  · rfl
  · simpa using h

theorem HAL_PWM_Stop_drivers (p : HAL_PWM) :
    (HAL_PWM_Stop p).panel_en = p.panel_en ∧ (HAL_PWM_Stop p).load_en = p.load_en := by
  unfold HAL_PWM_Stop HAL_PWM_SetDuty
  split_ifs <;> exact ⟨rfl, rfl⟩

theorem HAL_PWM_SetDuty_both (d : Nat) (p : HAL_PWM) :
    (HAL_PWM_SetDuty .PWM_BOTH_PHASES d p).current_duty_phase1 = clamp_duty_ticks d ∧
    (HAL_PWM_SetDuty .PWM_BOTH_PHASES d p).current_duty_phase2 = clamp_duty_ticks d ∧
    (HAL_PWM_SetDuty .PWM_BOTH_PHASES d p).ccr2 = clamp_duty_ticks d ∧
    (HAL_PWM_SetDuty .PWM_BOTH_PHASES d p).ccr6 = clamp_duty_ticks d ∧
    (HAL_PWM_SetDuty .PWM_BOTH_PHASES d p).pwm_running = p.pwm_running ∧
    (HAL_PWM_SetDuty .PWM_BOTH_PHASES d p).panel_en = p.panel_en ∧
    (HAL_PWM_SetDuty .PWM_BOTH_PHASES d p).load_en = p.load_en :=
  ⟨rfl, rfl, rfl, rfl, rfl, rfl, rfl⟩

theorem clamp_duty_ticks_id (d : Nat) (h1 : 2 ≤ d) (h2 : d ≤ 36) : clamp_duty_ticks d = d := by
  unfold clamp_duty_ticks
  simp only [PWM_MAX_DUTY_TICKS, PWM_MIN_DUTY_TICKS]
  split_ifs <;> omega

theorem MPPT_checked_pwm_running (env : MPPT_Env) (f : MPPT_Fault_t) (p : HAL_PWM)
    (h : p.pwm_running = false) : (MPPT_checked_pwm env f p).pwm_running = false := by
  unfold MPPT_checked_pwm MPPT_checked_undervoltage_pwm
  split_ifs <;> first | exact HAL_PWM_Stop_running _ | exact h

theorem MPPT_checked_pwm_fault (env : MPPT_Env) (f : MPPT_Fault_t) (p : HAL_PWM)
    (h : u16 env.battery_voltage_mv > BATTERY_ABSORB_MV + 500 ∨
      (u16 env.pv_current_ma > 15000 ∧ u16 env.pv_voltage_mv < 5000)) :
    (MPPT_checked_pwm env f p).pwm_running = false := by
  unfold MPPT_checked_pwm
  split_ifs with h1 h2
  · exact HAL_PWM_Stop_running _
  · exact HAL_PWM_Stop_running _
  · exfalso; rcases h with h | h
    · exact h1 h
    · exact h2 h

theorem perturb_and_observe_clamp_range (d : Nat) :
    2 ≤ perturb_and_observe_clamp d ∧ perturb_and_observe_clamp d ≤ 36 := by
  unfold perturb_and_observe_clamp
  simp only [MAX_DUTY_TICKS, MIN_DUTY_TICKS]
  split_ifs <;> omega

theorem perturb_and_observe_clamp_id (d : Nat) (h1 : 2 ≤ d) (h2 : d ≤ 36) :
    perturb_and_observe_clamp d = d := by
  unfold perturb_and_observe_clamp
  simp only [MAX_DUTY_TICKS, MIN_DUTY_TICKS]
  split_ifs <;> omega

theorem perturb_and_observe_direction_range (c : MPPT_Ctx)
    (h : c.perturb_direction = 1 ∨ c.perturb_direction = -1) :
    perturb_and_observe_direction c = 1 ∨ perturb_and_observe_direction c = -1 := by
  unfold perturb_and_observe_direction
  split_ifs
  · exact h
  · rw [i8_eq]; omega
  · exact h

theorem perturb_and_observe_counter_range (c : MPPT_Ctx) :
    perturb_and_observe_counter c ≤ 2 := by
  unfold perturb_and_observe_counter
  simp only [MPPT_HYSTERESIS_COUNT, u8]
  split_ifs <;> omega

theorem constant_voltage_duty_range (t b d : Nat) :
    2 ≤ u16_of_int (constant_voltage_duty t b d) ∧
    u16_of_int (constant_voltage_duty t b d) ≤ 36 := by
  unfold constant_voltage_duty u16_of_int
  simp only [MAX_DUTY_TICKS, MIN_DUTY_TICKS]
  split_ifs <;> omega

theorem pv_power_le (a b : Nat) : u32 (u16 a * u16 b) / 1000 ≤ 4294836 := by
  have ha : u16 a ≤ 65535 := by unfold u16; omega
  have hb : u16 b ≤ 65535 := by unfold u16; omega
  have h : u16 a * u16 b ≤ 65535 * 65535 := Nat.mul_le_mul ha hb
  unfold u32
  omega

theorem MPPT_state_machine_idle (env : MPPT_Env) (t : Nat) (c : MPPT_Ctx)
    (h : c.mppt_status.state = MPPT_STATE_IDLE) :
    MPPT_state_machine env t c = MPPT_case_idle env c := by
  unfold MPPT_state_machine; rw [h]

theorem MPPT_state_machine_startup (env : MPPT_Env) (t : Nat) (c : MPPT_Ctx)
    (h : c.mppt_status.state = MPPT_STATE_STARTUP) :
    MPPT_state_machine env t c = MPPT_case_startup t c := by
  unfold MPPT_state_machine; rw [h]

theorem MPPT_state_machine_bulk (env : MPPT_Env) (t : Nat) (c : MPPT_Ctx)
    (h : c.mppt_status.state = MPPT_STATE_BULK) :
    MPPT_state_machine env t c = MPPT_case_bulk t c := by
  unfold MPPT_state_machine; rw [h]

theorem MPPT_state_machine_absorb (env : MPPT_Env) (t : Nat) (c : MPPT_Ctx)
    (h : c.mppt_status.state = MPPT_STATE_ABSORB) :
    MPPT_state_machine env t c = MPPT_case_absorb t c := by
  unfold MPPT_state_machine; rw [h]

theorem MPPT_state_machine_float (env : MPPT_Env) (t : Nat) (c : MPPT_Ctx)
    (h : c.mppt_status.state = MPPT_STATE_FLOAT) :
    MPPT_state_machine env t c = MPPT_case_float t c := by
  unfold MPPT_state_machine; rw [h]

theorem MPPT_state_machine_night (env : MPPT_Env) (t : Nat) (c : MPPT_Ctx)
    (h : c.mppt_status.state = MPPT_STATE_NIGHT) :
    MPPT_state_machine env t c = MPPT_case_night c := by
  unfold MPPT_state_machine; rw [h]

theorem MPPT_state_machine_fault (env : MPPT_Env) (t : Nat) (c : MPPT_Ctx)
    (h : c.mppt_status.state = MPPT_STATE_FAULT) :
    MPPT_state_machine env t c = MPPT_case_fault c := by
  unfold MPPT_state_machine; rw [h]

theorem MPPT_Inv_before_switch (env : MPPT_Env) (c : MPPT_Ctx) (h : MPPT_Inv c) :
    MPPT_Inv (MPPT_before_switch env c) := by
  obtain ⟨h1, h2, h3, h4, h5, h6, h7⟩ := h
  rw [MPPT_before_switch_eq]
  refine ⟨?_, ?_, h3, h4, h5, pv_power_le _ _, ?_⟩
  · intro hs
    apply h1
    revert hs
    simp only [MPPT_checked_state]
    split_ifs <;> simp
  · intro hs
    apply h2
    revert hs
    simp only [MPPT_checked_state]
    split_ifs <;> simp
  · simp only [MPPT_checked_state]
    split_ifs with ha hb
    · intro _; exact MPPT_checked_pwm_fault env _ _ (Or.inl ha)
    · intro _; exact MPPT_checked_pwm_fault env _ _ (Or.inr hb)
    · intro hs; exact MPPT_checked_pwm_running env _ _ (h7 hs)

theorem MPPT_Inv_state_machine (env : MPPT_Env) (t : Nat) (c : MPPT_Ctx) (h : MPPT_Inv c) :
    MPPT_Inv (MPPT_state_machine env t c) := by
  obtain ⟨h1, h2, h3, h4, h5, h6, h7⟩ := h
  cases hs : c.mppt_status.state
  · rw [MPPT_state_machine_idle env t c hs, MPPT_case_idle_eq]
    refine ⟨?_, ?_, h3, h4, h5, h6, ?_⟩
    · simp only [hs]; split_ifs <;> simp
    · intro _; rfl
    · simp only [hs]; split_ifs <;> simp
  · rw [MPPT_state_machine_startup env t c hs, MPPT_case_startup_eq]
    refine ⟨?_, ?_, h3, ?_, ?_, h6, ?_⟩
    · simp only [hs]; split_ifs <;> simp
    · simp only [hs]; split_ifs
      · simp
      · intro _; exact h2 hs
    · show (if _ then 0 else c.hysteresis_counter) ≤ 2
      split_ifs <;> omega
    · show (if _ then c.mppt_status.pv_power_mw else c.last_power_mw) ≤ 4294836
      split_ifs <;> assumption
    · simp only [hs]; split_ifs <;> simp
  · rw [MPPT_state_machine_bulk env t c hs, MPPT_case_bulk_eq]
    refine ⟨fun _ => perturb_and_observe_clamp_range _, ?_,
      perturb_and_observe_direction_range c h3, perturb_and_observe_counter_range c, h6, h6, ?_⟩
    · simp only [hs]; split_ifs <;> simp
    · simp only [hs]; split_ifs <;> simp
  · rw [MPPT_state_machine_absorb env t c hs, MPPT_case_absorb_eq]
    refine ⟨fun _ => constant_voltage_duty_range _ _ _, ?_, h3, h4, h5, h6, ?_⟩
    · simp only [hs]; split_ifs <;> simp
    · simp only [hs]; split_ifs <;> simp
  · rw [MPPT_state_machine_float env t c hs, MPPT_case_float_eq]
    refine ⟨fun _ => constant_voltage_duty_range _ _ _, ?_, h3, h4, h5, h6, ?_⟩
    · simp only [hs]; split_ifs <;> simp
    · simp only [hs]; split_ifs <;> simp
  · rw [MPPT_state_machine_fault env t c hs]
    unfold MPPT_case_fault
    refine ⟨?_, ?_, h3, h4, h5, h6, ?_⟩
    · simp only [hs]; simp
    · intro _; rfl
    · intro _; exact HAL_PWM_Stop_running _
  · rw [MPPT_state_machine_night env t c hs, MPPT_case_night_eq]
    refine ⟨?_, ?_, h3, h4, h5, h6, ?_⟩
    · simp only [hs]; split_ifs <;> simp
    · intro _; rfl
    · simp only [hs]; split_ifs <;> simp

theorem MPPT_Inv_Process (env : MPPT_Env) (c : MPPT_Ctx) (h : MPPT_Inv c) :
    MPPT_Inv (MPPT_Process env c) := by
  cases hp : MPPT_interval_pending env c
  · rw [MPPT_Process_exec env c hp]
    exact MPPT_Inv_state_machine env _ _ (MPPT_Inv_before_switch env c h)
  · rw [MPPT_Process_pending env c hp]; exact h

theorem MPPT_Inv_Init (t0 : Nat) (pwm : HAL_PWM) : MPPT_Inv (MPPT_Init t0 pwm) := by
  unfold MPPT_Init MPPT_Inv
  simp

theorem MPPT_Inv_apply (c : MPPT_Ctx) (op : MPPT_Op) (h : MPPT_Inv c) :
    MPPT_Inv (MPPT_apply c op) := by
  cases op with
  | Init t => exact MPPT_Inv_Init t c.pwm
  | Process env => exact MPPT_Inv_Process env c h
  | GetStatus => exact h
  | EnableCharging => exact h
  | DisableCharging =>
      obtain ⟨h1, h2, h3, h4, h5, h6, h7⟩ := h
      exact ⟨by simp [MPPT_apply, MPPT_DisableCharging], by simp [MPPT_apply, MPPT_DisableCharging],
        h3, h4, h5, h6, by simp [MPPT_apply, MPPT_DisableCharging]⟩
  | EmergencyStop =>
      obtain ⟨h1, h2, h3, h4, h5, h6, h7⟩ := h
      exact ⟨by simp [MPPT_apply, MPPT_EmergencyStop], by simp [MPPT_apply, MPPT_EmergencyStop],
        h3, h4, h5, h6, fun _ => HAL_PWM_Stop_running _⟩
  | ClearFaults =>
      obtain ⟨h1, h2, h3, h4, h5, h6, h7⟩ := h
      simp only [MPPT_apply, MPPT_ClearFaults]
      split_ifs with hs
      · exact ⟨by simp, by simp, h3, h4, h5, h6, by simp⟩
      · exact ⟨h1, h2, h3, h4, h5, h6, h7⟩
  | ResetDailyEnergy => exact h

theorem MPPT_Inv_foldl (ops : List MPPT_Op) :
    ∀ c : MPPT_Ctx, MPPT_Inv c → MPPT_Inv (ops.foldl MPPT_apply c) := by
  induction ops with
  | nil => intro c h; exact h
  | cons op rest ih => intro c h; exact ih _ (MPPT_Inv_apply c op h)

theorem MPPT_Inv_of_Reachable (c : MPPT_Ctx) (h : MPPT_Reachable c) : MPPT_Inv c := by
  obtain ⟨t0, pwm, ops, rfl⟩ := h
  exact MPPT_Inv_foldl ops _ (MPPT_Inv_Init t0 pwm)

theorem MPPT_Reachable_apply (c : MPPT_Ctx) (op : MPPT_Op) (h : MPPT_Reachable c) :
    MPPT_Reachable (MPPT_apply c op) := by
  obtain ⟨t0, pwm, ops, rfl⟩ := h
  exact ⟨t0, pwm, ops ++ [op], by simp [MPPT_run, List.foldl_append]⟩

theorem MPPT_before_switch_state (env : MPPT_Env) (c : MPPT_Ctx) :
    (MPPT_before_switch env c).mppt_status.state =
      MPPT_checked_state env c.mppt_status.state := by
  rw [MPPT_before_switch_eq]

theorem MPPT_checked_state_ok (env : MPPT_Env) (s : MPPT_State_t)
    (hov : u16 env.battery_voltage_mv ≤ 29300)
    (hsc : ¬ (u16 env.pv_current_ma > 15000 ∧ u16 env.pv_voltage_mv < 5000)) :
    MPPT_checked_state env s = s := by
  unfold MPPT_checked_state
  simp only [BATTERY_ABSORB_MV]
  rw [if_neg (by omega), if_neg hsc]

theorem MPPT_checked_state_trip (env : MPPT_Env) (s : MPPT_State_t)
    (h : u16 env.battery_voltage_mv > 29300 ∨
      (u16 env.pv_current_ma > 15000 ∧ u16 env.pv_voltage_mv < 5000)) :
    MPPT_checked_state env s = MPPT_STATE_FAULT := by
  unfold MPPT_checked_state
  simp only [BATTERY_ABSORB_MV]
  split_ifs with h1 h2
  · rfl
  · rfl
  · exfalso; rcases h with h | h
    · exact h1 h
    · exact h2 h

theorem MPPT_checked_state_fault (env : MPPT_Env) :
    MPPT_checked_state env MPPT_STATE_FAULT = MPPT_STATE_FAULT := by
  unfold MPPT_checked_state
  split_ifs <;> rfl

theorem MPPT_Process_idle (env : MPPT_Env) (c : MPPT_Ctx)
    (hexec : MPPT_interval_pending env c = false)
    (hs : c.mppt_status.state = MPPT_STATE_IDLE)
    (hov : u16 env.battery_voltage_mv ≤ 29300)
    (hsc : ¬ (u16 env.pv_current_ma > 15000 ∧ u16 env.pv_voltage_mv < 5000)) :
    MPPT_Process env c =
      MPPT_energy_update (MPPT_case_idle env (MPPT_before_switch env c)) := by
  rw [MPPT_Process_exec env c hexec, MPPT_state_machine_idle]
  rw [MPPT_before_switch_state, MPPT_checked_state_ok env _ hov hsc, hs]

theorem MPPT_Process_startup (env : MPPT_Env) (c : MPPT_Ctx)
    (hexec : MPPT_interval_pending env c = false)
    (hs : c.mppt_status.state = MPPT_STATE_STARTUP)
    (hov : u16 env.battery_voltage_mv ≤ 29300)
    (hsc : ¬ (u16 env.pv_current_ma > 15000 ∧ u16 env.pv_voltage_mv < 5000)) :
    MPPT_Process env c = MPPT_energy_update
      (MPPT_case_startup (u32 env.system_millis) (MPPT_before_switch env c)) := by
  rw [MPPT_Process_exec env c hexec, MPPT_state_machine_startup]
  rw [MPPT_before_switch_state, MPPT_checked_state_ok env _ hov hsc, hs]

theorem MPPT_Process_bulk (env : MPPT_Env) (c : MPPT_Ctx)
    (hexec : MPPT_interval_pending env c = false)
    (hs : c.mppt_status.state = MPPT_STATE_BULK)
    (hov : u16 env.battery_voltage_mv ≤ 29300)
    (hsc : ¬ (u16 env.pv_current_ma > 15000 ∧ u16 env.pv_voltage_mv < 5000)) :
    MPPT_Process env c = MPPT_energy_update
      (MPPT_case_bulk (u32 env.system_millis) (MPPT_before_switch env c)) := by
  rw [MPPT_Process_exec env c hexec, MPPT_state_machine_bulk]
  rw [MPPT_before_switch_state, MPPT_checked_state_ok env _ hov hsc, hs]

theorem MPPT_Process_absorb (env : MPPT_Env) (c : MPPT_Ctx)
    (hexec : MPPT_interval_pending env c = false)
    (hs : c.mppt_status.state = MPPT_STATE_ABSORB)
    (hov : u16 env.battery_voltage_mv ≤ 29300)
    (hsc : ¬ (u16 env.pv_current_ma > 15000 ∧ u16 env.pv_voltage_mv < 5000)) :
    MPPT_Process env c = MPPT_energy_update
      (MPPT_case_absorb (u32 env.system_millis) (MPPT_before_switch env c)) := by
  rw [MPPT_Process_exec env c hexec, MPPT_state_machine_absorb]
  rw [MPPT_before_switch_state, MPPT_checked_state_ok env _ hov hsc, hs]

theorem MPPT_Process_float (env : MPPT_Env) (c : MPPT_Ctx)
    (hexec : MPPT_interval_pending env c = false)
    (hs : c.mppt_status.state = MPPT_STATE_FLOAT)
    (hov : u16 env.battery_voltage_mv ≤ 29300)
    (hsc : ¬ (u16 env.pv_current_ma > 15000 ∧ u16 env.pv_voltage_mv < 5000)) :
    MPPT_Process env c = MPPT_energy_update
      (MPPT_case_float (u32 env.system_millis) (MPPT_before_switch env c)) := by
  rw [MPPT_Process_exec env c hexec, MPPT_state_machine_float]
  rw [MPPT_before_switch_state, MPPT_checked_state_ok env _ hov hsc, hs]

theorem MPPT_Process_night (env : MPPT_Env) (c : MPPT_Ctx)
    (hexec : MPPT_interval_pending env c = false)
    (hs : c.mppt_status.state = MPPT_STATE_NIGHT)
    (hov : u16 env.battery_voltage_mv ≤ 29300)
    (hsc : ¬ (u16 env.pv_current_ma > 15000 ∧ u16 env.pv_voltage_mv < 5000)) :
    MPPT_Process env c =
      MPPT_energy_update (MPPT_case_night (MPPT_before_switch env c)) := by
  rw [MPPT_Process_exec env c hexec, MPPT_state_machine_night]
  rw [MPPT_before_switch_state, MPPT_checked_state_ok env _ hov hsc, hs]

theorem MPPT_Process_fault (env : MPPT_Env) (c : MPPT_Ctx)
    (hexec : MPPT_interval_pending env c = false)
    (h : c.mppt_status.state = MPPT_STATE_FAULT ∨ u16 env.battery_voltage_mv > 29300 ∨
      (u16 env.pv_current_ma > 15000 ∧ u16 env.pv_voltage_mv < 5000)) :
    MPPT_Process env c =
      MPPT_energy_update (MPPT_case_fault (MPPT_before_switch env c)) := by
  rw [MPPT_Process_exec env c hexec, MPPT_state_machine_fault]
  rw [MPPT_before_switch_state]
  rcases h with h | h
  · rw [h]; exact MPPT_checked_state_fault env
  · exact MPPT_checked_state_trip env _ h

theorem MPPT_zero_duty_states (env : MPPT_Env) (t : Nat) (c : MPPT_Ctx)
    (h : (MPPT_state_machine env t c).mppt_status.state = MPPT_STATE_IDLE ∨
         (MPPT_state_machine env t c).mppt_status.state = MPPT_STATE_NIGHT ∨
         (MPPT_state_machine env t c).mppt_status.state = MPPT_STATE_FAULT) :
    (MPPT_state_machine env t c).mppt_status.duty_ticks = 0 := by
  cases hs : c.mppt_status.state
  · rw [MPPT_state_machine_idle env t c hs, MPPT_case_idle_eq]
  · rw [MPPT_state_machine_startup env t c hs, MPPT_case_startup_eq] at h ⊢
    revert h
    simp only [hs]
    split_ifs <;> simp
  · rw [MPPT_state_machine_bulk env t c hs, MPPT_case_bulk_eq] at h
    revert h
    simp only [hs]
    split_ifs <;> simp
  · rw [MPPT_state_machine_absorb env t c hs, MPPT_case_absorb_eq] at h
    revert h
    simp only [hs]
    split_ifs <;> simp
  · rw [MPPT_state_machine_float env t c hs, MPPT_case_float_eq] at h
    revert h
    simp only [hs]
    split_ifs <;> simp
  · rw [MPPT_state_machine_fault env t c hs]; rfl
  · rw [MPPT_state_machine_night env t c hs, MPPT_case_night_eq]

/-- C1 (as amended): for every state reachable from `MPPT_Init`, after every
executed `MPPT_Process` step `duty_ticks` is within 2..36 whenever the resulting
charge state is Bulk, Absorb or Float, and is 0 whenever the resulting state is
Idle, Startup, Night or Fault. -/
theorem C1_duty_after_step (c : MPPT_Ctx) (env : MPPT_Env) (hr : MPPT_Reachable c)
    (hexec : MPPT_interval_pending env c = false) :
    (((MPPT_Process env c).mppt_status.state = MPPT_STATE_BULK ∨
      (MPPT_Process env c).mppt_status.state = MPPT_STATE_ABSORB ∨
      (MPPT_Process env c).mppt_status.state = MPPT_STATE_FLOAT) →
        2 ≤ (MPPT_Process env c).mppt_status.duty_ticks ∧
        (MPPT_Process env c).mppt_status.duty_ticks ≤ 36) ∧
    (((MPPT_Process env c).mppt_status.state = MPPT_STATE_IDLE ∨
      (MPPT_Process env c).mppt_status.state = MPPT_STATE_STARTUP ∨
      (MPPT_Process env c).mppt_status.state = MPPT_STATE_NIGHT ∨
      (MPPT_Process env c).mppt_status.state = MPPT_STATE_FAULT) →
        (MPPT_Process env c).mppt_status.duty_ticks = 0) := by
  have hinv := MPPT_Inv_Process env c (MPPT_Inv_of_Reachable c hr)
  refine ⟨hinv.1, ?_⟩
  intro h
  have hz := MPPT_zero_duty_states env (u32 env.system_millis) (MPPT_before_switch env c)
  rw [MPPT_Process_exec env c hexec] at h ⊢
  rcases h with h | h | h | h
  · exact hz (Or.inl h)
  · rw [← MPPT_Process_exec env c hexec] at h ⊢
    exact hinv.2.1 h
  · exact hz (Or.inr (Or.inl h))
  · exact hz (Or.inr (Or.inr h))

/-- C1 witness: the amended statement at the first executed step after
initialisation. -/
theorem C1_duty_after_step_witness :
    (MPPT_Process ⟨100, 100, 0, 0, 0, 0⟩ (MPPT_run 0 HAL_PWM_boot [])).mppt_status.state
      = MPPT_STATE_IDLE ∧
    (MPPT_Process ⟨100, 100, 0, 0, 0, 0⟩ (MPPT_run 0 HAL_PWM_boot [])).mppt_status.duty_ticks
      = 0 :=
  ⟨by decide,
   (C1_duty_after_step (MPPT_run 0 HAL_PWM_boot []) ⟨100, 100, 0, 0, 0, 0⟩
      ⟨0, HAL_PWM_boot, [], rfl⟩ (by decide)).2 (Or.inl (by decide))⟩

/-- C1 counterexample: right after `MPPT_Init`, the step at tick 100 executes,
ends in Idle, and leaves `duty_ticks` = 0, outside 2..36. -/
theorem C1_counterexample :
    MPPT_Reachable (MPPT_run 0 HAL_PWM_boot []) ∧
    MPPT_interval_pending ⟨100, 100, 0, 0, 0, 0⟩ (MPPT_run 0 HAL_PWM_boot []) = false ∧
    ¬ (2 ≤ (MPPT_Process ⟨100, 100, 0, 0, 0, 0⟩
          (MPPT_run 0 HAL_PWM_boot [])).mppt_status.duty_ticks ∧
       (MPPT_Process ⟨100, 100, 0, 0, 0, 0⟩
          (MPPT_run 0 HAL_PWM_boot [])).mppt_status.duty_ticks ≤ 36) :=
  ⟨⟨0, HAL_PWM_boot, [], rfl⟩, by decide, by decide⟩


/-- C7: `MPPT_Process` called before the 100 ms update interval has elapsed
(tick difference taken modulo 2^32) leaves the whole module state, PWM driver
included, unchanged; otherwise the step executes and `last_process_time_ms`
becomes the current tick, so that any later call less than 100 ms of tick time
after an executed step is again a no-op. -/
theorem C7_interval_gate (env : MPPT_Env) (c : MPPT_Ctx) :
    (sub_u32 env.system_millis c.last_process_time_ms < 100 → MPPT_Process env c = c) ∧
    (¬ sub_u32 env.system_millis c.last_process_time_ms < 100 →
      (MPPT_Process env c).last_process_time_ms = u32 env.system_millis ∧
      ∀ env2 : MPPT_Env, sub_u32 env2.system_millis (u32 env.system_millis) < 100 →
        MPPT_Process env2 (MPPT_Process env c) = MPPT_Process env c) := by
  have key : ∀ (e : MPPT_Env) (d : MPPT_Ctx),
      sub_u32 e.system_millis d.last_process_time_ms < 100 → MPPT_Process e d = d := by
    intro e d h
    apply MPPT_Process_pending
    unfold MPPT_interval_pending
    simpa using h
  have last : ¬ sub_u32 env.system_millis c.last_process_time_ms < 100 →
      (MPPT_Process env c).last_process_time_ms = u32 env.system_millis := by
    intro h
    have hp : MPPT_interval_pending env c = false := by
      unfold MPPT_interval_pending
      simpa using h
    have hinv : ∀ (t : Nat) (d : MPPT_Ctx),
        (MPPT_state_machine env t d).last_process_time_ms = d.last_process_time_ms := by
      intro t d
      cases hs : d.mppt_status.state
      · rw [MPPT_state_machine_idle env t d hs, MPPT_case_idle_eq]
      · rw [MPPT_state_machine_startup env t d hs, MPPT_case_startup_eq]
      · rw [MPPT_state_machine_bulk env t d hs, MPPT_case_bulk_eq]
      · rw [MPPT_state_machine_absorb env t d hs, MPPT_case_absorb_eq]
      · rw [MPPT_state_machine_float env t d hs, MPPT_case_float_eq]
      · rw [MPPT_state_machine_fault env t d hs]; rfl
      · rw [MPPT_state_machine_night env t d hs, MPPT_case_night_eq]
    rw [MPPT_Process_exec env c hp]
    show (MPPT_state_machine env _ _).last_process_time_ms = _
    rw [hinv, MPPT_before_switch_eq]
  refine ⟨key env c, fun h => ⟨last h, fun env2 h2 => key env2 _ ?_⟩⟩
  rw [last h]; exact h2

/-- C7 witness: a call 50 ms after initialisation changes nothing. -/
theorem C7_interval_gate_witness :
    MPPT_Process ⟨50, 50, 30000, 1000, 24000, 1000⟩ (MPPT_Init 0 HAL_PWM_boot) =
      MPPT_Init 0 HAL_PWM_boot :=
  (C7_interval_gate ⟨50, 50, 30000, 1000, 24000, 1000⟩ (MPPT_Init 0 HAL_PWM_boot)).1
    (by decide)

/-- C10: in state Bulk, an executed step without a PV short circuit ends in
Absorb exactly when the battery voltage reading is at least 28800 mV and at most
29300 mV; in particular it does so at exactly 28800 mV, and for every lower
voltage the state stays Bulk. -/
theorem C10_bulk_to_absorb (env : MPPT_Env) (c : MPPT_Ctx)
    (hexec : MPPT_interval_pending env c = false)
    (hs : c.mppt_status.state = MPPT_STATE_BULK)
    (hsc : ¬ (u16 env.pv_current_ma > 15000 ∧ u16 env.pv_voltage_mv < 5000)) :
    ((MPPT_Process env c).mppt_status.state = MPPT_STATE_ABSORB ↔
      (28800 ≤ u16 env.battery_voltage_mv ∧ u16 env.battery_voltage_mv ≤ 29300)) ∧
    (u16 env.battery_voltage_mv = 28800 →
      (MPPT_Process env c).mppt_status.state = MPPT_STATE_ABSORB) ∧
    (u16 env.battery_voltage_mv < 28800 →
      (MPPT_Process env c).mppt_status.state = MPPT_STATE_BULK) := by
  by_cases hov : u16 env.battery_voltage_mv ≤ 29300
  · have hst : (MPPT_Process env c).mppt_status.state =
        if u16 env.battery_voltage_mv ≥ 28800 then MPPT_STATE_ABSORB else MPPT_STATE_BULK := by
      rw [MPPT_Process_bulk env c hexec hs hov hsc, MPPT_case_bulk_eq, MPPT_before_switch_eq]
      simp only [MPPT_energy_update, MPPT_checked_state_ok env _ hov hsc, hs,
        BATTERY_ABSORB_MV]
    rw [hst]
    refine ⟨?_, ?_, ?_⟩
    · split_ifs with h
      · simp only [true_iff]; exact ⟨h, hov⟩
      · simp only [false_iff, reduceCtorEq]; omega
    · intro h; rw [if_pos (by omega)]
    · intro h; rw [if_neg (by omega)]
  · have hst : (MPPT_Process env c).mppt_status.state = MPPT_STATE_FAULT := by
      rw [MPPT_Process_fault env c hexec (Or.inr (Or.inl (by omega)))]
      unfold MPPT_case_fault
      simp only [MPPT_energy_update]
      rw [MPPT_before_switch_state]
      exact MPPT_checked_state_trip env _ (Or.inl (by omega))
    rw [hst]
    refine ⟨?_, ?_, ?_⟩
    · simp only [reduceCtorEq, false_iff]; omega
    · intro h; omega
    · intro h; omega

/-- C10 witness: from the Bulk state reached 1.2 s after start-up, a step with
battery voltage reading 28800 mV ends in Absorb. -/
theorem C10_bulk_to_absorb_witness :
    (MPPT_Process ⟨1300, 1300, 30000, 1000, 28800, 1000⟩
      (MPPT_run 0 HAL_PWM_boot [.EnableCharging,
        .Process ⟨100, 100, 30000, 1000, 24000, 1000⟩,
        .Process ⟨1200, 1200, 30000, 1000, 24000, 1000⟩])).mppt_status.state
      = MPPT_STATE_ABSORB :=
  (C10_bulk_to_absorb ⟨1300, 1300, 30000, 1000, 28800, 1000⟩
    (MPPT_run 0 HAL_PWM_boot [.EnableCharging,
        .Process ⟨100, 100, 30000, 1000, 24000, 1000⟩,
        .Process ⟨1200, 1200, 30000, 1000, 24000, 1000⟩])
    (by decide) (by decide) (by decide)).2.1 (by decide)

/-! ## Lemmas on single steps of the charge controller -/

theorem MPPT_before_switch_fields (env : MPPT_Env) (c : MPPT_Ctx) :
    (MPPT_before_switch env c).mppt_status.pv_power_mw = MPPT_env_pv_power env ∧
    (MPPT_before_switch env c).mppt_status.battery_power_mw = MPPT_env_battery_power env ∧
    (MPPT_before_switch env c).mppt_status.battery_voltage_mv = u16 env.battery_voltage_mv ∧
    (MPPT_before_switch env c).mppt_status.battery_current_ma = u16 env.battery_current_ma ∧
    (MPPT_before_switch env c).mppt_status.pv_voltage_mv = u16 env.pv_voltage_mv ∧
    (MPPT_before_switch env c).mppt_status.duty_ticks = c.mppt_status.duty_ticks ∧
    (MPPT_before_switch env c).mppt_status.energy_today_wh = c.mppt_status.energy_today_wh ∧
    (MPPT_before_switch env c).mppt_status.charging_enabled = c.mppt_status.charging_enabled ∧
    (MPPT_before_switch env c).mppt_status.fault = MPPT_checked_fault env c.mppt_status.fault ∧
    (MPPT_before_switch env c).mppt_status.battery_connected =
      decide (u16 env.battery_voltage_mv > 10000) ∧
    (MPPT_before_switch env c).last_power_mw = c.last_power_mw ∧
    (MPPT_before_switch env c).perturb_direction = c.perturb_direction ∧
    (MPPT_before_switch env c).hysteresis_counter = c.hysteresis_counter ∧
    (MPPT_before_switch env c).state_entry_time_ms = c.state_entry_time_ms ∧
    (MPPT_before_switch env c).pwm = MPPT_checked_pwm env c.mppt_status.fault c.pwm := by
  rw [MPPT_before_switch_eq]
  exact ⟨rfl, rfl, rfl, rfl, rfl, rfl, rfl, rfl, rfl, rfl, rfl, rfl, rfl, rfl, rfl⟩

theorem delta_power_exact (c : MPPT_Ctx) (h1 : c.mppt_status.pv_power_mw ≤ 4294836)
    (h2 : c.last_power_mw ≤ 4294836) :
    delta_power c = (c.mppt_status.pv_power_mw : Int) - (c.last_power_mw : Int) := by
  unfold delta_power
  rw [i32_eq, i32_eq, i32_eq]
  omega

theorem perturb_and_observe_direction_spec (c : MPPT_Ctx)
    (h1 : c.mppt_status.pv_power_mw ≤ 4294836) (h2 : c.last_power_mw ≤ 4294836)
    (hd : c.perturb_direction = 1 ∨ c.perturb_direction = -1) :
    perturb_and_observe_direction c =
      if c.mppt_status.pv_power_mw + 50 < c.last_power_mw then -c.perturb_direction
      else c.perturb_direction := by
  unfold perturb_and_observe_direction
  rw [delta_power_exact c h1 h2]
  simp only [MPPT_POWER_THRESHOLD_MW]
  have h8 : i8 (-c.perturb_direction) = -c.perturb_direction := by
    rw [i8_eq]; omega
  rw [h8]
  split_ifs <;> first | rfl | omega

theorem perturb_and_observe_counter_spec (c : MPPT_Ctx)
    (h1 : c.mppt_status.pv_power_mw ≤ 4294836) (h2 : c.last_power_mw ≤ 4294836)
    (hc : c.hysteresis_counter ≤ 2) :
    perturb_and_observe_counter c =
      if c.last_power_mw + 50 < c.mppt_status.pv_power_mw ∧ c.hysteresis_counter < 2 then
        c.hysteresis_counter + 1
      else 0 := by
  unfold perturb_and_observe_counter
  rw [delta_power_exact c h1 h2]
  simp only [MPPT_POWER_THRESHOLD_MW, MPPT_HYSTERESIS_COUNT, u8]
  split_ifs <;> omega

theorem perturb_and_observe_raw_duty_spec (c : MPPT_Ctx)
    (h1 : c.mppt_status.pv_power_mw ≤ 4294836) (h2 : c.last_power_mw ≤ 4294836)
    (hc : c.hysteresis_counter ≤ 2)
    (hd : c.perturb_direction = 1 ∨ c.perturb_direction = -1)
    (hl : 2 ≤ c.mppt_status.duty_ticks) (hu : c.mppt_status.duty_ticks ≤ 36) :
    (perturb_and_observe_raw_duty c : Int) =
      if c.last_power_mw + 50 < c.mppt_status.pv_power_mw ∧ c.hysteresis_counter = 2 then
        (c.mppt_status.duty_ticks : Int) + c.perturb_direction
      else if c.mppt_status.pv_power_mw + 50 < c.last_power_mw then
        (c.mppt_status.duty_ticks : Int) - c.perturb_direction
      else (c.mppt_status.duty_ticks : Int) := by
  unfold perturb_and_observe_raw_duty
  rw [delta_power_exact c h1 h2]
  simp only [MPPT_POWER_THRESHOLD_MW, MPPT_HYSTERESIS_COUNT, MPPT_PERTURB_STEP_TICKS, u8,
    u16_of_int]
  have h8 : i8 (-c.perturb_direction) = -c.perturb_direction := by
    rw [i8_eq]; omega
  rw [h8]
  split_ifs <;> omega

theorem MPPT_Process_bulk_fields (env : MPPT_Env) (c : MPPT_Ctx)
    (hexec : MPPT_interval_pending env c = false)
    (hs : c.mppt_status.state = MPPT_STATE_BULK)
    (hov : u16 env.battery_voltage_mv ≤ 29300)
    (hsc : ¬ (u16 env.pv_current_ma > 15000 ∧ u16 env.pv_voltage_mv < 5000)) :
    (MPPT_Process env c).perturb_direction =
      perturb_and_observe_direction (MPPT_before_switch env c) ∧
    (MPPT_Process env c).hysteresis_counter =
      perturb_and_observe_counter (MPPT_before_switch env c) ∧
    (MPPT_Process env c).mppt_status.duty_ticks =
      perturb_and_observe_clamp (perturb_and_observe_raw_duty (MPPT_before_switch env c)) ∧
    (MPPT_Process env c).last_power_mw = MPPT_env_pv_power env ∧
    (MPPT_Process env c).pwm = HAL_PWM_SetDuty .PWM_BOTH_PHASES
      (perturb_and_observe_clamp (perturb_and_observe_raw_duty (MPPT_before_switch env c)))
      (MPPT_checked_pwm env c.mppt_status.fault c.pwm) := by
  rw [MPPT_Process_bulk env c hexec hs hov hsc, MPPT_case_bulk_eq]
  unfold MPPT_energy_update
  obtain ⟨h1, -, -, -, -, -, -, -, -, -, -, -, -, -, h15⟩ := MPPT_before_switch_fields env c
  exact ⟨rfl, rfl, rfl, h1, by rw [← h15]⟩

/-- In an executed Bulk step (P&O step) from a reachable state, for all readings
that trip no fault, the signed power difference equals the exact difference of
the new PV power and the power in `last_power_mw`, the perturb direction is
reversed if and only if the new PV power is lower than that stored power by more
than 50 mW, is unchanged otherwise, and the new PV power is stored. The stored
power is the one of the last Bulk step or of the step that left Startup, which
need not be the step before. -/
theorem MPPT_Process_bulk_direction (env : MPPT_Env) (c : MPPT_Ctx) (hr : MPPT_Reachable c)
    (hexec : MPPT_interval_pending env c = false)
    (hs : c.mppt_status.state = MPPT_STATE_BULK)
    (hov : u16 env.battery_voltage_mv ≤ 29300)
    (hsc : ¬ (u16 env.pv_current_ma > 15000 ∧ u16 env.pv_voltage_mv < 5000)) :
    delta_power (MPPT_before_switch env c) =
      (MPPT_env_pv_power env : Int) - (c.last_power_mw : Int) ∧
    ((MPPT_Process env c).perturb_direction = -c.perturb_direction ↔
      MPPT_env_pv_power env + 50 < c.last_power_mw) ∧
    (¬ (MPPT_env_pv_power env + 50 < c.last_power_mw) →
      (MPPT_Process env c).perturb_direction = c.perturb_direction) ∧
    (MPPT_Process env c).last_power_mw = MPPT_env_pv_power env := by
  obtain ⟨-, -, hd, -, hl, -, -⟩ := MPPT_Inv_of_Reachable c hr
  obtain ⟨f1, -, -, -, -, -, -, -, -, -, f11, f12, -, -, -⟩ := MPPT_before_switch_fields env c
  have hp : (MPPT_before_switch env c).mppt_status.pv_power_mw ≤ 4294836 := by
    rw [f1]; exact pv_power_le _ _
  have hl2 : (MPPT_before_switch env c).last_power_mw ≤ 4294836 := by rw [f11]; exact hl
  have hd2 : (MPPT_before_switch env c).perturb_direction = 1 ∨
      (MPPT_before_switch env c).perturb_direction = -1 := by rw [f12]; exact hd
  obtain ⟨g1, -, -, g4, -⟩ := MPPT_Process_bulk_fields env c hexec hs hov hsc
  have hdir := perturb_and_observe_direction_spec _ hp hl2 hd2
  rw [f1, f11, f12] at hdir
  refine ⟨?_, ?_, ?_, g4⟩
  · rw [delta_power_exact _ hp hl2, f1, f11]
  · rw [g1, hdir]
    split_ifs with h
    · simp only [true_iff, h]
    · simp only [h, iff_false]; omega
  · intro h
    rw [g1, hdir, if_neg h]

/-- From the Bulk state reached 1.2 s after start-up with 30000 mW stored, a step
that observes 27000 mW reverses the direction from +1 to -1. -/
theorem MPPT_Process_bulk_direction_witness :
    (MPPT_Process ⟨1300, 1300, 30000, 900, 24000, 1000⟩
      (MPPT_run 0 HAL_PWM_boot [.EnableCharging,
        .Process ⟨100, 100, 30000, 1000, 24000, 1000⟩,
        .Process ⟨1200, 1200, 30000, 1000, 24000, 1000⟩])).perturb_direction = -1 :=
  (MPPT_Process_bulk_direction ⟨1300, 1300, 30000, 900, 24000, 1000⟩
    (MPPT_run 0 HAL_PWM_boot [.EnableCharging,
        .Process ⟨100, 100, 30000, 1000, 24000, 1000⟩,
        .Process ⟨1200, 1200, 30000, 1000, 24000, 1000⟩])
    ⟨0, HAL_PWM_boot, _, rfl⟩ (by decide) (by decide) (by decide) (by decide)).2.1.mpr
    (by decide)

theorem perturb_and_observe_clamp_int (x : Int) (d : Nat) (h : (d : Int) = x) :
    ((perturb_and_observe_clamp d : Nat) : Int) = max 2 (min 36 x) := by
  unfold perturb_and_observe_clamp
  simp only [MAX_DUTY_TICKS, MIN_DUTY_TICKS]
  split_ifs <;> omega

theorem MPPT_Process_bulk_duty (env : MPPT_Env) (c : MPPT_Ctx) (hr : MPPT_Reachable c)
    (hexec : MPPT_interval_pending env c = false)
    (hs : c.mppt_status.state = MPPT_STATE_BULK)
    (hov : u16 env.battery_voltage_mv ≤ 29300)
    (hsc : ¬ (u16 env.pv_current_ma > 15000 ∧ u16 env.pv_voltage_mv < 5000)) :
    (((MPPT_Process env c).mppt_status.duty_ticks : Nat) : Int) =
      max 2 (min 36
        (if c.last_power_mw + 50 < MPPT_env_pv_power env ∧ c.hysteresis_counter = 2 then
          (c.mppt_status.duty_ticks : Int) + c.perturb_direction
        else if MPPT_env_pv_power env + 50 < c.last_power_mw then
          (c.mppt_status.duty_ticks : Int) - c.perturb_direction
        else (c.mppt_status.duty_ticks : Int))) ∧
    (MPPT_Process env c).hysteresis_counter =
      (if c.last_power_mw + 50 < MPPT_env_pv_power env ∧ c.hysteresis_counter < 2 then
        c.hysteresis_counter + 1 else 0) ∧
    (MPPT_Process env c).perturb_direction =
      (if MPPT_env_pv_power env + 50 < c.last_power_mw then -c.perturb_direction
       else c.perturb_direction) ∧
    2 ≤ c.mppt_status.duty_ticks ∧ c.mppt_status.duty_ticks ≤ 36 ∧
    (c.perturb_direction = 1 ∨ c.perturb_direction = -1) ∧ c.hysteresis_counter ≤ 2 := by
  obtain ⟨hdu, -, hd, hc, hl, -, -⟩ := MPPT_Inv_of_Reachable c hr
  obtain ⟨f1, -, -, -, -, f6, -, -, -, -, f11, f12, f13, -, -⟩ :=
    MPPT_before_switch_fields env c
  have hp : (MPPT_before_switch env c).mppt_status.pv_power_mw ≤ 4294836 := by
    rw [f1]; exact pv_power_le _ _
  have hl2 : (MPPT_before_switch env c).last_power_mw ≤ 4294836 := by rw [f11]; exact hl
  have hd2 : (MPPT_before_switch env c).perturb_direction = 1 ∨
      (MPPT_before_switch env c).perturb_direction = -1 := by rw [f12]; exact hd
  have hc2 : (MPPT_before_switch env c).hysteresis_counter ≤ 2 := by rw [f13]; exact hc
  have hrange := hdu (Or.inl hs)
  have hr1 : 2 ≤ (MPPT_before_switch env c).mppt_status.duty_ticks := by rw [f6]; exact hrange.1
  have hr2 : (MPPT_before_switch env c).mppt_status.duty_ticks ≤ 36 := by
    rw [f6]; exact hrange.2
  obtain ⟨g1, g2, g3, -, -⟩ := MPPT_Process_bulk_fields env c hexec hs hov hsc
  have hdir := perturb_and_observe_direction_spec _ hp hl2 hd2
  have hcnt := perturb_and_observe_counter_spec _ hp hl2 hc2
  have hraw := perturb_and_observe_raw_duty_spec _ hp hl2 hc2 hd2 hr1 hr2
  rw [f1, f11, f12] at hdir
  rw [f1, f11, f13] at hcnt
  rw [f1, f11, f12, f13, f6] at hraw
  refine ⟨?_, ?_, ?_, hrange.1, hrange.2, hd, hc⟩
  · rw [g3]; exact perturb_and_observe_clamp_int _ _ hraw
  · rw [g2, hcnt]
  · rw [g1, hdir]

/-- C9 (as amended): in an executed Bulk step from a reachable state that trips
no fault, a qualifying step (a power drop of more than 50 mW, or the third
consecutive power rise of more than 50 mW) moves `duty_ticks` by exactly one
tick in the direction left by the step whenever the result stays within 2..36,
and leaves it unchanged at the bound otherwise; a non-qualifying step leaves
`duty_ticks` unchanged. -/
theorem C9_duty_move (env : MPPT_Env) (c : MPPT_Ctx) (hr : MPPT_Reachable c)
    (hexec : MPPT_interval_pending env c = false)
    (hs : c.mppt_status.state = MPPT_STATE_BULK)
    (hov : u16 env.battery_voltage_mv ≤ 29300)
    (hsc : ¬ (u16 env.pv_current_ma > 15000 ∧ u16 env.pv_voltage_mv < 5000)) :
    ((MPPT_env_pv_power env + 50 < c.last_power_mw ∨
        (c.last_power_mw + 50 < MPPT_env_pv_power env ∧ c.hysteresis_counter = 2)) →
      ((2 ≤ (c.mppt_status.duty_ticks : Int) + (MPPT_Process env c).perturb_direction ∧
          (c.mppt_status.duty_ticks : Int) + (MPPT_Process env c).perturb_direction ≤ 36) →
        ((MPPT_Process env c).mppt_status.duty_ticks : Int) =
          (c.mppt_status.duty_ticks : Int) + (MPPT_Process env c).perturb_direction) ∧
      (¬ (2 ≤ (c.mppt_status.duty_ticks : Int) + (MPPT_Process env c).perturb_direction ∧
          (c.mppt_status.duty_ticks : Int) + (MPPT_Process env c).perturb_direction ≤ 36) →
        (MPPT_Process env c).mppt_status.duty_ticks = c.mppt_status.duty_ticks)) ∧
    (¬ (MPPT_env_pv_power env + 50 < c.last_power_mw ∨
        (c.last_power_mw + 50 < MPPT_env_pv_power env ∧ c.hysteresis_counter = 2)) →
      (MPPT_Process env c).mppt_status.duty_ticks = c.mppt_status.duty_ticks) ∧
    ((MPPT_Process env c).perturb_direction = 1 ∨
      (MPPT_Process env c).perturb_direction = -1) := by
  obtain ⟨hduty, -, hdir, h2, h36, hd, -⟩ := MPPT_Process_bulk_duty env c hr hexec hs hov hsc
  rw [hdir]
  refine ⟨?_, ?_, ?_⟩
  · intro hq
    split_ifs at hduty ⊢ <;> omega
  · intro hq
    split_ifs at hduty <;> omega
  · split_ifs <;> omega

/-- C9 witness: from the Bulk state reached 1.2 s after start-up (duty 12, 30000
mW stored), a step observing 27000 mW reverses and moves the duty to 11. -/
theorem C9_duty_move_witness :
    ((MPPT_Process ⟨1300, 1300, 30000, 900, 24000, 1000⟩
      (MPPT_run 0 HAL_PWM_boot [.EnableCharging,
        .Process ⟨100, 100, 30000, 1000, 24000, 1000⟩,
        .Process ⟨1200, 1200, 30000, 1000, 24000, 1000⟩])).mppt_status.duty_ticks : Int) =
      12 + (-1) :=
  ((C9_duty_move ⟨1300, 1300, 30000, 900, 24000, 1000⟩
    (MPPT_run 0 HAL_PWM_boot [.EnableCharging,
        .Process ⟨100, 100, 30000, 1000, 24000, 1000⟩,
        .Process ⟨1200, 1200, 30000, 1000, 24000, 1000⟩])
    ⟨0, HAL_PWM_boot, _, rfl⟩ (by decide) (by decide) (by decide) (by decide)).1
    (Or.inl (by decide))).1 (by decide)

/-- C9 counterexample: a reachable Bulk state with duty 36 and 27000 mW stored;
the step observes 24000 mW (a drop of more than 50 mW), executes, stays in Bulk,
and leaves `duty_ticks` at 36: no move by one tick. -/
theorem C9_counterexample :
    (MPPT_run 0 HAL_PWM_boot [.EnableCharging,
        .Process ⟨100, 100, 30000, 1000, 24000, 1000⟩,
        .Process ⟨1200, 1200, 30000, 1000, 24000, 1000⟩,
        .Process ⟨1300, 1300, 30000, 900, 24000, 1000⟩,
        .Process ⟨1400, 1400, 30000, 900, 28800, 1000⟩,
        .Process ⟨1500, 1500, 30000, 900, 28800, 1000⟩,
        .Process ⟨1600, 1600, 30000, 900, 24000, 1000⟩]).mppt_status.state
      = MPPT_STATE_BULK ∧
    (MPPT_run 0 HAL_PWM_boot [.EnableCharging,
        .Process ⟨100, 100, 30000, 1000, 24000, 1000⟩,
        .Process ⟨1200, 1200, 30000, 1000, 24000, 1000⟩,
        .Process ⟨1300, 1300, 30000, 900, 24000, 1000⟩,
        .Process ⟨1400, 1400, 30000, 900, 28800, 1000⟩,
        .Process ⟨1500, 1500, 30000, 900, 28800, 1000⟩,
        .Process ⟨1600, 1600, 30000, 900, 24000, 1000⟩]).mppt_status.duty_ticks = 36 ∧
    (MPPT_run 0 HAL_PWM_boot [.EnableCharging,
        .Process ⟨100, 100, 30000, 1000, 24000, 1000⟩,
        .Process ⟨1200, 1200, 30000, 1000, 24000, 1000⟩,
        .Process ⟨1300, 1300, 30000, 900, 24000, 1000⟩,
        .Process ⟨1400, 1400, 30000, 900, 28800, 1000⟩,
        .Process ⟨1500, 1500, 30000, 900, 28800, 1000⟩,
        .Process ⟨1600, 1600, 30000, 900, 24000, 1000⟩]).last_power_mw = 27000 ∧
    MPPT_interval_pending ⟨1700, 1700, 30000, 800, 24000, 1000⟩
      (MPPT_run 0 HAL_PWM_boot [.EnableCharging,
        .Process ⟨100, 100, 30000, 1000, 24000, 1000⟩,
        .Process ⟨1200, 1200, 30000, 1000, 24000, 1000⟩,
        .Process ⟨1300, 1300, 30000, 900, 24000, 1000⟩,
        .Process ⟨1400, 1400, 30000, 900, 28800, 1000⟩,
        .Process ⟨1500, 1500, 30000, 900, 28800, 1000⟩,
        .Process ⟨1600, 1600, 30000, 900, 24000, 1000⟩]) = false ∧
    MPPT_env_pv_power ⟨1700, 1700, 30000, 800, 24000, 1000⟩ = 24000 ∧
    (MPPT_Process ⟨1700, 1700, 30000, 800, 24000, 1000⟩
      (MPPT_run 0 HAL_PWM_boot [.EnableCharging,
        .Process ⟨100, 100, 30000, 1000, 24000, 1000⟩,
        .Process ⟨1200, 1200, 30000, 1000, 24000, 1000⟩,
        .Process ⟨1300, 1300, 30000, 900, 24000, 1000⟩,
        .Process ⟨1400, 1400, 30000, 900, 28800, 1000⟩,
        .Process ⟨1500, 1500, 30000, 900, 28800, 1000⟩,
        .Process ⟨1600, 1600, 30000, 900, 24000, 1000⟩])).mppt_status.state
      = MPPT_STATE_BULK ∧
    (MPPT_Process ⟨1700, 1700, 30000, 800, 24000, 1000⟩
      (MPPT_run 0 HAL_PWM_boot [.EnableCharging,
        .Process ⟨100, 100, 30000, 1000, 24000, 1000⟩,
        .Process ⟨1200, 1200, 30000, 1000, 24000, 1000⟩,
        .Process ⟨1300, 1300, 30000, 900, 24000, 1000⟩,
        .Process ⟨1400, 1400, 30000, 900, 28800, 1000⟩,
        .Process ⟨1500, 1500, 30000, 900, 28800, 1000⟩,
        .Process ⟨1600, 1600, 30000, 900, 24000, 1000⟩])).mppt_status.duty_ticks = 36 := by
  decide

/-- C11 (as amended): in state Float, an executed step without a PV short
circuit ends in Bulk exactly when the battery voltage reading is below 26900 mV;
at exactly 26900 mV, and up to 29300 mV, the state stays Float. -/
theorem C11_float_to_bulk (env : MPPT_Env) (c : MPPT_Ctx)
    (hexec : MPPT_interval_pending env c = false)
    (hs : c.mppt_status.state = MPPT_STATE_FLOAT)
    (hsc : ¬ (u16 env.pv_current_ma > 15000 ∧ u16 env.pv_voltage_mv < 5000)) :
    ((MPPT_Process env c).mppt_status.state = MPPT_STATE_BULK ↔
      u16 env.battery_voltage_mv < 26900) ∧
    (26900 ≤ u16 env.battery_voltage_mv → u16 env.battery_voltage_mv ≤ 29300 →
      (MPPT_Process env c).mppt_status.state = MPPT_STATE_FLOAT) := by
  by_cases hov : u16 env.battery_voltage_mv ≤ 29300
  · have hst : (MPPT_Process env c).mppt_status.state =
        if u16 env.battery_voltage_mv < 26900 then MPPT_STATE_BULK else MPPT_STATE_FLOAT := by
      rw [MPPT_Process_float env c hexec hs hov hsc, MPPT_case_float_eq, MPPT_before_switch_eq]
      simp only [MPPT_energy_update, MPPT_checked_state_ok env _ hov hsc, hs,
        BATTERY_FLOAT_MV]
    rw [hst]
    refine ⟨?_, ?_⟩
    · split_ifs with h
      · simp only [true_iff]; exact h
      · simp only [false_iff, reduceCtorEq]; exact h
    · intro h _; rw [if_neg (by omega)]
  · have hst : (MPPT_Process env c).mppt_status.state = MPPT_STATE_FAULT := by
      rw [MPPT_Process_fault env c hexec (Or.inr (Or.inl (by omega)))]
      unfold MPPT_case_fault
      simp only [MPPT_energy_update]
      rw [MPPT_before_switch_state]
      exact MPPT_checked_state_trip env _ (Or.inl (by omega))
    rw [hst]
    refine ⟨?_, ?_⟩
    · simp only [reduceCtorEq, false_iff]; omega
    · intro _ h; omega

/-- C11 witness: from the Float state reached through Bulk and Absorb, a step
with battery voltage reading 26899 mV ends in Bulk. -/
theorem C11_float_to_bulk_witness :
    (MPPT_Process ⟨1500, 1500, 30000, 1000, 26899, 1000⟩
      (MPPT_run 0 HAL_PWM_boot [.EnableCharging,
        .Process ⟨100, 100, 30000, 1000, 24000, 1000⟩,
        .Process ⟨1200, 1200, 30000, 1000, 24000, 1000⟩,
        .Process ⟨1300, 1300, 30000, 1000, 28800, 1000⟩,
        .Process ⟨1400, 1400, 30000, 1000, 28800, 1000⟩])).mppt_status.state
      = MPPT_STATE_BULK :=
  (C11_float_to_bulk ⟨1500, 1500, 30000, 1000, 26899, 1000⟩
    (MPPT_run 0 HAL_PWM_boot [.EnableCharging,
        .Process ⟨100, 100, 30000, 1000, 24000, 1000⟩,
        .Process ⟨1200, 1200, 30000, 1000, 24000, 1000⟩,
        .Process ⟨1300, 1300, 30000, 1000, 28800, 1000⟩,
        .Process ⟨1400, 1400, 30000, 1000, 28800, 1000⟩])
    (by decide) (by decide) (by decide)).1.mpr (by decide)

/-- C11 counterexample: a reachable Float state; the step with battery voltage
reading exactly 26900 mV and no fault condition executes and ends in Float, not
in Bulk. -/
theorem C11_counterexample :
    (MPPT_run 0 HAL_PWM_boot [.EnableCharging,
        .Process ⟨100, 100, 30000, 1000, 24000, 1000⟩,
        .Process ⟨1200, 1200, 30000, 1000, 24000, 1000⟩,
        .Process ⟨1300, 1300, 30000, 1000, 28800, 1000⟩,
        .Process ⟨1400, 1400, 30000, 1000, 28800, 1000⟩]).mppt_status.state
      = MPPT_STATE_FLOAT ∧
    MPPT_interval_pending ⟨1500, 1500, 30000, 1000, 26900, 1000⟩
      (MPPT_run 0 HAL_PWM_boot [.EnableCharging,
        .Process ⟨100, 100, 30000, 1000, 24000, 1000⟩,
        .Process ⟨1200, 1200, 30000, 1000, 24000, 1000⟩,
        .Process ⟨1300, 1300, 30000, 1000, 28800, 1000⟩,
        .Process ⟨1400, 1400, 30000, 1000, 28800, 1000⟩]) = false ∧
    (MPPT_Process ⟨1500, 1500, 30000, 1000, 26900, 1000⟩
      (MPPT_run 0 HAL_PWM_boot [.EnableCharging,
        .Process ⟨100, 100, 30000, 1000, 24000, 1000⟩,
        .Process ⟨1200, 1200, 30000, 1000, 24000, 1000⟩,
        .Process ⟨1300, 1300, 30000, 1000, 28800, 1000⟩,
        .Process ⟨1400, 1400, 30000, 1000, 28800, 1000⟩])).mppt_status.fault
      = MPPT_FAULT_NONE ∧
    (MPPT_Process ⟨1500, 1500, 30000, 1000, 26900, 1000⟩
      (MPPT_run 0 HAL_PWM_boot [.EnableCharging,
        .Process ⟨100, 100, 30000, 1000, 24000, 1000⟩,
        .Process ⟨1200, 1200, 30000, 1000, 24000, 1000⟩,
        .Process ⟨1300, 1300, 30000, 1000, 28800, 1000⟩,
        .Process ⟨1400, 1400, 30000, 1000, 28800, 1000⟩])).mppt_status.state
      = MPPT_STATE_FLOAT ∧
    (MPPT_Process ⟨1500, 1500, 30000, 1000, 26900, 1000⟩
      (MPPT_run 0 HAL_PWM_boot [.EnableCharging,
        .Process ⟨100, 100, 30000, 1000, 24000, 1000⟩,
        .Process ⟨1200, 1200, 30000, 1000, 24000, 1000⟩,
        .Process ⟨1300, 1300, 30000, 1000, 28800, 1000⟩,
        .Process ⟨1400, 1400, 30000, 1000, 28800, 1000⟩])).mppt_status.state
      ≠ MPPT_STATE_BULK := by
  decide

theorem MPPT_Process_fault_fields (env : MPPT_Env) (c : MPPT_Ctx)
    (hexec : MPPT_interval_pending env c = false)
    (h : c.mppt_status.state = MPPT_STATE_FAULT ∨ u16 env.battery_voltage_mv > 29300 ∨
      (u16 env.pv_current_ma > 15000 ∧ u16 env.pv_voltage_mv < 5000)) :
    (MPPT_Process env c).mppt_status.state = MPPT_STATE_FAULT ∧
    (MPPT_Process env c).mppt_status.fault = MPPT_checked_fault env c.mppt_status.fault ∧
    (MPPT_Process env c).mppt_status.duty_ticks = 0 ∧
    (MPPT_Process env c).pwm.pwm_running = false ∧
    (MPPT_Process env c).pwm.panel_en = false ∧
    (MPPT_Process env c).pwm.load_en = false := by
  have hst : MPPT_checked_state env c.mppt_status.state = MPPT_STATE_FAULT := by
    rcases h with h | h
    · rw [h]; exact MPPT_checked_state_fault env
    · exact MPPT_checked_state_trip env _ h
  rw [MPPT_Process_fault env c hexec h]
  unfold MPPT_case_fault MPPT_energy_update
  obtain ⟨-, -, -, -, -, -, -, -, f9, -, -, -, -, -, -⟩ := MPPT_before_switch_fields env c
  refine ⟨?_, f9, rfl, ?_, rfl, rfl⟩
  · show (MPPT_before_switch env c).mppt_status.state = MPPT_STATE_FAULT
    rw [MPPT_before_switch_state]; exact hst
  · exact HAL_PWM_Stop_running _

theorem MPPT_state_machine_frame (env : MPPT_Env) (t : Nat) (d : MPPT_Ctx) :
    (MPPT_state_machine env t d).mppt_status.fault = d.mppt_status.fault ∧
    (MPPT_state_machine env t d).mppt_status.battery_power_mw =
      d.mppt_status.battery_power_mw ∧
    (MPPT_state_machine env t d).mppt_status.energy_today_wh =
      d.mppt_status.energy_today_wh ∧
    (MPPT_state_machine env t d).mppt_status.charging_enabled =
      d.mppt_status.charging_enabled := by
  cases hs : d.mppt_status.state
  · rw [MPPT_state_machine_idle env t d hs, MPPT_case_idle_eq]; exact ⟨rfl, rfl, rfl, rfl⟩
  · rw [MPPT_state_machine_startup env t d hs, MPPT_case_startup_eq]
    exact ⟨rfl, rfl, rfl, rfl⟩
  · rw [MPPT_state_machine_bulk env t d hs, MPPT_case_bulk_eq]; exact ⟨rfl, rfl, rfl, rfl⟩
  · rw [MPPT_state_machine_absorb env t d hs, MPPT_case_absorb_eq]
    exact ⟨rfl, rfl, rfl, rfl⟩
  · rw [MPPT_state_machine_float env t d hs, MPPT_case_float_eq]; exact ⟨rfl, rfl, rfl, rfl⟩
  · rw [MPPT_state_machine_fault env t d hs]; exact ⟨rfl, rfl, rfl, rfl⟩
  · rw [MPPT_state_machine_night env t d hs, MPPT_case_night_eq]; exact ⟨rfl, rfl, rfl, rfl⟩

theorem MPPT_Process_fault_code (env : MPPT_Env) (c : MPPT_Ctx)
    (hexec : MPPT_interval_pending env c = false) :
    (MPPT_Process env c).mppt_status.fault = MPPT_checked_fault env c.mppt_status.fault := by
  rw [MPPT_Process_exec env c hexec]
  unfold MPPT_energy_update
  show (MPPT_state_machine env _ (MPPT_before_switch env c)).mppt_status.fault = _
  rw [(MPPT_state_machine_frame env _ _).1]
  exact (MPPT_before_switch_fields env c).2.2.2.2.2.2.2.2.1

/-- C12: an executed step whose battery voltage reading exceeds 29300 mV ends,
whatever the prior state and fault code and whether or not the PV short-circuit
condition holds, with state Fault, fault Overvoltage, `duty_ticks` 0, the PWM
stopped and both driver rails disabled; a reading of exactly 29300 mV raises no
overvoltage fault. -/
theorem C12_overvoltage (env : MPPT_Env) (c : MPPT_Ctx)
    (hexec : MPPT_interval_pending env c = false) :
    (u16 env.battery_voltage_mv > 29300 →
      (MPPT_Process env c).mppt_status.state = MPPT_STATE_FAULT ∧
      (MPPT_Process env c).mppt_status.fault = MPPT_FAULT_OVERVOLTAGE ∧
      (MPPT_Process env c).mppt_status.duty_ticks = 0 ∧
      (MPPT_Process env c).pwm.pwm_running = false ∧
      (MPPT_Process env c).pwm.panel_en = false ∧
      (MPPT_Process env c).pwm.load_en = false) ∧
    (u16 env.battery_voltage_mv = 29300 →
      c.mppt_status.fault ≠ MPPT_FAULT_OVERVOLTAGE →
      (MPPT_Process env c).mppt_status.fault ≠ MPPT_FAULT_OVERVOLTAGE) := by
  refine ⟨?_, ?_⟩
  · intro hov
    obtain ⟨h1, h2, h3, h4, h5, h6⟩ :=
      MPPT_Process_fault_fields env c hexec (Or.inr (Or.inl hov))
    refine ⟨h1, ?_, h3, h4, h5, h6⟩
    rw [h2]
    unfold MPPT_checked_fault
    simp only [BATTERY_ABSORB_MV]
    rw [if_pos (by omega)]
  · intro hb hf
    have hfault := MPPT_Process_fault_code env c hexec
    rw [hfault]
    unfold MPPT_checked_fault
    simp only [BATTERY_ABSORB_MV, BATTERY_LOW_MV, BATTERY_RECONNECT_MV]
    split_ifs <;> first | omega | exact hf | simp

/-- C12 witness: the first step after initialisation with a battery voltage
reading of 29301 mV ends in Fault with the Overvoltage code. -/
theorem C12_overvoltage_witness :
    (MPPT_Process ⟨100, 100, 30000, 1000, 29301, 1000⟩
      (MPPT_Init 0 HAL_PWM_boot)).mppt_status.fault = MPPT_FAULT_OVERVOLTAGE :=
  ((C12_overvoltage ⟨100, 100, 30000, 1000, 29301, 1000⟩ (MPPT_Init 0 HAL_PWM_boot)
    (by decide)).1 (by decide)).2.1

theorem MPPT_Process_fault_code_any (env : MPPT_Env) (c : MPPT_Ctx) :
    (MPPT_Process env c).mppt_status.fault = c.mppt_status.fault ∨
    (MPPT_Process env c).mppt_status.fault = MPPT_checked_fault env c.mppt_status.fault := by
  cases hp : MPPT_interval_pending env c
  · exact Or.inr (MPPT_Process_fault_code env c hp)
  · rw [MPPT_Process_pending env c hp]; exact Or.inl rfl

/-- C13 (as amended): once the fault code is Overvoltage, Overcurrent or PvShort,
an `MPPT_Process` step never sets it to None, and keeps its value whenever the
step detects no fault condition of its own (battery above 29300 mV, PV short
circuit, or a connected battery below 21000 mV); a step that detects such a
condition stores the code of the detected one instead. -/
theorem C13_fault_code_kept (env : MPPT_Env) (c : MPPT_Ctx)
    (hf : c.mppt_status.fault = MPPT_FAULT_OVERVOLTAGE ∨
      c.mppt_status.fault = MPPT_FAULT_OVERCURRENT ∨
      c.mppt_status.fault = MPPT_FAULT_PV_SHORT) :
    (MPPT_Process env c).mppt_status.fault ≠ MPPT_FAULT_NONE ∧
    (¬ u16 env.battery_voltage_mv > 29300 →
      ¬ (u16 env.pv_current_ma > 15000 ∧ u16 env.pv_voltage_mv < 5000) →
      ¬ (u16 env.battery_voltage_mv < 21000 ∧ u16 env.battery_voltage_mv > 10000) →
      (MPPT_Process env c).mppt_status.fault = c.mppt_status.fault) ∧
    (MPPT_interval_pending env c = false →
      (u16 env.battery_voltage_mv > 29300 →
        (MPPT_Process env c).mppt_status.fault = MPPT_FAULT_OVERVOLTAGE) ∧
      (¬ u16 env.battery_voltage_mv > 29300 →
        (u16 env.pv_current_ma > 15000 ∧ u16 env.pv_voltage_mv < 5000) →
        (MPPT_Process env c).mppt_status.fault = MPPT_FAULT_PV_SHORT) ∧
      (¬ (u16 env.pv_current_ma > 15000 ∧ u16 env.pv_voltage_mv < 5000) →
        (u16 env.battery_voltage_mv < 21000 ∧ u16 env.battery_voltage_mv > 10000) →
        (MPPT_Process env c).mppt_status.fault = MPPT_FAULT_UNDERVOLTAGE)) := by
  have hne : c.mppt_status.fault ≠ MPPT_FAULT_NONE := by
    rcases hf with h | h | h <;> rw [h] <;> simp
  have hnu : c.mppt_status.fault ≠ MPPT_FAULT_UNDERVOLTAGE := by
    rcases hf with h | h | h <;> rw [h] <;> simp
  refine ⟨?_, ?_, ?_⟩
  · rcases MPPT_Process_fault_code_any env c with h | h
    · rw [h]; exact hne
    · rw [h]
      unfold MPPT_checked_fault
      split_ifs with h1 h2 h3 h4
      · simp
      · simp
      · simp
      · exact absurd h4.2 hnu
      · exact hne
  · intro h1 h2 h3
    rcases MPPT_Process_fault_code_any env c with h | h
    · exact h
    · rw [h]
      unfold MPPT_checked_fault
      simp only [BATTERY_ABSORB_MV, BATTERY_LOW_MV, BATTERY_RECONNECT_MV]
      rw [if_neg (by omega), if_neg h2, if_neg h3, if_neg (fun h4 => hnu h4.2)]
  · intro hexec
    rw [MPPT_Process_fault_code env c hexec]
    unfold MPPT_checked_fault
    simp only [BATTERY_ABSORB_MV, BATTERY_LOW_MV, BATTERY_RECONNECT_MV]
    refine ⟨?_, ?_, ?_⟩
    · intro h1; rw [if_pos (by omega)]
    · intro h1 h2; rw [if_neg (by omega), if_pos h2]
    · intro h2 h3
      split_ifs with h1
      · omega
      · rfl

/-- C13 witness: after an emergency stop, a step that detects no fault condition
keeps the Overcurrent code. -/
theorem C13_fault_code_kept_witness :
    (MPPT_Process ⟨100, 100, 30000, 1000, 25000, 1000⟩
      (MPPT_run 0 HAL_PWM_boot [.EmergencyStop])).mppt_status.fault
      = MPPT_FAULT_OVERCURRENT :=
  (C13_fault_code_kept ⟨100, 100, 30000, 1000, 25000, 1000⟩
    (MPPT_run 0 HAL_PWM_boot [.EmergencyStop]) (Or.inr (Or.inl (by decide)))).2.1
    (by decide) (by decide) (by decide)

/-- C13 counterexample: after an emergency stop the fault code is Overcurrent; a
step with a battery voltage reading of 20000 mV replaces it by Undervoltage, and
the next step, at 25000 mV, sets it to None, without any `MPPT_ClearFaults`. -/
theorem C13_counterexample :
    (MPPT_run 0 HAL_PWM_boot [.EmergencyStop]).mppt_status.fault
      = MPPT_FAULT_OVERCURRENT ∧
    (MPPT_run 0 HAL_PWM_boot [.EmergencyStop,
      .Process ⟨100, 100, 30000, 1000, 20000, 1000⟩]).mppt_status.fault
      = MPPT_FAULT_UNDERVOLTAGE ∧
    (MPPT_run 0 HAL_PWM_boot [.EmergencyStop,
      .Process ⟨100, 100, 30000, 1000, 20000, 1000⟩,
      .Process ⟨200, 200, 30000, 1000, 25000, 1000⟩]).mppt_status.fault
      = MPPT_FAULT_NONE := by
  decide

/-- C14, the code at the failing input: after an emergency stop the state is
Fault; `MPPT_DisableCharging` then sets the state to Idle and leaves the fault
code Overcurrent in place. -/
theorem C14_disable_leaves_fault :
    (MPPT_run 0 HAL_PWM_boot [.EmergencyStop]).mppt_status.state = MPPT_STATE_FAULT ∧
    (MPPT_DisableCharging (MPPT_run 0 HAL_PWM_boot [.EmergencyStop])).mppt_status.state
      = MPPT_STATE_IDLE ∧
    (MPPT_DisableCharging (MPPT_run 0 HAL_PWM_boot [.EmergencyStop])).mppt_status.fault
      = MPPT_FAULT_OVERCURRENT := by
  decide

/-- C15 (as amended): `MPPT_ClearFaults` called in state Fault always sets the
state to Idle and the fault code to None and changes nothing else, whatever the
status shows; if a fault condition (battery above 29300 mV, or PV short circuit)
is present at the next executed step, that step ends in Fault again; called in
any other state it changes nothing. -/
theorem C15_clear_faults (c : MPPT_Ctx) :
    (c.mppt_status.state = MPPT_STATE_FAULT →
      MPPT_ClearFaults c =
        { c with mppt_status := { c.mppt_status with fault := MPPT_FAULT_NONE,
                                                     state := MPPT_STATE_IDLE } } ∧
      ∀ env : MPPT_Env, MPPT_interval_pending env (MPPT_ClearFaults c) = false →
        (u16 env.battery_voltage_mv > 29300 ∨
          (u16 env.pv_current_ma > 15000 ∧ u16 env.pv_voltage_mv < 5000)) →
        (MPPT_Process env (MPPT_ClearFaults c)).mppt_status.state = MPPT_STATE_FAULT ∧
        (MPPT_Process env (MPPT_ClearFaults c)).mppt_status.fault ≠ MPPT_FAULT_NONE) ∧
    (c.mppt_status.state ≠ MPPT_STATE_FAULT → MPPT_ClearFaults c = c) := by
  refine ⟨?_, ?_⟩
  · intro hs
    refine ⟨?_, ?_⟩
    · unfold MPPT_ClearFaults; rw [if_pos hs]
    · intro env hexec htrip
      obtain ⟨h1, h2, -⟩ := MPPT_Process_fault_fields env _ hexec (Or.inr htrip)
      refine ⟨h1, ?_⟩
      rw [h2]
      unfold MPPT_checked_fault
      simp only [BATTERY_ABSORB_MV]
      rcases htrip with h | h
      · rw [if_pos (by omega)]; simp
      · split_ifs
        · simp
        · simp
  · intro hs
    unfold MPPT_ClearFaults; rw [if_neg hs]

/-- C15 witness: the overvoltage fault raised by the first step is cleared to
Idle by `MPPT_ClearFaults`. -/
theorem C15_clear_faults_witness :
    (MPPT_ClearFaults (MPPT_run 0 HAL_PWM_boot
        [.Process ⟨100, 100, 30000, 1000, 30000, 1000⟩])).mppt_status.state
      = MPPT_STATE_IDLE :=
  congrArg (fun d => d.mppt_status.state)
    ((C15_clear_faults (MPPT_run 0 HAL_PWM_boot
      [.Process ⟨100, 100, 30000, 1000, 30000, 1000⟩])).1 (by decide)).1

/-- C15 counterexample: the first step reads a battery voltage of 30000 mV and
ends in Fault with the Overvoltage code; the status still shows 30000 mV, above
29300 mV, and `MPPT_ClearFaults` nevertheless puts the controller in Idle with
fault None. -/
theorem C15_counterexample :
    (MPPT_run 0 HAL_PWM_boot
      [.Process ⟨100, 100, 30000, 1000, 30000, 1000⟩]).mppt_status.state
      = MPPT_STATE_FAULT ∧
    (MPPT_run 0 HAL_PWM_boot
      [.Process ⟨100, 100, 30000, 1000, 30000, 1000⟩]).mppt_status.battery_voltage_mv
      = 30000 ∧
    (MPPT_ClearFaults (MPPT_run 0 HAL_PWM_boot
      [.Process ⟨100, 100, 30000, 1000, 30000, 1000⟩])).mppt_status.state
      = MPPT_STATE_IDLE ∧
    (MPPT_ClearFaults (MPPT_run 0 HAL_PWM_boot
      [.Process ⟨100, 100, 30000, 1000, 30000, 1000⟩])).mppt_status.fault
      = MPPT_FAULT_NONE := by
  decide

/-- C16: `MPPT_EmergencyStop`, in any state, sets state Fault and fault
Overcurrent, leaves every other status field and every private variable
unchanged, stops the PWM and disables both driver rails. -/
theorem C16_emergency_stop (c : MPPT_Ctx) :
    (MPPT_EmergencyStop c).mppt_status =
      { c.mppt_status with state := MPPT_STATE_FAULT, fault := MPPT_FAULT_OVERCURRENT } ∧
    (MPPT_EmergencyStop c).pwm.pwm_running = false ∧
    (MPPT_EmergencyStop c).pwm.panel_en = false ∧
    (MPPT_EmergencyStop c).pwm.load_en = false ∧
    (MPPT_EmergencyStop c).perturb_direction = c.perturb_direction ∧
    (MPPT_EmergencyStop c).last_power_mw = c.last_power_mw ∧
    (MPPT_EmergencyStop c).hysteresis_counter = c.hysteresis_counter ∧
    (MPPT_EmergencyStop c).state_entry_time_ms = c.state_entry_time_ms ∧
    (MPPT_EmergencyStop c).last_process_time_ms = c.last_process_time_ms :=
  ⟨rfl, HAL_PWM_Stop_running _, rfl, rfl, rfl, rfl, rfl, rfl, rfl⟩

/-- C17: for every state reachable from `MPPT_Init` and every public operation
applied to it, if the resulting state is Fault then the PWM running flag of the
driver is false. -/
theorem C17_fault_implies_stopped (c : MPPT_Ctx) (op : MPPT_Op) (hr : MPPT_Reachable c)
    (hs : (MPPT_apply c op).mppt_status.state = MPPT_STATE_FAULT) :
    (MPPT_apply c op).pwm.pwm_running = false :=
  (MPPT_Inv_of_Reachable _ (MPPT_Reachable_apply c op hr)).2.2.2.2.2.2 hs

/-- C17 witness: an emergency stop issued while the PWM runs in Bulk leaves the
PWM stopped. -/
theorem C17_fault_implies_stopped_witness :
    (MPPT_run 0 HAL_PWM_boot [.EnableCharging,
        .Process ⟨100, 100, 30000, 1000, 24000, 1000⟩,
        .Process ⟨1200, 1200, 30000, 1000, 24000, 1000⟩]).pwm.pwm_running = true ∧
    (MPPT_apply (MPPT_run 0 HAL_PWM_boot [.EnableCharging,
        .Process ⟨100, 100, 30000, 1000, 24000, 1000⟩,
        .Process ⟨1200, 1200, 30000, 1000, 24000, 1000⟩]) .EmergencyStop).pwm.pwm_running
      = false :=
  ⟨by decide,
   C17_fault_implies_stopped (MPPT_run 0 HAL_PWM_boot [.EnableCharging,
        .Process ⟨100, 100, 30000, 1000, 24000, 1000⟩,
        .Process ⟨1200, 1200, 30000, 1000, 24000, 1000⟩]) .EmergencyStop
     ⟨0, HAL_PWM_boot, _, rfl⟩ (by decide)⟩

/-- The guard of `auto_restart_check` at the boundary: with charging enabled in
Idle, PV voltage 26000 mV and battery voltage 25000 mV (PV equal to battery +
1000 mV), the executed step moves to Startup. The ADC conversions never return
two voltages 1000 mV apart (`Calculate_Voltage_gap`). -/
theorem auto_restart_at_equal_delta :
    (MPPT_run 0 HAL_PWM_boot [.EnableCharging]).mppt_status.state = MPPT_STATE_IDLE ∧
    MPPT_interval_pending ⟨100, 100, 26000, 1000, 25000, 1000⟩
      (MPPT_run 0 HAL_PWM_boot [.EnableCharging]) = false ∧
    (MPPT_Process ⟨100, 100, 26000, 1000, 25000, 1000⟩
      (MPPT_run 0 HAL_PWM_boot [.EnableCharging])).mppt_status.state
      = MPPT_STATE_STARTUP := by
  decide

theorem sub_u32_u32 (a b : Nat) : sub_u32 (u32 a) b = sub_u32 a b := by
  rw [sub_u32_eq, sub_u32_eq]
  unfold u32
  omega

theorem HAL_PWM_Start_fields (p : HAL_PWM) :
    (HAL_PWM_Start p).pwm_running = true ∧
    (HAL_PWM_Start p).panel_en = p.panel_en ∧
    (HAL_PWM_Start p).load_en = p.load_en ∧
    (HAL_PWM_Start p).current_duty_phase1 = p.current_duty_phase1 ∧
    (HAL_PWM_Start p).current_duty_phase2 = p.current_duty_phase2 := by
  unfold HAL_PWM_Start
  split_ifs with h
  · exact ⟨rfl, rfl, rfl, rfl, rfl⟩
  · exact ⟨by simpa using h, rfl, rfl, rfl, rfl⟩

/-- C27: from state Startup, an executed step that trips no fault enables both
driver rails; while the tick difference to the state entry time (modulo 2^32) is
at most 1000 ms it stays in Startup with `duty_ticks` unchanged, and once the
difference exceeds 1000 ms it sets `duty_ticks` = 12, applies 12 ticks to both
PWM phases, starts the PWM, stores the PV power of this step as `last_power_mw`,
zeroes the hysteresis counter, stamps the entry time and enters Bulk. -/
theorem C27_startup (env : MPPT_Env) (c : MPPT_Ctx)
    (hexec : MPPT_interval_pending env c = false)
    (hs : c.mppt_status.state = MPPT_STATE_STARTUP)
    (hov : u16 env.battery_voltage_mv ≤ 29300)
    (hsc : ¬ (u16 env.pv_current_ma > 15000 ∧ u16 env.pv_voltage_mv < 5000)) :
    (MPPT_Process env c).pwm.panel_en = true ∧
    (MPPT_Process env c).pwm.load_en = true ∧
    (sub_u32 env.system_millis c.state_entry_time_ms ≤ 1000 →
      (MPPT_Process env c).mppt_status.state = MPPT_STATE_STARTUP ∧
      (MPPT_Process env c).mppt_status.duty_ticks = c.mppt_status.duty_ticks) ∧
    (sub_u32 env.system_millis c.state_entry_time_ms > 1000 →
      (MPPT_Process env c).mppt_status.state = MPPT_STATE_BULK ∧
      (MPPT_Process env c).mppt_status.duty_ticks = 12 ∧
      (MPPT_Process env c).pwm.current_duty_phase1 = 12 ∧
      (MPPT_Process env c).pwm.current_duty_phase2 = 12 ∧
      (MPPT_Process env c).pwm.pwm_running = true ∧
      (MPPT_Process env c).last_power_mw = MPPT_env_pv_power env ∧
      (MPPT_Process env c).hysteresis_counter = 0 ∧
      (MPPT_Process env c).state_entry_time_ms = u32 env.system_millis) := by
  obtain ⟨f1, -, -, -, -, f6, -, -, -, -, -, -, -, f14, -⟩ := MPPT_before_switch_fields env c
  have hst : (MPPT_before_switch env c).mppt_status.state = MPPT_STATE_STARTUP := by
    rw [MPPT_before_switch_state, MPPT_checked_state_ok env _ hov hsc, hs]
  rw [MPPT_Process_startup env c hexec hs hov hsc, MPPT_case_startup_eq]
  unfold MPPT_energy_update
  simp only [f14, sub_u32_u32, MPPT_STARTUP_DELAY_MS, STARTUP_DUTY_TICKS, f6, f1, hst]
  by_cases h : sub_u32 env.system_millis c.state_entry_time_ms > 1000
  · have hle : ¬ sub_u32 env.system_millis c.state_entry_time_ms ≤ 1000 := by omega
    simp [h, hle, HAL_PWM_Start_fields, HAL_PWM_SetDuty, HAL_PWM_EnableDrivers,
      clamp_duty_ticks]
  · have hle : sub_u32 env.system_millis c.state_entry_time_ms ≤ 1000 := by omega
    simp [h, hle, HAL_PWM_EnableDrivers]

/-- C27 witness: the step 1200 ms after entry to Startup enters Bulk. -/
theorem C27_startup_witness :
    (MPPT_Process ⟨1200, 1200, 30000, 1000, 24000, 1000⟩
      (MPPT_run 0 HAL_PWM_boot [.EnableCharging,
        .Process ⟨100, 100, 30000, 1000, 24000, 1000⟩])).mppt_status.state
      = MPPT_STATE_BULK :=
  ((C27_startup ⟨1200, 1200, 30000, 1000, 24000, 1000⟩
    (MPPT_run 0 HAL_PWM_boot [.EnableCharging,
        .Process ⟨100, 100, 30000, 1000, 24000, 1000⟩])
    (by decide) (by decide) (by decide) (by decide)).2.2.2 (by decide)).1

/-- C28 (as amended): in an executed Bulk step from a reachable state that trips
no fault, the hysteresis counter counts consecutive power rises of more than 50
mW: on a rise it goes from 0 to 1 and from 1 to 2 with duty and direction
unchanged, and on the third (counter 2) it returns to 0 and the duty advances by
one tick in the unreversed direction, unless that would leave 2..36, in which
case the duty stays at the bound; a step without such a rise resets the counter
to 0, leaves the duty unchanged when the power change is at most 50 mW in
magnitude, and on a drop of more than 50 mW reverses the direction and never moves
the duty in the old direction. After the step the counter is at most 2 and the
direction is +1 or -1. -/
theorem C28_hysteresis (env : MPPT_Env) (c : MPPT_Ctx) (hr : MPPT_Reachable c)
    (hexec : MPPT_interval_pending env c = false)
    (hs : c.mppt_status.state = MPPT_STATE_BULK)
    (hov : u16 env.battery_voltage_mv ≤ 29300)
    (hsc : ¬ (u16 env.pv_current_ma > 15000 ∧ u16 env.pv_voltage_mv < 5000)) :
    (c.last_power_mw + 50 < MPPT_env_pv_power env → c.hysteresis_counter = 2 →
      (MPPT_Process env c).hysteresis_counter = 0 ∧
      (MPPT_Process env c).perturb_direction = c.perturb_direction ∧
      ((2 ≤ (c.mppt_status.duty_ticks : Int) + c.perturb_direction ∧
          (c.mppt_status.duty_ticks : Int) + c.perturb_direction ≤ 36) →
        ((MPPT_Process env c).mppt_status.duty_ticks : Int) =
          (c.mppt_status.duty_ticks : Int) + c.perturb_direction) ∧
      (¬ (2 ≤ (c.mppt_status.duty_ticks : Int) + c.perturb_direction ∧
          (c.mppt_status.duty_ticks : Int) + c.perturb_direction ≤ 36) →
        (MPPT_Process env c).mppt_status.duty_ticks = c.mppt_status.duty_ticks)) ∧
    (c.last_power_mw + 50 < MPPT_env_pv_power env → c.hysteresis_counter < 2 →
      (MPPT_Process env c).hysteresis_counter = c.hysteresis_counter + 1 ∧
      (MPPT_Process env c).perturb_direction = c.perturb_direction ∧
      (MPPT_Process env c).mppt_status.duty_ticks = c.mppt_status.duty_ticks) ∧
    (¬ c.last_power_mw + 50 < MPPT_env_pv_power env →
      (MPPT_Process env c).hysteresis_counter = 0) ∧
    (¬ c.last_power_mw + 50 < MPPT_env_pv_power env →
      ¬ MPPT_env_pv_power env + 50 < c.last_power_mw →
      (MPPT_Process env c).perturb_direction = c.perturb_direction ∧
      (MPPT_Process env c).mppt_status.duty_ticks = c.mppt_status.duty_ticks) ∧
    (MPPT_env_pv_power env + 50 < c.last_power_mw →
      (MPPT_Process env c).perturb_direction = -c.perturb_direction ∧
      ((MPPT_Process env c).mppt_status.duty_ticks : Int) ≠
        (c.mppt_status.duty_ticks : Int) + c.perturb_direction) ∧
    (MPPT_Process env c).hysteresis_counter ≤ 2 ∧
    ((MPPT_Process env c).perturb_direction = 1 ∨
      (MPPT_Process env c).perturb_direction = -1) := by
  obtain ⟨hduty, hcnt, hdir, h2, h36, hd, hc⟩ :=
    MPPT_Process_bulk_duty env c hr hexec hs hov hsc
  rw [hcnt, hdir]
  refine ⟨?_, ?_, ?_, ?_, ?_, ?_, ?_⟩
  · intro h1 h2
    split_ifs at hduty ⊢ <;> omega
  · intro h1 h2
    split_ifs at hduty ⊢ <;> omega
  · intro h1
    split_ifs <;> omega
  · intro h1 h2
    split_ifs at hduty ⊢ <;> omega
  · intro h1
    split_ifs at hduty ⊢ <;> omega
  · split_ifs <;> omega
  · split_ifs <;> omega

/-- C28 witness: the first P&O step after start-up observes a rise from 30000 mW
to 33000 mW with counter 0: the counter becomes 1. -/
theorem C28_hysteresis_witness :
    (MPPT_Process ⟨1300, 1300, 30000, 1100, 24000, 1000⟩
      (MPPT_run 0 HAL_PWM_boot [.EnableCharging,
        .Process ⟨100, 100, 30000, 1000, 24000, 1000⟩,
        .Process ⟨1200, 1200, 30000, 1000, 24000, 1000⟩])).hysteresis_counter = 0 + 1 :=
  ((C28_hysteresis ⟨1300, 1300, 30000, 1100, 24000, 1000⟩
    (MPPT_run 0 HAL_PWM_boot [.EnableCharging,
        .Process ⟨100, 100, 30000, 1000, 24000, 1000⟩,
        .Process ⟨1200, 1200, 30000, 1000, 24000, 1000⟩])
    ⟨0, HAL_PWM_boot, _, rfl⟩ (by decide) (by decide) (by decide) (by decide)).2.1
    (by decide) (by decide)).1

/-- C28 counterexample: a reachable Bulk state with duty 36, direction +1 and
30000 mW stored; three consecutive executed steps observe 33000, 36000 and 39000
mW (each a rise of more than 50 mW); the counter goes 1, 2, 0 and the duty is
still 36 after the third: it has not advanced. -/
theorem C28_counterexample :
    (MPPT_run 0 HAL_PWM_boot [.EnableCharging,
        .Process ⟨100, 100, 30000, 1000, 24000, 1000⟩,
        .Process ⟨1200, 1200, 30000, 1000, 24000, 1000⟩,
        .Process ⟨1300, 1300, 30000, 1000, 28800, 1000⟩,
        .Process ⟨1400, 1400, 30000, 1000, 28800, 1000⟩,
        .Process ⟨1500, 1500, 30000, 1000, 24000, 1000⟩]).mppt_status.state
      = MPPT_STATE_BULK ∧
    (MPPT_run 0 HAL_PWM_boot [.EnableCharging,
        .Process ⟨100, 100, 30000, 1000, 24000, 1000⟩,
        .Process ⟨1200, 1200, 30000, 1000, 24000, 1000⟩,
        .Process ⟨1300, 1300, 30000, 1000, 28800, 1000⟩,
        .Process ⟨1400, 1400, 30000, 1000, 28800, 1000⟩,
        .Process ⟨1500, 1500, 30000, 1000, 24000, 1000⟩]).mppt_status.duty_ticks = 36 ∧
    (MPPT_run 0 HAL_PWM_boot [.EnableCharging,
        .Process ⟨100, 100, 30000, 1000, 24000, 1000⟩,
        .Process ⟨1200, 1200, 30000, 1000, 24000, 1000⟩,
        .Process ⟨1300, 1300, 30000, 1000, 28800, 1000⟩,
        .Process ⟨1400, 1400, 30000, 1000, 28800, 1000⟩,
        .Process ⟨1500, 1500, 30000, 1000, 24000, 1000⟩]).perturb_direction = 1 ∧
    (MPPT_run 0 HAL_PWM_boot [.EnableCharging,
        .Process ⟨100, 100, 30000, 1000, 24000, 1000⟩,
        .Process ⟨1200, 1200, 30000, 1000, 24000, 1000⟩,
        .Process ⟨1300, 1300, 30000, 1000, 28800, 1000⟩,
        .Process ⟨1400, 1400, 30000, 1000, 28800, 1000⟩,
        .Process ⟨1500, 1500, 30000, 1000, 24000, 1000⟩]).last_power_mw = 30000 ∧
    (MPPT_run 0 HAL_PWM_boot [.EnableCharging,
        .Process ⟨100, 100, 30000, 1000, 24000, 1000⟩,
        .Process ⟨1200, 1200, 30000, 1000, 24000, 1000⟩,
        .Process ⟨1300, 1300, 30000, 1000, 28800, 1000⟩,
        .Process ⟨1400, 1400, 30000, 1000, 28800, 1000⟩,
        .Process ⟨1500, 1500, 30000, 1000, 24000, 1000⟩,
        .Process ⟨1600, 1600, 30000, 1100, 24000, 1000⟩]).hysteresis_counter = 1 ∧
    (MPPT_run 0 HAL_PWM_boot [.EnableCharging,
        .Process ⟨100, 100, 30000, 1000, 24000, 1000⟩,
        .Process ⟨1200, 1200, 30000, 1000, 24000, 1000⟩,
        .Process ⟨1300, 1300, 30000, 1000, 28800, 1000⟩,
        .Process ⟨1400, 1400, 30000, 1000, 28800, 1000⟩,
        .Process ⟨1500, 1500, 30000, 1000, 24000, 1000⟩,
        .Process ⟨1600, 1600, 30000, 1100, 24000, 1000⟩]).last_power_mw = 33000 ∧
    (MPPT_run 0 HAL_PWM_boot [.EnableCharging,
        .Process ⟨100, 100, 30000, 1000, 24000, 1000⟩,
        .Process ⟨1200, 1200, 30000, 1000, 24000, 1000⟩,
        .Process ⟨1300, 1300, 30000, 1000, 28800, 1000⟩,
        .Process ⟨1400, 1400, 30000, 1000, 28800, 1000⟩,
        .Process ⟨1500, 1500, 30000, 1000, 24000, 1000⟩,
        .Process ⟨1600, 1600, 30000, 1100, 24000, 1000⟩,
        .Process ⟨1700, 1700, 30000, 1200, 24000, 1000⟩]).hysteresis_counter = 2 ∧
    (MPPT_run 0 HAL_PWM_boot [.EnableCharging,
        .Process ⟨100, 100, 30000, 1000, 24000, 1000⟩,
        .Process ⟨1200, 1200, 30000, 1000, 24000, 1000⟩,
        .Process ⟨1300, 1300, 30000, 1000, 28800, 1000⟩,
        .Process ⟨1400, 1400, 30000, 1000, 28800, 1000⟩,
        .Process ⟨1500, 1500, 30000, 1000, 24000, 1000⟩,
        .Process ⟨1600, 1600, 30000, 1100, 24000, 1000⟩,
        .Process ⟨1700, 1700, 30000, 1200, 24000, 1000⟩]).last_power_mw = 36000 ∧
    (MPPT_run 0 HAL_PWM_boot [.EnableCharging,
        .Process ⟨100, 100, 30000, 1000, 24000, 1000⟩,
        .Process ⟨1200, 1200, 30000, 1000, 24000, 1000⟩,
        .Process ⟨1300, 1300, 30000, 1000, 28800, 1000⟩,
        .Process ⟨1400, 1400, 30000, 1000, 28800, 1000⟩,
        .Process ⟨1500, 1500, 30000, 1000, 24000, 1000⟩,
        .Process ⟨1600, 1600, 30000, 1100, 24000, 1000⟩,
        .Process ⟨1700, 1700, 30000, 1200, 24000, 1000⟩,
        .Process ⟨1800, 1800, 30000, 1300, 24000, 1000⟩]).last_power_mw = 39000 ∧
    (MPPT_run 0 HAL_PWM_boot [.EnableCharging,
        .Process ⟨100, 100, 30000, 1000, 24000, 1000⟩,
        .Process ⟨1200, 1200, 30000, 1000, 24000, 1000⟩,
        .Process ⟨1300, 1300, 30000, 1000, 28800, 1000⟩,
        .Process ⟨1400, 1400, 30000, 1000, 28800, 1000⟩,
        .Process ⟨1500, 1500, 30000, 1000, 24000, 1000⟩,
        .Process ⟨1600, 1600, 30000, 1100, 24000, 1000⟩,
        .Process ⟨1700, 1700, 30000, 1200, 24000, 1000⟩,
        .Process ⟨1800, 1800, 30000, 1300, 24000, 1000⟩]).hysteresis_counter = 0 ∧
    (MPPT_run 0 HAL_PWM_boot [.EnableCharging,
        .Process ⟨100, 100, 30000, 1000, 24000, 1000⟩,
        .Process ⟨1200, 1200, 30000, 1000, 24000, 1000⟩,
        .Process ⟨1300, 1300, 30000, 1000, 28800, 1000⟩,
        .Process ⟨1400, 1400, 30000, 1000, 28800, 1000⟩,
        .Process ⟨1500, 1500, 30000, 1000, 24000, 1000⟩,
        .Process ⟨1600, 1600, 30000, 1100, 24000, 1000⟩,
        .Process ⟨1700, 1700, 30000, 1200, 24000, 1000⟩,
        .Process ⟨1800, 1800, 30000, 1300, 24000, 1000⟩]).mppt_status.state
      = MPPT_STATE_BULK ∧
    (MPPT_run 0 HAL_PWM_boot [.EnableCharging,
        .Process ⟨100, 100, 30000, 1000, 24000, 1000⟩,
        .Process ⟨1200, 1200, 30000, 1000, 24000, 1000⟩,
        .Process ⟨1300, 1300, 30000, 1000, 28800, 1000⟩,
        .Process ⟨1400, 1400, 30000, 1000, 28800, 1000⟩,
        .Process ⟨1500, 1500, 30000, 1000, 24000, 1000⟩,
        .Process ⟨1600, 1600, 30000, 1100, 24000, 1000⟩,
        .Process ⟨1700, 1700, 30000, 1200, 24000, 1000⟩,
        .Process ⟨1800, 1800, 30000, 1300, 24000, 1000⟩]).mppt_status.duty_ticks = 36 := by
  decide

theorem tdiv_100_spec (x : Int) :
    (0 ≤ x → Int.tdiv x 100 = x / 100) ∧ (x < 0 → Int.tdiv x 100 = -((-x) / 100)) := by
  refine ⟨fun h => Int.tdiv_eq_ediv h (by decide), fun h => ?_⟩
  have h1 : Int.tdiv (-(-x)) 100 = -(Int.tdiv (-x) 100) := Int.neg_tdiv (-x) 100
  rw [Int.neg_neg] at h1
  rw [h1, Int.tdiv_eq_ediv (by omega) (by decide)]

theorem constant_voltage_duty_spec (target_mv b d : Nat) (ht : target_mv ≤ 65535)
    (hb : b ≤ 65535) (hd : d ≤ 36) :
    constant_voltage_duty target_mv b d =
      max 2 (min 36 ((d : Int) + Int.tdiv ((target_mv : Int) - (b : Int)) 100)) := by
  unfold constant_voltage_duty
  simp only [MAX_DUTY_TICKS, MIN_DUTY_TICKS]
  have hu : u16 target_mv = target_mv := by unfold u16; omega
  rw [hu]
  have h32 : i32 ((target_mv : Int) - (b : Int)) = (target_mv : Int) - (b : Int) := by
    rw [i32_eq]; omega
  rw [h32]
  obtain ⟨hq1, hq2⟩ := tdiv_100_spec ((target_mv : Int) - (b : Int))
  have hq : -656 ≤ Int.tdiv ((target_mv : Int) - (b : Int)) 100 ∧
      Int.tdiv ((target_mv : Int) - (b : Int)) 100 ≤ 656 := by
    by_cases h0 : 0 ≤ (target_mv : Int) - (b : Int)
    · rw [hq1 h0]; omega
    · rw [hq2 (by omega)]; omega
  have h16a : i16 (Int.tdiv ((target_mv : Int) - (b : Int)) 100) =
      Int.tdiv ((target_mv : Int) - (b : Int)) 100 := by
    rw [i16_eq]; omega
  have h16b : i16 (d : Int) = (d : Int) := by rw [i16_eq]; omega
  rw [h16a, h16b]
  have h16c : i16 ((d : Int) + Int.tdiv ((target_mv : Int) - (b : Int)) 100) =
      (d : Int) + Int.tdiv ((target_mv : Int) - (b : Int)) 100 := by
    rw [i16_eq]; omega
  rw [h16c]
  split_ifs <;> omega

theorem u16_of_int_clamped (x : Int) :
    ((u16_of_int (max 2 (min 36 x)) : Nat) : Int) = max 2 (min 36 x) := by
  unfold u16_of_int
  omega

theorem u16_le (x : Nat) : u16 x ≤ 65535 := by
  unfold u16; omega

/-- C29 (as amended): in Absorb (target 28800 mV) and Float (target 27400 mV), an
executed step that trips no fault (battery voltage reading at most 29300 mV, no
PV short circuit), with a prior duty of at most 36, sets `duty_ticks` to
clamp(duty_ticks + (target_mv - battery_mv) / 100, 2, 36), the division truncating
toward zero, and applies that same value to both PWM phases; an error of
magnitude below 100 mV leaves a duty within 2..36 unchanged. -/
theorem C29_constant_voltage (env : MPPT_Env) (c : MPPT_Ctx) (target_mv : Nat)
    (hexec : MPPT_interval_pending env c = false)
    (hs : (c.mppt_status.state = MPPT_STATE_ABSORB ∧ target_mv = 28800) ∨
      (c.mppt_status.state = MPPT_STATE_FLOAT ∧ target_mv = 27400))
    (hov : u16 env.battery_voltage_mv ≤ 29300)
    (hsc : ¬ (u16 env.pv_current_ma > 15000 ∧ u16 env.pv_voltage_mv < 5000))
    (hd : c.mppt_status.duty_ticks ≤ 36) :
    ((MPPT_Process env c).mppt_status.duty_ticks : Int) =
      max 2 (min 36 ((c.mppt_status.duty_ticks : Int) +
        Int.tdiv ((target_mv : Int) - (u16 env.battery_voltage_mv : Int)) 100)) ∧
    (MPPT_Process env c).pwm.current_duty_phase1 =
      (MPPT_Process env c).mppt_status.duty_ticks ∧
    (MPPT_Process env c).pwm.current_duty_phase2 =
      (MPPT_Process env c).mppt_status.duty_ticks ∧
    (2 ≤ c.mppt_status.duty_ticks →
      (target_mv : Int) - (u16 env.battery_voltage_mv : Int) < 100 →
      -100 < (target_mv : Int) - (u16 env.battery_voltage_mv : Int) →
      (MPPT_Process env c).mppt_status.duty_ticks = c.mppt_status.duty_ticks) := by
  obtain ⟨-, -, f3, -, -, f6, -, -, -, -, -, -, -, -, -⟩ := MPPT_before_switch_fields env c
  have hduty : (MPPT_Process env c).mppt_status.duty_ticks =
        u16_of_int (constant_voltage_duty target_mv (u16 env.battery_voltage_mv)
          c.mppt_status.duty_ticks) ∧
      (MPPT_Process env c).pwm.current_duty_phase1 =
        clamp_duty_ticks (u16_of_int (constant_voltage_duty target_mv
          (u16 env.battery_voltage_mv) c.mppt_status.duty_ticks)) ∧
      (MPPT_Process env c).pwm.current_duty_phase2 =
        clamp_duty_ticks (u16_of_int (constant_voltage_duty target_mv
          (u16 env.battery_voltage_mv) c.mppt_status.duty_ticks)) := by
    rcases hs with ⟨hs, ht⟩ | ⟨hs, ht⟩
    · rw [MPPT_Process_absorb env c hexec hs hov hsc, MPPT_case_absorb_eq]
      unfold MPPT_energy_update
      simp only [f3, f6, ht, BATTERY_ABSORB_MV]
      exact ⟨trivial, rfl, rfl⟩
    · rw [MPPT_Process_float env c hexec hs hov hsc, MPPT_case_float_eq]
      unfold MPPT_energy_update
      simp only [f3, f6, ht, BATTERY_FLOAT_MV]
      exact ⟨trivial, rfl, rfl⟩
  have ht : target_mv ≤ 65535 := by rcases hs with ⟨-, ht⟩ | ⟨-, ht⟩ <;> omega
  have hspec := constant_voltage_duty_spec target_mv (u16 env.battery_voltage_mv)
    c.mppt_status.duty_ticks ht (u16_le _) hd
  have hrange := constant_voltage_duty_range target_mv (u16 env.battery_voltage_mv)
    c.mppt_status.duty_ticks
  obtain ⟨h1, h2, h3⟩ := hduty
  have hval : ((MPPT_Process env c).mppt_status.duty_ticks : Int) =
      max 2 (min 36 ((c.mppt_status.duty_ticks : Int) +
        Int.tdiv ((target_mv : Int) - (u16 env.battery_voltage_mv : Int)) 100)) := by
    rw [h1, hspec]; exact u16_of_int_clamped _
  refine ⟨hval, ?_, ?_, ?_⟩
  · rw [h2, h1]; exact clamp_duty_ticks_id _ hrange.1 hrange.2
  · rw [h3, h1]; exact clamp_duty_ticks_id _ hrange.1 hrange.2
  · intro hd2 he1 he2
    obtain ⟨hq1, hq2⟩ := tdiv_100_spec ((target_mv : Int) - (u16 env.battery_voltage_mv : Int))
    have hz : Int.tdiv ((target_mv : Int) - (u16 env.battery_voltage_mv : Int)) 100 = 0 := by
      by_cases h0 : 0 ≤ (target_mv : Int) - (u16 env.battery_voltage_mv : Int)
      · rw [hq1 h0]; omega
      · rw [hq2 (by omega)]; omega
    rw [hz] at hval
    omega

/-- C29 witness: in Absorb with duty 12, a battery voltage reading of 28000 mV
gives the adjustment (28800 - 28000) / 100 = 8 and the duty 20. -/
theorem C29_constant_voltage_witness :
    ((MPPT_Process ⟨1400, 1400, 30000, 1000, 28000, 6000⟩
      (MPPT_run 0 HAL_PWM_boot [.EnableCharging,
        .Process ⟨100, 100, 30000, 1000, 24000, 1000⟩,
        .Process ⟨1200, 1200, 30000, 1000, 24000, 1000⟩,
        .Process ⟨1300, 1300, 30000, 1000, 28800, 1000⟩])).mppt_status.duty_ticks : Int) =
      max 2 (min 36 (((12 : Nat) : Int) +
        Int.tdiv (((28800 : Nat) : Int) - ((28000 : Nat) : Int)) 100)) :=
  (C29_constant_voltage ⟨1400, 1400, 30000, 1000, 28000, 6000⟩
    (MPPT_run 0 HAL_PWM_boot [.EnableCharging,
        .Process ⟨100, 100, 30000, 1000, 24000, 1000⟩,
        .Process ⟨1200, 1200, 30000, 1000, 24000, 1000⟩,
        .Process ⟨1300, 1300, 30000, 1000, 28800, 1000⟩]) 28800
    (by decide) (Or.inl ⟨by decide, rfl⟩) (by decide) (by decide) (by decide)).1

/-- C29 counterexample: a reachable Absorb state with duty 12; the executed step
reads a battery voltage of 30000 mV (a 16-bit value) and leaves `duty_ticks` = 0,
whereas clamp(12 + (28800 - 30000) / 100, 2, 36) = 2. -/
theorem C29_counterexample :
    (MPPT_run 0 HAL_PWM_boot [.EnableCharging,
        .Process ⟨100, 100, 30000, 1000, 24000, 1000⟩,
        .Process ⟨1200, 1200, 30000, 1000, 24000, 1000⟩,
        .Process ⟨1300, 1300, 30000, 1000, 28800, 1000⟩]).mppt_status.state
      = MPPT_STATE_ABSORB ∧
    (MPPT_run 0 HAL_PWM_boot [.EnableCharging,
        .Process ⟨100, 100, 30000, 1000, 24000, 1000⟩,
        .Process ⟨1200, 1200, 30000, 1000, 24000, 1000⟩,
        .Process ⟨1300, 1300, 30000, 1000, 28800, 1000⟩]).mppt_status.duty_ticks = 12 ∧
    MPPT_interval_pending ⟨1400, 1400, 30000, 1000, 30000, 6000⟩
      (MPPT_run 0 HAL_PWM_boot [.EnableCharging,
        .Process ⟨100, 100, 30000, 1000, 24000, 1000⟩,
        .Process ⟨1200, 1200, 30000, 1000, 24000, 1000⟩,
        .Process ⟨1300, 1300, 30000, 1000, 28800, 1000⟩]) = false ∧
    (MPPT_Process ⟨1400, 1400, 30000, 1000, 30000, 6000⟩
      (MPPT_run 0 HAL_PWM_boot [.EnableCharging,
        .Process ⟨100, 100, 30000, 1000, 24000, 1000⟩,
        .Process ⟨1200, 1200, 30000, 1000, 24000, 1000⟩,
        .Process ⟨1300, 1300, 30000, 1000, 28800, 1000⟩])).mppt_status.duty_ticks = 0 ∧
    max 2 (min 36 ((12 : Int) + Int.tdiv (28800 - 30000) 100)) = 2 := by
  decide

theorem battery_power_le (env : MPPT_Env) : MPPT_env_battery_power env ≤ 4294836 :=
  pv_power_le _ _

theorem MPPT_Process_energy (env : MPPT_Env) (c : MPPT_Ctx)
    (hexec : MPPT_interval_pending env c = false) :
    (MPPT_Process env c).mppt_status.energy_today_wh =
      u32 (c.mppt_status.energy_today_wh +
        u32 (MPPT_env_battery_power env * 100) / 3600 / 1000) := by
  rw [MPPT_Process_exec env c hexec]
  unfold MPPT_energy_update
  obtain ⟨-, h2, h3, -⟩ := MPPT_state_machine_frame env (u32 env.system_millis)
    (MPPT_before_switch env c)
  obtain ⟨-, f2, -, -, -, -, f7, -⟩ := MPPT_before_switch_fields env c
  show u32 (_ + u32 (_ * 100) / 3600 / 1000) = _
  rw [h2, h3, f2, f7]

/-- C30: every executed step adds floor(floor(battery_power_mw * 100 / 3600) /
1000), which equals floor(battery_power_mw / 36000), to `energy_today_wh` (a
32-bit counter); the product battery_power_mw * 100 stays below 2^32 for all
16-bit readings; a step with battery_power_mw below 36000 leaves the counter as
it is; and `MPPT_ResetDailyEnergy` sets the counter to 0 and changes nothing
else. -/
theorem C30_energy (env : MPPT_Env) (c : MPPT_Ctx)
    (hexec : MPPT_interval_pending env c = false) :
    (MPPT_Process env c).mppt_status.energy_today_wh =
      u32 (c.mppt_status.energy_today_wh +
        u32 (MPPT_env_battery_power env * 100) / 3600 / 1000) ∧
    u32 (MPPT_env_battery_power env * 100) / 3600 / 1000 =
      MPPT_env_battery_power env / 36000 ∧
    MPPT_env_battery_power env * 100 < 4294967296 ∧
    (c.mppt_status.energy_today_wh + MPPT_env_battery_power env / 36000 < 4294967296 →
      (MPPT_Process env c).mppt_status.energy_today_wh =
        c.mppt_status.energy_today_wh + MPPT_env_battery_power env / 36000) ∧
    (MPPT_env_battery_power env < 36000 →
      (MPPT_Process env c).mppt_status.energy_today_wh =
        u32 c.mppt_status.energy_today_wh) ∧
    MPPT_ResetDailyEnergy c =
      { c with mppt_status := { c.mppt_status with energy_today_wh := 0 } } := by
  have hb := battery_power_le env
  have he := MPPT_Process_energy env c hexec
  have hq : u32 (MPPT_env_battery_power env * 100) / 3600 / 1000 =
      MPPT_env_battery_power env / 36000 := by
    unfold u32; omega
  refine ⟨he, hq, by omega, ?_, ?_, rfl⟩
  · intro h
    rw [he, hq]; unfold u32; omega
  · intro h
    rw [he, hq]
    have : MPPT_env_battery_power env / 36000 = 0 := by omega
    rw [this]; rfl

/-- C30 witness: a step with battery power 180000 mW adds 5 to the counter. -/
theorem C30_energy_witness :
    (MPPT_Process ⟨100, 100, 30000, 1000, 30000, 6000⟩
      (MPPT_Init 0 HAL_PWM_boot)).mppt_status.energy_today_wh = 0 + 180000 / 36000 :=
  (C30_energy ⟨100, 100, 30000, 1000, 30000, 6000⟩ (MPPT_Init 0 HAL_PWM_boot)
    (by decide)).2.2.2.1 (by decide)

theorem MPPT_Process_not_forced_fault (env : MPPT_Env) (c : MPPT_Ctx)
    (hexec : MPPT_interval_pending env c = false)
    (hov : u16 env.battery_voltage_mv ≤ 29300)
    (hsc : ¬ (u16 env.pv_current_ma > 15000 ∧ u16 env.pv_voltage_mv < 5000)) :
    (MPPT_Process env c).mppt_status.state ≠ MPPT_STATE_FAULT ∨
      c.mppt_status.state = MPPT_STATE_FAULT := by
  by_cases hf : c.mppt_status.state = MPPT_STATE_FAULT
  · exact Or.inr hf
  · left
    have hst : (MPPT_before_switch env c).mppt_status.state = c.mppt_status.state := by
      rw [MPPT_before_switch_state, MPPT_checked_state_ok env _ hov hsc]
    rw [MPPT_Process_exec env c hexec]
    unfold MPPT_energy_update
    show (MPPT_state_machine env _ (MPPT_before_switch env c)).mppt_status.state ≠ _
    cases hs : c.mppt_status.state
    · rw [MPPT_state_machine_idle env _ _ (hst.trans hs), MPPT_case_idle_eq]
      simp only [hst, hs]; split_ifs <;> simp
    · rw [MPPT_state_machine_startup env _ _ (hst.trans hs), MPPT_case_startup_eq]
      simp only [hst, hs]; split_ifs <;> simp
    · rw [MPPT_state_machine_bulk env _ _ (hst.trans hs), MPPT_case_bulk_eq]
      simp only [hst, hs]; split_ifs <;> simp
    · rw [MPPT_state_machine_absorb env _ _ (hst.trans hs), MPPT_case_absorb_eq]
      simp only [hst, hs]; split_ifs <;> simp
    · rw [MPPT_state_machine_float env _ _ (hst.trans hs), MPPT_case_float_eq]
      simp only [hst, hs]; split_ifs <;> simp
    · exact absurd hs hf
    · rw [MPPT_state_machine_night env _ _ (hst.trans hs), MPPT_case_night_eq]
      simp only [hst, hs]; split_ifs <;> simp

theorem MPPT_checked_pwm_undervoltage (env : MPPT_Env) (f : MPPT_Fault_t) (p : HAL_PWM)
    (h1 : 10000 < u16 env.battery_voltage_mv) (h2 : u16 env.battery_voltage_mv < 21000)
    (hsc : ¬ (u16 env.pv_current_ma > 15000 ∧ u16 env.pv_voltage_mv < 5000)) :
    MPPT_checked_pwm env f p = HAL_PWM_EnableDrivers true false p := by
  unfold MPPT_checked_pwm MPPT_checked_undervoltage_pwm
  simp only [BATTERY_ABSORB_MV, BATTERY_LOW_MV]
  rw [if_neg (by omega), if_neg hsc, if_pos ⟨h2, h1⟩]

theorem MPPT_state_machine_drivers (env : MPPT_Env) (t : Nat) (d : MPPT_Ctx) :
    ((d.mppt_status.state = MPPT_STATE_BULK ∨ d.mppt_status.state = MPPT_STATE_ABSORB ∨
        d.mppt_status.state = MPPT_STATE_FLOAT ∨ d.mppt_status.state = MPPT_STATE_NIGHT) →
      (MPPT_state_machine env t d).pwm.panel_en = d.pwm.panel_en ∧
      (MPPT_state_machine env t d).pwm.load_en = d.pwm.load_en) ∧
    ((d.mppt_status.state = MPPT_STATE_IDLE ∨ d.mppt_status.state = MPPT_STATE_FAULT) →
      (MPPT_state_machine env t d).pwm.panel_en = false ∧
      (MPPT_state_machine env t d).pwm.load_en = false) := by
  cases hs : d.mppt_status.state
  · rw [MPPT_state_machine_idle env t d hs, MPPT_case_idle_eq]
    exact ⟨fun h => by simp at h, fun _ => ⟨rfl, rfl⟩⟩
  · exact ⟨fun h => by simp at h, fun h => by simp at h⟩
  · rw [MPPT_state_machine_bulk env t d hs, MPPT_case_bulk_eq]
    exact ⟨fun _ => ⟨rfl, rfl⟩, fun h => by simp at h⟩
  · rw [MPPT_state_machine_absorb env t d hs, MPPT_case_absorb_eq]
    exact ⟨fun _ => ⟨rfl, rfl⟩, fun h => by simp at h⟩
  · rw [MPPT_state_machine_float env t d hs, MPPT_case_float_eq]
    exact ⟨fun _ => ⟨rfl, rfl⟩, fun h => by simp at h⟩
  · rw [MPPT_state_machine_fault env t d hs]
    exact ⟨fun h => by simp at h, fun _ => ⟨rfl, rfl⟩⟩
  · rw [MPPT_state_machine_night env t d hs, MPPT_case_night_eq]
    exact ⟨fun _ => HAL_PWM_Stop_drivers _, fun h => by simp at h⟩

/-- C31 (as amended): in an executed step without PV short circuit whose battery
voltage reading is above 10000 mV (battery connected) and below 21000 mV, the
fault code becomes Undervoltage and a prior state other than Fault does not
become Fault; when the prior state is Bulk, Absorb, Float or Night the step ends
with the load-side driver disabled and the panel-side driver enabled, and when it
is Idle or Fault the step ends with both drivers disabled. With a reading of at
most 10000 mV (battery not connected) the fault code is left as it was. -/
theorem C31_undervoltage (env : MPPT_Env) (c : MPPT_Ctx)
    (hexec : MPPT_interval_pending env c = false)
    (hsc : ¬ (u16 env.pv_current_ma > 15000 ∧ u16 env.pv_voltage_mv < 5000)) :
    (10000 < u16 env.battery_voltage_mv → u16 env.battery_voltage_mv < 21000 →
      (MPPT_Process env c).mppt_status.fault = MPPT_FAULT_UNDERVOLTAGE ∧
      (c.mppt_status.state ≠ MPPT_STATE_FAULT →
        (MPPT_Process env c).mppt_status.state ≠ MPPT_STATE_FAULT) ∧
      ((c.mppt_status.state = MPPT_STATE_BULK ∨ c.mppt_status.state = MPPT_STATE_ABSORB ∨
          c.mppt_status.state = MPPT_STATE_FLOAT ∨ c.mppt_status.state = MPPT_STATE_NIGHT) →
        (MPPT_Process env c).pwm.panel_en = true ∧
        (MPPT_Process env c).pwm.load_en = false) ∧
      ((c.mppt_status.state = MPPT_STATE_IDLE ∨ c.mppt_status.state = MPPT_STATE_FAULT) →
        (MPPT_Process env c).pwm.panel_en = false ∧
        (MPPT_Process env c).pwm.load_en = false)) ∧
    (u16 env.battery_voltage_mv ≤ 10000 →
      (MPPT_Process env c).mppt_status.fault = c.mppt_status.fault) := by
  have hfault := MPPT_Process_fault_code env c hexec
  refine ⟨?_, ?_⟩
  · intro h1 h2
    have hov : u16 env.battery_voltage_mv ≤ 29300 := by omega
    have hst : (MPPT_before_switch env c).mppt_status.state = c.mppt_status.state := by
      rw [MPPT_before_switch_state, MPPT_checked_state_ok env _ hov hsc]
    have hpwm : (MPPT_before_switch env c).pwm = HAL_PWM_EnableDrivers true false c.pwm := by
      rw [(MPPT_before_switch_fields env c).2.2.2.2.2.2.2.2.2.2.2.2.2.2]
      exact MPPT_checked_pwm_undervoltage env _ _ h1 h2 hsc
    obtain ⟨hd1, hd2⟩ := MPPT_state_machine_drivers env (u32 env.system_millis)
      (MPPT_before_switch env c)
    rw [hst] at hd1 hd2
    rw [hpwm] at hd1
    refine ⟨?_, ?_, ?_, ?_⟩
    · rw [hfault]
      unfold MPPT_checked_fault
      simp only [BATTERY_ABSORB_MV, BATTERY_LOW_MV]
      rw [if_neg (by omega), if_neg hsc, if_pos ⟨h2, h1⟩]
    · intro hnf
      rcases MPPT_Process_not_forced_fault env c hexec hov hsc with h | h
      · exact h
      · exact absurd h hnf
    · intro hs
      rw [MPPT_Process_exec env c hexec]
      exact hd1 hs
    · intro hs
      rw [MPPT_Process_exec env c hexec]
      exact hd2 hs
  · intro h1
    rw [hfault]
    unfold MPPT_checked_fault
    simp only [BATTERY_ABSORB_MV, BATTERY_LOW_MV, BATTERY_RECONNECT_MV]
    rw [if_neg (by omega), if_neg hsc, if_neg (by omega), if_neg (by omega)]

/-- C31 witness: in Bulk, a step with battery voltage reading 20000 mV sets the
Undervoltage code. -/
theorem C31_undervoltage_witness :
    (MPPT_Process ⟨1300, 1300, 30000, 1000, 20000, 1000⟩
      (MPPT_run 0 HAL_PWM_boot [.EnableCharging,
        .Process ⟨100, 100, 30000, 1000, 24000, 1000⟩,
        .Process ⟨1200, 1200, 30000, 1000, 24000, 1000⟩])).mppt_status.fault
      = MPPT_FAULT_UNDERVOLTAGE :=
  ((C31_undervoltage ⟨1300, 1300, 30000, 1000, 20000, 1000⟩
    (MPPT_run 0 HAL_PWM_boot [.EnableCharging,
        .Process ⟨100, 100, 30000, 1000, 24000, 1000⟩,
        .Process ⟨1200, 1200, 30000, 1000, 24000, 1000⟩])
    (by decide) (by decide)).1 (by decide) (by decide)).1

/-- C31 counterexample: right after `MPPT_Init` (state Idle) the step at tick 100
reads a battery voltage of 20000 mV, connected and below 21000 mV, with no PV
short circuit; it executes and sets the Undervoltage code, but the panel-side
driver ends disabled, not enabled. -/
theorem C31_counterexample :
    MPPT_interval_pending ⟨100, 100, 30000, 1000, 20000, 1000⟩
      (MPPT_run 0 HAL_PWM_boot []) = false ∧
    (MPPT_Process ⟨100, 100, 30000, 1000, 20000, 1000⟩
      (MPPT_run 0 HAL_PWM_boot [])).mppt_status.fault = MPPT_FAULT_UNDERVOLTAGE ∧
    (MPPT_Process ⟨100, 100, 30000, 1000, 20000, 1000⟩
      (MPPT_run 0 HAL_PWM_boot [])).pwm.panel_en = false := by
  decide

/-- C32: absent a PV short circuit, an Undervoltage fault code persists through
every executed step whose battery voltage reading is between 21000 and 24000 mV
inclusive and is cleared to None in an executed step with a reading above 24000
and at most 29300 mV; a fault code other than Undervoltage (and other than None)
is never cleared to None by an executed step. -/
theorem C32_undervoltage_recovery (env : MPPT_Env) (c : MPPT_Ctx)
    (hexec : MPPT_interval_pending env c = false)
    (hsc : ¬ (u16 env.pv_current_ma > 15000 ∧ u16 env.pv_voltage_mv < 5000)) :
    (c.mppt_status.fault = MPPT_FAULT_UNDERVOLTAGE →
      21000 ≤ u16 env.battery_voltage_mv → u16 env.battery_voltage_mv ≤ 24000 →
      (MPPT_Process env c).mppt_status.fault = MPPT_FAULT_UNDERVOLTAGE) ∧
    (c.mppt_status.fault = MPPT_FAULT_UNDERVOLTAGE →
      24000 < u16 env.battery_voltage_mv → u16 env.battery_voltage_mv ≤ 29300 →
      (MPPT_Process env c).mppt_status.fault = MPPT_FAULT_NONE) ∧
    (c.mppt_status.fault ≠ MPPT_FAULT_UNDERVOLTAGE →
      c.mppt_status.fault ≠ MPPT_FAULT_NONE →
      (MPPT_Process env c).mppt_status.fault ≠ MPPT_FAULT_NONE) := by
  rw [MPPT_Process_fault_code env c hexec]
  unfold MPPT_checked_fault
  simp only [BATTERY_ABSORB_MV, BATTERY_LOW_MV, BATTERY_RECONNECT_MV]
  refine ⟨?_, ?_, ?_⟩
  · intro hf h1 h2
    rw [if_neg (by omega), if_neg hsc, if_neg (by omega), if_neg (by omega)]
    exact hf
  · intro hf h1 h2
    rw [if_neg (by omega), if_neg hsc, if_neg (by omega), if_pos ⟨h1, hf⟩]
  · intro hf hn
    split_ifs with h1 h2 h3
    · simp
    · simp
    · exact absurd h3.2 hf
    · exact hn

/-- C32 witness: an Undervoltage code set at 20000 mV is still there after a step
at 24000 mV. -/
theorem C32_undervoltage_recovery_witness :
    (MPPT_Process ⟨200, 200, 30000, 1000, 24000, 1000⟩
      (MPPT_run 0 HAL_PWM_boot
        [.Process ⟨100, 100, 30000, 1000, 20000, 1000⟩])).mppt_status.fault
      = MPPT_FAULT_UNDERVOLTAGE :=
  (C32_undervoltage_recovery ⟨200, 200, 30000, 1000, 24000, 1000⟩
    (MPPT_run 0 HAL_PWM_boot [.Process ⟨100, 100, 30000, 1000, 20000, 1000⟩])
    (by decide) (by decide)).1 (by decide) (by decide) (by decide)

/-- C34: for every state reachable from `MPPT_Init` by public operations, the
charge state being Bulk, Absorb or Float implies 2 <= `duty_ticks` <= 36; and
right after an executed step from such a state that ends in Idle, Startup, Night
or Fault, `duty_ticks` = 0. -/
theorem C34_state_indexed_duty (c : MPPT_Ctx) (hr : MPPT_Reachable c) :
    ((c.mppt_status.state = MPPT_STATE_BULK ∨ c.mppt_status.state = MPPT_STATE_ABSORB ∨
        c.mppt_status.state = MPPT_STATE_FLOAT) →
      2 ≤ c.mppt_status.duty_ticks ∧ c.mppt_status.duty_ticks ≤ 36) ∧
    (∀ env : MPPT_Env, MPPT_interval_pending env c = false →
      ((MPPT_Process env c).mppt_status.state = MPPT_STATE_IDLE ∨
        (MPPT_Process env c).mppt_status.state = MPPT_STATE_STARTUP ∨
        (MPPT_Process env c).mppt_status.state = MPPT_STATE_NIGHT ∨
        (MPPT_Process env c).mppt_status.state = MPPT_STATE_FAULT) →
      (MPPT_Process env c).mppt_status.duty_ticks = 0) := by
  refine ⟨(MPPT_Inv_of_Reachable c hr).1, ?_⟩
  intro env hexec h
  have hinv := MPPT_Inv_Process env c (MPPT_Inv_of_Reachable c hr)
  have hz := MPPT_zero_duty_states env (u32 env.system_millis) (MPPT_before_switch env c)
  rcases h with h | h | h | h
  · rw [MPPT_Process_exec env c hexec] at h ⊢
    exact hz (Or.inl h)
  · exact hinv.2.1 h
  · rw [MPPT_Process_exec env c hexec] at h ⊢
    exact hz (Or.inr (Or.inl h))
  · rw [MPPT_Process_exec env c hexec] at h ⊢
    exact hz (Or.inr (Or.inr h))

/-- C34 witness: the Bulk state reached 1.2 s after start-up has a duty within
2..36. -/
theorem C34_state_indexed_duty_witness :
    2 ≤ (MPPT_run 0 HAL_PWM_boot [.EnableCharging,
        .Process ⟨100, 100, 30000, 1000, 24000, 1000⟩,
        .Process ⟨1200, 1200, 30000, 1000, 24000, 1000⟩]).mppt_status.duty_ticks ∧
    (MPPT_run 0 HAL_PWM_boot [.EnableCharging,
        .Process ⟨100, 100, 30000, 1000, 24000, 1000⟩,
        .Process ⟨1200, 1200, 30000, 1000, 24000, 1000⟩]).mppt_status.duty_ticks ≤ 36 :=
  (C34_state_indexed_duty (MPPT_run 0 HAL_PWM_boot [.EnableCharging,
        .Process ⟨100, 100, 30000, 1000, 24000, 1000⟩,
        .Process ⟨1200, 1200, 30000, 1000, 24000, 1000⟩])
    ⟨0, HAL_PWM_boot, _, rfl⟩).1 (Or.inl (by decide))

theorem MPPT_Process_band (env : MPPT_Env) (c : MPPT_Ctx)
    (hexec : MPPT_interval_pending env c = false)
    (hen : c.mppt_status.charging_enabled = true)
    (h1 : u16 env.battery_voltage_mv + 1000 < u16 env.pv_voltage_mv)
    (h2 : u16 env.pv_voltage_mv < 25000)
    (hsc : ¬ (u16 env.pv_current_ma > 15000 ∧ u16 env.pv_voltage_mv < 5000)) :
    (c.mppt_status.state = MPPT_STATE_NIGHT →
      (MPPT_Process env c).mppt_status.state = MPPT_STATE_IDLE) ∧
    (c.mppt_status.state = MPPT_STATE_IDLE →
      (MPPT_Process env c).mppt_status.state = MPPT_STATE_NIGHT) ∧
    (MPPT_Process env c).mppt_status.charging_enabled = true := by
  have hov : u16 env.battery_voltage_mv ≤ 29300 := by omega
  have hw : u16 (u16 env.battery_voltage_mv + 1000) = u16 env.battery_voltage_mv + 1000 := by
    generalize u16 env.battery_voltage_mv = b at *
    unfold u16; omega
  refine ⟨?_, ?_, ?_⟩
  · intro hs
    rw [MPPT_Process_night env c hexec hs hov hsc, MPPT_case_night_eq, MPPT_before_switch_eq]
    simp only [MPPT_energy_update, PANEL_START_DELTA_MV, hw]
    rw [if_pos h1]
  · intro hs
    rw [MPPT_Process_idle env c hexec hs hov hsc, MPPT_case_idle_eq, MPPT_before_switch_eq]
    simp only [MPPT_energy_update, PANEL_MIN_MV, hen]
    rw [if_neg (by simp), if_pos h2]
  · rw [MPPT_Process_exec env c hexec]
    unfold MPPT_energy_update
    show (MPPT_state_machine env _ (MPPT_before_switch env c)).mppt_status.charging_enabled = _
    rw [(MPPT_state_machine_frame env _ _).2.2.2,
      (MPPT_before_switch_fields env c).2.2.2.2.2.2.2.1]
    exact hen

/-- C39: with charging enabled and readings in the band battery voltage + 1000 <
PV voltage < 25000 mV and no PV short circuit, an executed step in Night ends in
Idle and an executed step in Idle ends in Night; hence over two consecutive
executed steps with readings in the band the controller goes Night, Idle, Night
(or Idle, Night, Idle) and is never in Startup. -/
theorem C39_night_idle_alternation (env env2 : MPPT_Env) (c : MPPT_Ctx)
    (hen : c.mppt_status.charging_enabled = true)
    (hexec : MPPT_interval_pending env c = false)
    (h1 : u16 env.battery_voltage_mv + 1000 < u16 env.pv_voltage_mv)
    (h2 : u16 env.pv_voltage_mv < 25000)
    (hsc : ¬ (u16 env.pv_current_ma > 15000 ∧ u16 env.pv_voltage_mv < 5000))
    (hexec2 : MPPT_interval_pending env2 (MPPT_Process env c) = false)
    (h12 : u16 env2.battery_voltage_mv + 1000 < u16 env2.pv_voltage_mv)
    (h22 : u16 env2.pv_voltage_mv < 25000)
    (hsc2 : ¬ (u16 env2.pv_current_ma > 15000 ∧ u16 env2.pv_voltage_mv < 5000)) :
    (c.mppt_status.state = MPPT_STATE_NIGHT →
      (MPPT_Process env c).mppt_status.state = MPPT_STATE_IDLE ∧
      (MPPT_Process env2 (MPPT_Process env c)).mppt_status.state = MPPT_STATE_NIGHT) ∧
    (c.mppt_status.state = MPPT_STATE_IDLE →
      (MPPT_Process env c).mppt_status.state = MPPT_STATE_NIGHT ∧
      (MPPT_Process env2 (MPPT_Process env c)).mppt_status.state = MPPT_STATE_IDLE) ∧
    ((c.mppt_status.state = MPPT_STATE_NIGHT ∨ c.mppt_status.state = MPPT_STATE_IDLE) →
      (MPPT_Process env c).mppt_status.state ≠ MPPT_STATE_STARTUP ∧
      (MPPT_Process env2 (MPPT_Process env c)).mppt_status.state ≠ MPPT_STATE_STARTUP) := by
  obtain ⟨a1, a2, a3⟩ := MPPT_Process_band env c hexec hen h1 h2 hsc
  obtain ⟨b1, b2, -⟩ := MPPT_Process_band env2 (MPPT_Process env c) hexec2 a3 h12 h22 hsc2
  refine ⟨fun hs => ⟨a1 hs, b2 (a1 hs)⟩, fun hs => ⟨a2 hs, b1 (a2 hs)⟩, ?_⟩
  intro hs
  rcases hs with hs | hs
  · rw [a1 hs, b2 (a1 hs)]; simp
  · rw [a2 hs, b1 (a2 hs)]; simp

/-- C39 witness: with PV at 24000 mV and the battery at 22000 mV, the enabled
controller goes from Idle to Night at tick 100 and back to Idle at tick 200. -/
theorem C39_night_idle_alternation_witness :
    (MPPT_Process ⟨100, 100, 24000, 1000, 22000, 1000⟩
      (MPPT_run 0 HAL_PWM_boot [.EnableCharging])).mppt_status.state = MPPT_STATE_NIGHT ∧
    (MPPT_Process ⟨200, 200, 24000, 1000, 22000, 1000⟩
      (MPPT_Process ⟨100, 100, 24000, 1000, 22000, 1000⟩
        (MPPT_run 0 HAL_PWM_boot [.EnableCharging]))).mppt_status.state = MPPT_STATE_IDLE :=
  (C39_night_idle_alternation ⟨100, 100, 24000, 1000, 22000, 1000⟩
    ⟨200, 200, 24000, 1000, 22000, 1000⟩ (MPPT_run 0 HAL_PWM_boot [.EnableCharging])
    (by decide) (by decide) (by decide) (by decide) (by decide) (by decide) (by decide)
    (by decide) (by decide)).2.1 (by decide)

/-! ## Lemmas on the ADC conversions -/

theorem u16_of_lt (x : Nat) (h : x < 65536) : u16 x = x := by
  unfold u16; omega

theorem u32_of_lt (x : Nat) (h : x < 4294967296) : u32 x = x := by
  unfold u32; omega

theorem Calculate_Current_eq (raw_val : Nat) (h : raw_val ≤ 4095) :
    Calculate_Current raw_val CURRENT_FACTOR_X10 = raw_val * 2500 / 4096 := by
  unfold Calculate_Current
  simp only [ADC_VREF_MV, ADC_RESOLUTION, CURRENT_FACTOR_X10]
  rw [u16_of_lt raw_val (by omega), u32_of_lt (raw_val * 2500) (by omega),
    u32_of_lt 10 (by omega), u32_of_lt (raw_val * 2500 / 4096 * 10) (by omega),
    u16_of_lt _ (by omega)]
  omega

theorem Calculate_Current_le (raw_val : Nat) (h : raw_val ≤ 4095) :
    Calculate_Current raw_val CURRENT_FACTOR_X10 ≤ 2499 := by
  rw [Calculate_Current_eq raw_val h]; omega

theorem Calculate_Voltage_le (raw_val : Nat) (h : raw_val ≤ 4095) :
    Calculate_Voltage raw_val VOLTAGE_RATIO_X10 ≤ 46988 ∧
    u16 raw_val * ADC_VREF_MV * VOLTAGE_RATIO_X10 < 4294967296 ∧
    Calculate_Voltage raw_val VOLTAGE_RATIO_X10 = raw_val * 2500 * 188 / 4096 / 10 := by
  unfold Calculate_Voltage
  simp only [ADC_VREF_MV, ADC_RESOLUTION, VOLTAGE_RATIO_X10]
  rw [u16_of_lt raw_val (by omega), u32_of_lt (raw_val * 2500) (by omega),
    u32_of_lt 188 (by omega), u32_of_lt (raw_val * 2500 * 188) (by omega),
    u16_of_lt _ (by omega)]
  omega

theorem HAL_ADC_result_le (a : HAL_ADC) (h : ∀ x ∈ a.adc_results, x ≤ 4095) (i : Nat) :
    HAL_ADC_result a i ≤ 4095 := by
  unfold HAL_ADC_result
  have hx : a.adc_results.getD i 0 ≤ 4095 := by
    rw [List.getD_eq_getElem?_getD]
    cases hi : a.adc_results[i]? with
    | none => simp
    | some v =>
        simp only [Option.getD_some]
        exact h v (List.getElem?_mem hi)
  unfold u16; omega

/-- C37: for every raw 12-bit sample, `Calculate_Current(raw, 10)` is at most 2499
mA and `Calculate_Voltage(raw, 188)` is at most 46988 mV, its intermediate
product staying below 2^32; hence, with readings produced by these conversions
from 12-bit results, the PV short-circuit condition is never satisfied, and every
executed step in Absorb leaves Absorb (to Float, or to Fault on overvoltage). -/
theorem C37_adc_bounds (a : HAL_ADC) (c : MPPT_Ctx) (t t2 : Nat) (raw : Nat)
    (h12 : ∀ x ∈ a.adc_results, x ≤ 4095) (hraw : raw ≤ 4095) :
    Calculate_Current raw CURRENT_FACTOR_X10 ≤ 2499 ∧
    Calculate_Voltage raw VOLTAGE_RATIO_X10 ≤ 46988 ∧
    u16 raw * ADC_VREF_MV * VOLTAGE_RATIO_X10 < 4294967296 ∧
    ¬ (u16 (MPPT_Env_of_ADC t t2 a).pv_current_ma > 15000 ∧
        u16 (MPPT_Env_of_ADC t t2 a).pv_voltage_mv < 5000) ∧
    u16 (MPPT_Env_of_ADC t t2 a).battery_current_ma < 5000 ∧
    (c.mppt_status.state = MPPT_STATE_ABSORB →
      MPPT_interval_pending (MPPT_Env_of_ADC t t2 a) c = false →
      (MPPT_Process (MPPT_Env_of_ADC t t2 a) c).mppt_status.state = MPPT_STATE_FLOAT ∨
      (MPPT_Process (MPPT_Env_of_ADC t t2 a) c).mppt_status.state = MPPT_STATE_FAULT) := by
  have hpi : u16 (MPPT_Env_of_ADC t t2 a).pv_current_ma ≤ 2499 := by
    have := Calculate_Current_le (HAL_ADC_result a 2) (HAL_ADC_result_le a h12 2)
    show u16 (Calculate_Current (HAL_ADC_result a 2) CURRENT_FACTOR_X10) ≤ 2499
    unfold u16; omega
  have hbi : u16 (MPPT_Env_of_ADC t t2 a).battery_current_ma ≤ 2499 := by
    have := Calculate_Current_le (HAL_ADC_result a 3) (HAL_ADC_result_le a h12 3)
    show u16 (Calculate_Current (HAL_ADC_result a 3) CURRENT_FACTOR_X10) ≤ 2499
    unfold u16; omega
  have hsc : ¬ (u16 (MPPT_Env_of_ADC t t2 a).pv_current_ma > 15000 ∧
      u16 (MPPT_Env_of_ADC t t2 a).pv_voltage_mv < 5000) := by
    intro h; omega
  obtain ⟨hv1, hv2, -⟩ := Calculate_Voltage_le raw hraw
  refine ⟨Calculate_Current_le raw hraw, hv1, hv2, hsc, by omega, ?_⟩
  intro hs hexec
  by_cases hov : u16 (MPPT_Env_of_ADC t t2 a).battery_voltage_mv ≤ 29300
  · left
    rw [MPPT_Process_absorb _ c hexec hs hov hsc, MPPT_case_absorb_eq, MPPT_before_switch_eq]
    simp only [MPPT_energy_update]
    rw [if_pos (by omega)]
  · right
    exact (MPPT_Process_fault_fields _ c hexec (Or.inr (Or.inl (by omega)))).1

/-- C37 witness: full-scale samples on all five channels in Absorb: the step
leaves Absorb. -/
theorem C37_adc_bounds_witness :
    (MPPT_Process (MPPT_Env_of_ADC 1400 1400 ⟨[4095, 2500, 4095, 4095, 4095]⟩)
      (MPPT_run 0 HAL_PWM_boot [.EnableCharging,
        .Process ⟨100, 100, 30000, 1000, 24000, 1000⟩,
        .Process ⟨1200, 1200, 30000, 1000, 24000, 1000⟩,
        .Process ⟨1300, 1300, 30000, 1000, 28800, 1000⟩])).mppt_status.state
        = MPPT_STATE_FLOAT ∨
    (MPPT_Process (MPPT_Env_of_ADC 1400 1400 ⟨[4095, 2500, 4095, 4095, 4095]⟩)
      (MPPT_run 0 HAL_PWM_boot [.EnableCharging,
        .Process ⟨100, 100, 30000, 1000, 24000, 1000⟩,
        .Process ⟨1200, 1200, 30000, 1000, 24000, 1000⟩,
        .Process ⟨1300, 1300, 30000, 1000, 28800, 1000⟩])).mppt_status.state
        = MPPT_STATE_FAULT :=
  (C37_adc_bounds ⟨[4095, 2500, 4095, 4095, 4095]⟩
    (MPPT_run 0 HAL_PWM_boot [.EnableCharging,
        .Process ⟨100, 100, 30000, 1000, 24000, 1000⟩,
        .Process ⟨1200, 1200, 30000, 1000, 24000, 1000⟩,
        .Process ⟨1300, 1300, 30000, 1000, 28800, 1000⟩]) 1400 1400 4095
    (by decide) (by decide)).2.2.2.2.2 (by decide) (by decide)

/-! ## Lemmas on the motor driver -/

theorem HAL_Motor_Move_opening (sp : Nat) (m : HAL_Motor) :
    HAL_Motor_Move .MOTOR_OPENING sp m =
      { m with logic_en := true, dir_pin := true, brake := false,
               pwm_compare := u16 (u32 (MOTOR_PWM_PERIOD *
                 (if u8 sp > 100 then 100 else u8 sp)) / 100) } := by
  unfold HAL_Motor_Move
  simp

theorem HAL_Motor_Move_closing (sp : Nat) (m : HAL_Motor) :
    HAL_Motor_Move .MOTOR_CLOSING sp m =
      { m with logic_en := true, dir_pin := false, brake := false,
               pwm_compare := u16 (u32 (MOTOR_PWM_PERIOD *
                 (if u8 sp > 100 then 100 else u8 sp)) / 100) } := by
  unfold HAL_Motor_Move
  simp

theorem HAL_Motor_Move_stop (sp : Nat) (m : HAL_Motor) :
    HAL_Motor_Move .MOTOR_STOP sp m = { m with logic_en := false, pwm_compare := 0 } := by
  unfold HAL_Motor_Move
  simp [u16, u32]

theorem HAL_Motor_Move_frame (dir : MotorDir_t) (sp : Nat) (m : HAL_Motor) :
    (HAL_Motor_Move dir sp m).main_power = m.main_power ∧
    (HAL_Motor_Move dir sp m).encoder_counter = m.encoder_counter := by
  cases dir
  · rw [HAL_Motor_Move_stop]; exact ⟨rfl, rfl⟩
  · rw [HAL_Motor_Move_opening]; exact ⟨rfl, rfl⟩
  · rw [HAL_Motor_Move_closing]; exact ⟨rfl, rfl⟩

theorem HAL_Motor_Brake_true (m : HAL_Motor) :
    HAL_Motor_Brake true m = { m with logic_en := false, pwm_compare := 0, brake := true } := by
  unfold HAL_Motor_Brake
  rw [HAL_Motor_Move_stop]
  rfl

theorem HAL_Motor_Init_eq (m : HAL_Motor) :
    HAL_Motor_Init m =
      { m with main_power := false, logic_en := false, pwm_compare := 0, brake := true } := by
  unfold HAL_Motor_Init
  rw [HAL_Motor_Brake_true, HAL_Motor_Move_stop]
  rfl

theorem Port1_ISR_iterate (n : Nat) (m : HAL_Motor) :
    (Port1_ISR^[n] m).main_power = m.main_power ∧
    (Port1_ISR^[n] m).logic_en = m.logic_en ∧
    (Port1_ISR^[n] m).dir_pin = m.dir_pin ∧
    (Port1_ISR^[n] m).brake = m.brake ∧
    (Port1_ISR^[n] m).pwm_compare = m.pwm_compare := by
  induction n generalizing m with
  | zero => exact ⟨rfl, rfl, rfl, rfl, rfl⟩
  | succ k ih =>
      rw [Function.iterate_succ_apply]
      obtain ⟨h1, h2, h3, h4, h5⟩ := ih (Port1_ISR m)
      exact ⟨h1, h2, h3, h4, h5⟩

/-! ## Lemmas on single steps of the valve controller -/

theorem Valve_Process_fault_pin (env : Valve_Env) (v : Valve_Ctx) (m : HAL_Motor)
    (h : env.motor_fault = true) :
    Valve_Process env v m =
      ({ v with process_timer := u32 (v.process_timer + 50), state := VALVE_FAULT },
       HAL_Motor_SetMainPower false m) := by
  unfold Valve_Process
  rw [if_pos h]

theorem Valve_Process_switch (env : Valve_Env) (v : Valve_Ctx) (m : HAL_Motor)
    (h : env.motor_fault = false) :
    Valve_Process env v m =
      Valve_switch env ({ v with process_timer := u32 (v.process_timer + 50) }, m) := by
  unfold Valve_Process
  rw [if_neg (by simp [h])]

theorem Valve_switch_pre_opening (env : Valve_Env) (s : Valve_Ctx × HAL_Motor)
    (h : s.1.state = VALVE_PRE_OPENING) :
    Valve_switch env s = Valve_case_pre VALVE_OPENING s := by
  unfold Valve_switch; rw [h]

theorem Valve_switch_pre_closing (env : Valve_Env) (s : Valve_Ctx × HAL_Motor)
    (h : s.1.state = VALVE_PRE_CLOSING) :
    Valve_switch env s = Valve_case_pre VALVE_CLOSING s := by
  unfold Valve_switch; rw [h]

theorem Valve_switch_opening (env : Valve_Env) (s : Valve_Ctx × HAL_Motor)
    (h : s.1.state = VALVE_OPENING) :
    Valve_switch env s = Valve_case_moving .MOTOR_OPENING VALVE_IDLE_OPEN env s := by
  unfold Valve_switch; rw [h]

theorem Valve_switch_closing (env : Valve_Env) (s : Valve_Ctx × HAL_Motor)
    (h : s.1.state = VALVE_CLOSING) :
    Valve_switch env s = Valve_case_moving .MOTOR_CLOSING VALVE_IDLE_CLOSED env s := by
  unfold Valve_switch; rw [h]

theorem Valve_switch_other (env : Valve_Env) (s : Valve_Ctx × HAL_Motor)
    (h : s.1.state = VALVE_IDLE_CLOSED ∨ s.1.state = VALVE_IDLE_OPEN ∨
      s.1.state = VALVE_FAULT) :
    Valve_switch env s = s := by
  unfold Valve_switch
  rcases h with h | h | h <;> rw [h]

theorem check_stall_verdict (env : Valve_Env) (v : Valve_Ctx) (m : HAL_Motor) :
    (check_stall env v m).1 = true ↔
      (check_stall_current_ma env.load_current_raw > 1200 ∨
        (v.current_speed > 50 ∧ sub_u32 m.encoder_counter v.last_encoder_val < 5)) := by
  unfold check_stall
  simp only [VALVE_STALL_CURRENT_MA, VALVE_MIN_ENCODER_DIFF, HAL_Motor_GetEncoderCount]
  split_ifs with h1 h2
  · simp [h1]
  · simp [h1, h2]
  · simp [h1, h2]

theorem check_stall_state (env : Valve_Env) (v : Valve_Ctx) (m : HAL_Motor) :
    (check_stall env v m).2 =
      { v with last_encoder_val :=
          if ¬ check_stall_current_ma env.load_current_raw > 1200 ∧ v.current_speed > 50 then
            m.encoder_counter
          else v.last_encoder_val } := by
  unfold check_stall
  simp only [VALVE_STALL_CURRENT_MA, VALVE_MIN_ENCODER_DIFF, HAL_Motor_GetEncoderCount]
  split_ifs <;> first | rfl | (exfalso; simp_all)

theorem Valve_soft_start_eq (dir : MotorDir_t) (s : Valve_Ctx × HAL_Motor) :
    Valve_soft_start dir s =
      ({ s.1 with current_speed :=
            if s.1.current_speed < 100 then u8 (s.1.current_speed + 5)
            else s.1.current_speed },
       if s.1.current_speed < 100 then HAL_Motor_Move dir (u8 (s.1.current_speed + 5)) s.2
       else s.2) := by
  unfold Valve_soft_start
  split_ifs <;> rfl

theorem Valve_check_timeout_eq (s : Valve_Ctx × HAL_Motor) :
    Valve_check_timeout s =
      ({ s.1 with state := if s.1.process_timer > 15000 then VALVE_FAULT else s.1.state },
       if s.1.process_timer > 15000 then
         HAL_Motor_SetMainPower false (HAL_Motor_Move .MOTOR_STOP 0 s.2)
       else s.2) := by
  unfold Valve_check_timeout
  simp only [VALVE_TIMEOUT_MS]
  split_ifs <;> rfl

theorem Valve_check_stall_eq (done : ValveState_t) (env : Valve_Env)
    (s : Valve_Ctx × HAL_Motor) :
    Valve_check_stall done env s =
      ({ s.1 with
          state :=
            if s.1.process_timer > 500 ∧
                (check_stall_current_ma env.load_current_raw > 1200 ∨
                  (s.1.current_speed > 50 ∧
                    sub_u32 s.2.encoder_counter s.1.last_encoder_val < 5)) then done
            else s.1.state,
          last_encoder_val :=
            if s.1.process_timer > 500 ∧
                ¬ check_stall_current_ma env.load_current_raw > 1200 ∧
                s.1.current_speed > 50 then s.2.encoder_counter
            else s.1.last_encoder_val },
       if s.1.process_timer > 500 ∧
           (check_stall_current_ma env.load_current_raw > 1200 ∨
             (s.1.current_speed > 50 ∧
               sub_u32 s.2.encoder_counter s.1.last_encoder_val < 5)) then
         HAL_Motor_SetMainPower false (HAL_Motor_Brake true s.2)
       else s.2) := by
  unfold Valve_check_stall
  simp only [check_stall_verdict, check_stall_state]
  by_cases ht : s.1.process_timer > 500 <;>
  by_cases hc : check_stall_current_ma env.load_current_raw > 1200 <;>
  by_cases hs : s.1.current_speed > 50 <;>
  by_cases hd : sub_u32 s.2.encoder_counter s.1.last_encoder_val < 5 <;>
  simp [ht, hc, hs, hd]

theorem Valve_moving_encoder (dir : MotorDir_t) (s : Valve_Ctx × HAL_Motor) :
    (Valve_check_timeout (Valve_soft_start dir s)).2.encoder_counter = s.2.encoder_counter ∧
    (Valve_check_timeout (Valve_soft_start dir s)).1.last_encoder_val = s.1.last_encoder_val ∧
    (Valve_check_timeout (Valve_soft_start dir s)).1.process_timer = s.1.process_timer ∧
    (Valve_check_timeout (Valve_soft_start dir s)).1.current_speed =
      (if s.1.current_speed < 100 then u8 (s.1.current_speed + 5) else s.1.current_speed) ∧
    (Valve_check_timeout (Valve_soft_start dir s)).1.state =
      (if s.1.process_timer > 15000 then VALVE_FAULT else s.1.state) ∧
    (Valve_check_timeout (Valve_soft_start dir s)).2.main_power =
      (if s.1.process_timer > 15000 then false else s.2.main_power) ∧
    (s.1.process_timer > 15000 →
      (Valve_check_timeout (Valve_soft_start dir s)).2.logic_en = false ∧
      (Valve_check_timeout (Valve_soft_start dir s)).2.pwm_compare = 0) ∧
    (¬ s.1.process_timer > 15000 →
      (Valve_check_timeout (Valve_soft_start dir s)).2 =
        if s.1.current_speed < 100 then HAL_Motor_Move dir (u8 (s.1.current_speed + 5)) s.2
        else s.2) := by
  rw [Valve_check_timeout_eq, Valve_soft_start_eq]
  have hm := HAL_Motor_Move_frame dir (u8 (s.1.current_speed + 5)) s.2
  refine ⟨?_, rfl, rfl, rfl, rfl, ?_, ?_, ?_⟩
  · show (if _ then _ else _ : HAL_Motor).encoder_counter = _
    split_ifs <;> first | rfl | exact hm.2
  · show (if _ then _ else _ : HAL_Motor).main_power = _
    split_ifs <;> first | rfl | exact hm.1
  · intro h
    show (if _ then _ else _ : HAL_Motor).logic_en = false ∧
      (if _ then _ else _ : HAL_Motor).pwm_compare = 0
    rw [if_pos h, HAL_Motor_Move_stop]
    exact ⟨rfl, rfl⟩
  · intro h
    show (if _ then _ else _ : HAL_Motor) = _
    rw [if_neg h]

theorem Valve_case_moving_fields (dir : MotorDir_t) (done : ValveState_t) (env : Valve_Env)
    (s : Valve_Ctx × HAL_Motor) :
    (Valve_case_moving dir done env s).1.state =
      (if s.1.process_timer > 500 ∧
          (check_stall_current_ma env.load_current_raw > 1200 ∨
            ((if s.1.current_speed < 100 then u8 (s.1.current_speed + 5)
              else s.1.current_speed) > 50 ∧
              sub_u32 s.2.encoder_counter s.1.last_encoder_val < 5)) then done
       else if s.1.process_timer > 15000 then VALVE_FAULT else s.1.state) ∧
    (Valve_case_moving dir done env s).1.process_timer = s.1.process_timer ∧
    (Valve_case_moving dir done env s).1.current_speed =
      (if s.1.current_speed < 100 then u8 (s.1.current_speed + 5) else s.1.current_speed) ∧
    (Valve_case_moving dir done env s).1.last_encoder_val =
      (if s.1.process_timer > 500 ∧ ¬ check_stall_current_ma env.load_current_raw > 1200 ∧
          (if s.1.current_speed < 100 then u8 (s.1.current_speed + 5)
            else s.1.current_speed) > 50 then s.2.encoder_counter
       else s.1.last_encoder_val) ∧
    (Valve_case_moving dir done env s).2 =
      (if s.1.process_timer > 500 ∧
          (check_stall_current_ma env.load_current_raw > 1200 ∨
            ((if s.1.current_speed < 100 then u8 (s.1.current_speed + 5)
              else s.1.current_speed) > 50 ∧
              sub_u32 s.2.encoder_counter s.1.last_encoder_val < 5)) then
         HAL_Motor_SetMainPower false
           (HAL_Motor_Brake true (Valve_check_timeout (Valve_soft_start dir s)).2)
       else (Valve_check_timeout (Valve_soft_start dir s)).2) := by
  unfold Valve_case_moving
  rw [Valve_check_stall_eq]
  obtain ⟨h1, h2, h3, h4, h5, -, -, -⟩ := Valve_moving_encoder dir s
  simp only [h1, h2, h3, h4, h5]
  refine ⟨?_, ?_, ?_, ?_, ?_⟩ <;> trivial

/-! ## The invariant of the valve controller -/

theorem Valve_Inv_case_pre (next : ValveState_t) (s : Valve_Ctx × HAL_Motor)
    (hs : s.1.state = VALVE_PRE_OPENING ∨ s.1.state = VALVE_PRE_CLOSING)
    (hn : next = VALVE_OPENING ∨ next = VALVE_CLOSING) :
    Valve_Inv (Valve_case_pre next s) := by
  unfold Valve_case_pre Valve_Inv
  split_ifs with h
  · refine ⟨by simp, by simp, fun _ => ⟨rfl, by simp, by simp, by simp, fun _ => rfl⟩, ?_⟩
    intro hi
    rcases hn with hn | hn <;> rcases hi with hi | hi <;> simp_all
  · refine ⟨by simp, by simp, ?_, ?_⟩
    · intro hi; rcases hs with hs | hs <;> rcases hi with hi | hi <;> simp_all
    · intro hi; rcases hs with hs | hs <;> rcases hi with hi | hi <;> simp_all

theorem ValveState_cases (x : ValveState_t) :
    x = VALVE_IDLE_CLOSED ∨ x = VALVE_IDLE_OPEN ∨ x = VALVE_PRE_OPENING ∨ x = VALVE_OPENING ∨
    x = VALVE_PRE_CLOSING ∨ x = VALVE_CLOSING ∨ x = VALVE_FAULT := by
  cases x <;> simp

theorem Valve_Inv_case_moving (dir : MotorDir_t) (done : ValveState_t) (env : Valve_Env)
    (v : Valve_Ctx) (m : HAL_Motor) (h : Valve_Inv (v, m))
    (hs : v.state = VALVE_OPENING ∨ v.state = VALVE_CLOSING)
    (hd : done = VALVE_IDLE_OPEN ∨ done = VALVE_IDLE_CLOSED) :
    Valve_Inv (Valve_case_moving dir done env
      ({ v with process_timer := u32 (v.process_timer + 50) }, m)) := by
  obtain ⟨i1, i2, i3, -⟩ := h
  obtain ⟨j1, j2, j3, j4, j5⟩ := i3 hs
  simp only at i1 i2 j1 j2 j3 j4 j5
  have ht : u32 (v.process_timer + 50) = v.process_timer + 50 := by unfold u32; omega
  rw [ht]
  obtain ⟨g1, g2, g3, g4, g5⟩ := Valve_case_moving_fields dir done env
    ({ v with process_timer := v.process_timer + 50 }, m)
  obtain ⟨e1, -, -, -, -, e6, -, e8⟩ := Valve_moving_encoder dir
    ({ v with process_timer := v.process_timer + 50 }, m)
  simp only at g1 g2 g3 g4 g5 e1 e6 e8
  have h8 : u8 (v.current_speed + 5) = v.current_speed + 5 := by unfold u8; omega
  have hsp : (if v.current_speed < 100 then u8 (v.current_speed + 5) else v.current_speed) =
      min 100 (20 + (v.process_timer + 50) / 10) := by
    rw [h8]; split_ifs <;> omega
  rw [hsp] at g1 g3 g4 g5
  unfold Valve_Inv
  rw [g3, g2]
  refine ⟨by omega, by omega, ?_, ?_⟩
  · intro hmv
    rw [g1] at hmv
    split_ifs at hmv with c1 c2
    · rcases hd with hd | hd <;> rw [hd] at hmv <;> simp at hmv
    · simp at hmv
    · have c3 : ¬ v.process_timer + 50 > 15000 := c2
      refine ⟨?_, by omega, by omega, by omega, ?_⟩
      · rw [g5, if_neg c1, e6, if_neg c2]; exact j1
      · intro h500
        rw [g4, if_neg (by omega)]
        exact j5 (by omega)
  · intro hid
    rw [g1] at hid
    split_ifs at hid with c1 c2
    · rw [g5, if_pos c1, HAL_Motor_Brake_true]
      exact ⟨rfl, rfl⟩
    · simp at hid
    · rcases hs with hs | hs <;> rw [hs] at hid <;> simp at hid

theorem Valve_Inv_Process (env : Valve_Env) (v : Valve_Ctx) (m : HAL_Motor)
    (h : Valve_Inv (v, m)) : Valve_Inv (Valve_Process env v m) := by
  cases hf : env.motor_fault
  · rw [Valve_Process_switch env v m hf]
    rcases ValveState_cases v.state with hs | hs | hs | hs | hs | hs | hs
    · rw [Valve_switch_other env _ (Or.inl hs)]
      obtain ⟨i1, i2, i3, i4⟩ := h
      exact ⟨i1, i2, fun hm => by rcases hm with hm | hm <;> simp_all,
        fun _ => i4 (Or.inl hs)⟩
    · rw [Valve_switch_other env _ (Or.inr (Or.inl hs))]
      obtain ⟨i1, i2, i3, i4⟩ := h
      exact ⟨i1, i2, fun hm => by rcases hm with hm | hm <;> simp_all,
        fun _ => i4 (Or.inr hs)⟩
    · rw [Valve_switch_pre_opening env _ hs]
      exact Valve_Inv_case_pre _ _ (Or.inl hs) (Or.inl rfl)
    · rw [Valve_switch_opening env _ hs]
      exact Valve_Inv_case_moving _ _ env v m h (Or.inl hs) (Or.inl rfl)
    · rw [Valve_switch_pre_closing env _ hs]
      exact Valve_Inv_case_pre _ _ (Or.inr hs) (Or.inr rfl)
    · rw [Valve_switch_closing env _ hs]
      exact Valve_Inv_case_moving _ _ env v m h (Or.inr hs) (Or.inr rfl)
    · rw [Valve_switch_other env _ (Or.inr (Or.inr hs))]
      obtain ⟨i1, i2, i3, i4⟩ := h
      exact ⟨i1, i2, fun hm => by rcases hm with hm | hm <;> simp_all,
        fun hm => by rcases hm with hm | hm <;> simp_all⟩
  · rw [Valve_Process_fault_pin env v m hf]
    obtain ⟨i1, i2, -, -⟩ := h
    exact ⟨i1, i2, fun hm => by rcases hm with hm | hm <;> simp at hm,
      fun hm => by rcases hm with hm | hm <;> simp at hm⟩

theorem Valve_Inv_Init (v : Valve_Ctx) (m : HAL_Motor)
    (h1 : v.current_speed ≤ 100) (h2 : v.current_speed % 5 = 0) :
    Valve_Inv (Valve_Init v m) := by
  unfold Valve_Init
  rw [HAL_Motor_Init_eq]
  exact ⟨h1, h2, fun hm => by rcases hm with hm | hm <;> simp at hm, fun _ => ⟨rfl, rfl⟩⟩

theorem Valve_Inv_apply (s : Valve_Ctx × HAL_Motor) (op : Valve_Op) (h : Valve_Inv s) :
    Valve_Inv (Valve_apply s op) := by
  cases op with
  | Init => exact Valve_Inv_Init s.1 s.2 h.1 h.2.1
  | Open =>
      obtain ⟨i1, i2, i3, i4⟩ := h
      unfold Valve_apply Valve_Open
      split_ifs with hc
      · exact ⟨i1, i2, fun hm => by rcases hm with hm | hm <;> simp at hm,
          fun hm => by rcases hm with hm | hm <;> simp at hm⟩
      · exact ⟨i1, i2, i3, i4⟩
  | Close =>
      obtain ⟨i1, i2, i3, i4⟩ := h
      unfold Valve_apply Valve_Close
      split_ifs with hc
      · exact ⟨i1, i2, fun hm => by rcases hm with hm | hm <;> simp at hm,
          fun hm => by rcases hm with hm | hm <;> simp at hm⟩
      · exact ⟨i1, i2, i3, i4⟩
  | Process env => exact Valve_Inv_Process env s.1 s.2 h
  | Encoder =>
      obtain ⟨i1, i2, i3, i4⟩ := h
      exact ⟨i1, i2, i3, i4⟩

theorem Valve_Inv_foldl (ops : List Valve_Op) :
    ∀ s : Valve_Ctx × HAL_Motor, Valve_Inv s → Valve_Inv (ops.foldl Valve_apply s) := by
  induction ops with
  | nil => intro s h; exact h
  | cons op rest ih => intro s h; exact ih _ (Valve_Inv_apply s op h)

theorem Valve_Inv_of_Reachable (s : Valve_Ctx × HAL_Motor) (h : Valve_Reachable s) :
    Valve_Inv s := by
  obtain ⟨m0, ops, rfl⟩ := h
  exact Valve_Inv_foldl ops _ (Valve_Inv_Init Valve_boot m0 (by decide) (by decide))

theorem Valve_Reachable_apply (s : Valve_Ctx × HAL_Motor) (op : Valve_Op)
    (h : Valve_Reachable s) : Valve_Reachable (Valve_apply s op) := by
  obtain ⟨m0, ops, rfl⟩ := h
  exact ⟨m0, ops ++ [op], by simp [Valve_run, List.foldl_append]⟩

theorem Port1_ISR_iterate_counter (n : Nat) (m : HAL_Motor) (h : m.encoder_counter < 4294967296) :
    (Port1_ISR^[n] m).encoder_counter = (m.encoder_counter + n) % 4294967296 := by
  induction n generalizing m with
  | zero => simp; omega
  | succ k ih =>
      rw [Function.iterate_succ_apply]
      have h2 : (Port1_ISR m).encoder_counter < 4294967296 := by
        show u32 _ < _; unfold u32; omega
      rw [ih (Port1_ISR m) h2]
      show (u32 (m.encoder_counter + 1) + k) % 4294967296 = _
      unfold u32; omega

theorem Valve_stall_seen_iff (dir : MotorDir_t) (pulses : Nat) (env : Valve_Env)
    (s : Valve_Ctx × HAL_Motor) :
    Valve_stall_seen dir pulses env s = true ↔
      (check_stall_current_ma env.load_current_raw > 1200 ∨
        ((if s.1.current_speed < 100 then u8 (s.1.current_speed + 5)
          else s.1.current_speed) > 50 ∧
          sub_u32 (Port1_ISR^[pulses] s.2).encoder_counter s.1.last_encoder_val < 5)) := by
  unfold Valve_stall_seen
  rw [check_stall_verdict, Valve_soft_start_eq]
  have hm := HAL_Motor_Move_frame dir (u8 (s.1.current_speed + 5)) (Port1_ISR^[pulses] s.2)
  have he : (if s.1.current_speed < 100 then
        HAL_Motor_Move dir (u8 (s.1.current_speed + 5)) (Port1_ISR^[pulses] s.2)
      else Port1_ISR^[pulses] s.2).encoder_counter =
      (Port1_ISR^[pulses] s.2).encoder_counter := by
    split_ifs
    · exact hm.2
    · rfl
  simp only [he]

theorem Valve_period_pre (pulses : Nat) (env : Valve_Env) (s : Valve_Ctx × HAL_Motor)
    (next : ValveState_t) (hf : env.motor_fault = false)
    (hs : (s.1.state = VALVE_PRE_OPENING ∧ next = VALVE_OPENING) ∨
      (s.1.state = VALVE_PRE_CLOSING ∧ next = VALVE_CLOSING)) :
    (Valve_period pulses env s).1.state =
      (if u32 (s.1.process_timer + 50) > 100 then next else s.1.state) ∧
    (Valve_period pulses env s).1.process_timer =
      (if u32 (s.1.process_timer + 50) > 100 then 0 else u32 (s.1.process_timer + 50)) ∧
    (Valve_period pulses env s).1.current_speed = 20 ∧
    (Valve_period pulses env s).1.last_encoder_val = 0 ∧
    (Valve_period pulses env s).2.main_power = true ∧
    (Valve_period pulses env s).2.encoder_counter = 0 := by
  unfold Valve_period
  rw [Valve_Process_switch env _ _ hf]
  rcases hs with ⟨hs, hn⟩ | ⟨hs, hn⟩
  · have hs2 : (({ s.1 with process_timer := u32 (s.1.process_timer + 50) } : Valve_Ctx),
        Port1_ISR^[pulses] s.2).1.state = VALVE_PRE_OPENING := hs
    rw [Valve_switch_pre_opening env _ hs2, hn]
    unfold Valve_case_pre
    split_ifs <;> exact ⟨rfl, rfl, rfl, rfl, rfl, rfl⟩
  · have hs2 : (({ s.1 with process_timer := u32 (s.1.process_timer + 50) } : Valve_Ctx),
        Port1_ISR^[pulses] s.2).1.state = VALVE_PRE_CLOSING := hs
    rw [Valve_switch_pre_closing env _ hs2, hn]
    unfold Valve_case_pre
    split_ifs <;> exact ⟨rfl, rfl, rfl, rfl, rfl, rfl⟩

theorem Valve_period_moving (pulses : Nat) (env : Valve_Env) (s : Valve_Ctx × HAL_Motor)
    (dir : MotorDir_t) (done : ValveState_t) (hf : env.motor_fault = false)
    (hs : (s.1.state = VALVE_OPENING ∧ dir = .MOTOR_OPENING ∧ done = VALVE_IDLE_OPEN) ∨
      (s.1.state = VALVE_CLOSING ∧ dir = .MOTOR_CLOSING ∧ done = VALVE_IDLE_CLOSED)) :
    Valve_period pulses env s =
      Valve_case_moving dir done env
        ({ s.1 with process_timer := u32 (s.1.process_timer + 50) }, Port1_ISR^[pulses] s.2) := by
  unfold Valve_period
  rw [Valve_Process_switch env _ _ hf]
  rcases hs with ⟨hs, hd, hn⟩ | ⟨hs, hd, hn⟩
  · have hs2 : (({ s.1 with process_timer := u32 (s.1.process_timer + 50) } : Valve_Ctx),
        Port1_ISR^[pulses] s.2).1.state = VALVE_OPENING := hs
    rw [Valve_switch_opening env _ hs2, hd, hn]
  · have hs2 : (({ s.1 with process_timer := u32 (s.1.process_timer + 50) } : Valve_Ctx),
        Port1_ISR^[pulses] s.2).1.state = VALVE_CLOSING := hs
    rw [Valve_switch_closing env _ hs2, hd, hn]

theorem Valve_period_fault_pin (pulses : Nat) (env : Valve_Env) (s : Valve_Ctx × HAL_Motor)
    (hf : env.motor_fault = true) : (Valve_period pulses env s).1.state = VALVE_FAULT := by
  unfold Valve_period
  rw [Valve_Process_fault_pin env _ _ hf]

theorem Valve_accept (v : Valve_Ctx)
    (h : v.state = VALVE_IDLE_CLOSED ∨ v.state = VALVE_IDLE_OPEN) :
    ((Valve_Open v).state = VALVE_PRE_OPENING ∧ (Valve_Open v).process_timer = 0) ∧
    ((Valve_Close v).state = VALVE_PRE_CLOSING ∧ (Valve_Close v).process_timer = 0) := by
  unfold Valve_Open Valve_Close
  rw [if_pos h, if_pos h]
  exact ⟨⟨rfl, rfl⟩, ⟨rfl, rfl⟩⟩

/-- C18: `Valve_Open` (`Valve_Close`) called in IdleClosed or IdleOpen sets the
state to PreOpening (PreClosing) and the phase timer to 0 and changes nothing
else; called in any other state it changes nothing. -/
theorem C18_open_close (v : Valve_Ctx) :
    ((v.state = VALVE_IDLE_CLOSED ∨ v.state = VALVE_IDLE_OPEN) →
      Valve_Open v = { v with state := VALVE_PRE_OPENING, process_timer := 0 } ∧
      Valve_Close v = { v with state := VALVE_PRE_CLOSING, process_timer := 0 }) ∧
    (¬ (v.state = VALVE_IDLE_CLOSED ∨ v.state = VALVE_IDLE_OPEN) →
      Valve_Open v = v ∧ Valve_Close v = v) := by
  unfold Valve_Open Valve_Close
  refine ⟨fun h => ?_, fun h => ?_⟩
  · rw [if_pos h, if_pos h]; exact ⟨rfl, rfl⟩
  · rw [if_neg h, if_neg h]; exact ⟨rfl, rfl⟩

/-- C18 witness: `Valve_Open` after power-up gives PreOpening. -/
theorem C18_open_close_witness : (Valve_Open Valve_boot).state = VALVE_PRE_OPENING :=
  congrArg (fun v => v.state) ((C18_open_close Valve_boot).1 (Or.inl rfl)).1

/-- C19: after `Valve_Open` in an idle state and n consecutive periods of 50 ms
in which the driver fault input is not asserted, the state is PreOpening with
phase timer 50 for n = 1 and 100 for n = 2, and Opening with phase timer 0 for n
= 3; likewise PreClosing and Closing after `Valve_Close`. -/
theorem C19_power_up_delay (pulses : Nat → Nat) (envs : Nat → Valve_Env)
    (s : Valve_Ctx × HAL_Motor)
    (hs : s.1.state = VALVE_IDLE_CLOSED ∨ s.1.state = VALVE_IDLE_OPEN)
    (hf : ∀ j, j < 3 → (envs j).motor_fault = false) :
    ((Valve_iterate pulses envs 1 (Valve_Open s.1, s.2)).1.state = VALVE_PRE_OPENING ∧
      (Valve_iterate pulses envs 1 (Valve_Open s.1, s.2)).1.process_timer = 50 ∧
      (Valve_iterate pulses envs 2 (Valve_Open s.1, s.2)).1.state = VALVE_PRE_OPENING ∧
      (Valve_iterate pulses envs 2 (Valve_Open s.1, s.2)).1.process_timer = 100 ∧
      (Valve_iterate pulses envs 3 (Valve_Open s.1, s.2)).1.state = VALVE_OPENING ∧
      (Valve_iterate pulses envs 3 (Valve_Open s.1, s.2)).1.process_timer = 0) ∧
    ((Valve_iterate pulses envs 1 (Valve_Close s.1, s.2)).1.state = VALVE_PRE_CLOSING ∧
      (Valve_iterate pulses envs 1 (Valve_Close s.1, s.2)).1.process_timer = 50 ∧
      (Valve_iterate pulses envs 2 (Valve_Close s.1, s.2)).1.state = VALVE_PRE_CLOSING ∧
      (Valve_iterate pulses envs 2 (Valve_Close s.1, s.2)).1.process_timer = 100 ∧
      (Valve_iterate pulses envs 3 (Valve_Close s.1, s.2)).1.state = VALVE_CLOSING ∧
      (Valve_iterate pulses envs 3 (Valve_Close s.1, s.2)).1.process_timer = 0) := by
  have key : ∀ (t : Valve_Ctx × HAL_Motor) (pre next : ValveState_t),
      ((pre = VALVE_PRE_OPENING ∧ next = VALVE_OPENING) ∨
        (pre = VALVE_PRE_CLOSING ∧ next = VALVE_CLOSING)) →
      t.1.state = pre → t.1.process_timer = 0 →
      (Valve_iterate pulses envs 1 t).1.state = pre ∧
      (Valve_iterate pulses envs 1 t).1.process_timer = 50 ∧
      (Valve_iterate pulses envs 2 t).1.state = pre ∧
      (Valve_iterate pulses envs 2 t).1.process_timer = 100 ∧
      (Valve_iterate pulses envs 3 t).1.state = next ∧
      (Valve_iterate pulses envs 3 t).1.process_timer = 0 := by
    intro t pre next hpn hst ht
    have hpre : ∀ u : Valve_Ctx × HAL_Motor, u.1.state = pre →
        (u.1.state = VALVE_PRE_OPENING ∧ next = VALVE_OPENING) ∨
        (u.1.state = VALVE_PRE_CLOSING ∧ next = VALVE_CLOSING) := by
      intro u hu
      rcases hpn with ⟨h1, h2⟩ | ⟨h1, h2⟩
      · exact Or.inl ⟨hu.trans h1, h2⟩
      · exact Or.inr ⟨hu.trans h1, h2⟩
    have e1 : Valve_iterate pulses envs 1 t = Valve_period (pulses 0) (envs 0) t := rfl
    have e2 : Valve_iterate pulses envs 2 t =
        Valve_period (pulses 1) (envs 1) (Valve_iterate pulses envs 1 t) := rfl
    have e3 : Valve_iterate pulses envs 3 t =
        Valve_period (pulses 2) (envs 2) (Valve_iterate pulses envs 2 t) := rfl
    obtain ⟨a1, a2, -⟩ := Valve_period_pre (pulses 0) (envs 0) t next (hf 0 (by omega))
      (hpre t hst)
    rw [← e1, ht] at a1 a2
    have a1' : (Valve_iterate pulses envs 1 t).1.state = pre := by
      rw [a1, if_neg (by decide)]; exact hst
    have a2' : (Valve_iterate pulses envs 1 t).1.process_timer = 50 := by
      rw [a2, if_neg (by decide)]; rfl
    obtain ⟨b1, b2, -⟩ := Valve_period_pre (pulses 1) (envs 1) _ next (hf 1 (by omega))
      (hpre _ a1')
    rw [← e2, a2'] at b1 b2
    have b1' : (Valve_iterate pulses envs 2 t).1.state = pre := by
      rw [b1, if_neg (by decide)]; exact a1'
    have b2' : (Valve_iterate pulses envs 2 t).1.process_timer = 100 := by
      rw [b2, if_neg (by decide)]; rfl
    obtain ⟨c1, c2, -⟩ := Valve_period_pre (pulses 2) (envs 2) _ next (hf 2 (by omega))
      (hpre _ b1')
    rw [← e3, b2'] at c1 c2
    exact ⟨a1', a2', b1', b2', by rw [c1, if_pos (by decide)],
      by rw [c2, if_pos (by decide)]⟩
  obtain ⟨ho, hc⟩ := (Valve_accept s.1 hs)
  exact ⟨key _ _ _ (Or.inl ⟨rfl, rfl⟩) ho.1 ho.2, key _ _ _ (Or.inr ⟨rfl, rfl⟩) hc.1 hc.2⟩

/-- C19 witness: `Valve_Open` right after `Valve_Init`, then three periods
without driver fault: the state is Opening. -/
theorem C19_power_up_delay_witness :
    (Valve_iterate (fun _ => 0) (fun _ => ⟨false, 0⟩) 3
      (Valve_Open (Valve_Init Valve_boot HAL_Motor_boot).1,
        (Valve_Init Valve_boot HAL_Motor_boot).2)).1.state = VALVE_OPENING :=
  (C19_power_up_delay (fun _ => 0) (fun _ => ⟨false, 0⟩)
    (Valve_Init Valve_boot HAL_Motor_boot) (Or.inl rfl) (fun _ _ => rfl)).1.2.2.2.2.1

theorem Valve_Process_moving (env : Valve_Env) (v : Valve_Ctx) (m : HAL_Motor)
    (dir : MotorDir_t) (done : ValveState_t) (hf : env.motor_fault = false)
    (hs : (v.state = VALVE_OPENING ∧ dir = .MOTOR_OPENING ∧ done = VALVE_IDLE_OPEN) ∨
      (v.state = VALVE_CLOSING ∧ dir = .MOTOR_CLOSING ∧ done = VALVE_IDLE_CLOSED)) :
    Valve_Process env v m =
      Valve_case_moving dir done env
        ({ v with process_timer := u32 (v.process_timer + 50) }, m) :=
  Valve_period_moving 0 env (v, m) dir done hf hs

/-- C20: in Opening (Closing) with no driver fault, while the phase timer after
the increment of the step is at most 500 ms the state stays Opening (Closing);
when it is above 500 ms and at most 15000 ms the step ends in IdleOpen
(IdleClosed) with the brake engaged and main power off exactly when the stall
condition holds, that is the motor current is above 1200 mA, or the commanded
speed of this step is above 50 and the encoder count grew by fewer than 5 pulses
since the previous check; otherwise the state stays Opening (Closing). -/
theorem C20_stall_detection (env : Valve_Env) (v : Valve_Ctx) (m : HAL_Motor)
    (dir : MotorDir_t) (done : ValveState_t) (hf : env.motor_fault = false)
    (hs : (v.state = VALVE_OPENING ∧ dir = .MOTOR_OPENING ∧ done = VALVE_IDLE_OPEN) ∨
      (v.state = VALVE_CLOSING ∧ dir = .MOTOR_CLOSING ∧ done = VALVE_IDLE_CLOSED)) :
    (Valve_Process env v m).1.current_speed =
      (if v.current_speed < 100 then u8 (v.current_speed + 5) else v.current_speed) ∧
    (u32 (v.process_timer + 50) ≤ 500 → (Valve_Process env v m).1.state = v.state) ∧
    (500 < u32 (v.process_timer + 50) → u32 (v.process_timer + 50) ≤ 15000 →
      (((Valve_Process env v m).1.state = done ∧ (Valve_Process env v m).2.brake = true ∧
          (Valve_Process env v m).2.main_power = false) ↔
        (check_stall_current_ma env.load_current_raw > 1200 ∨
          ((Valve_Process env v m).1.current_speed > 50 ∧
            sub_u32 m.encoder_counter v.last_encoder_val < 5))) ∧
      (¬ (check_stall_current_ma env.load_current_raw > 1200 ∨
          ((Valve_Process env v m).1.current_speed > 50 ∧
            sub_u32 m.encoder_counter v.last_encoder_val < 5)) →
        (Valve_Process env v m).1.state = v.state)) := by
  rw [Valve_Process_moving env v m dir done hf hs]
  obtain ⟨g1, -, g3, -, g5⟩ := Valve_case_moving_fields dir done env
    ({ v with process_timer := u32 (v.process_timer + 50) }, m)
  simp only at g1 g3 g5
  have hne : v.state ≠ done := by
    rcases hs with ⟨h1, -, h3⟩ | ⟨h1, -, h3⟩ <;> rw [h1, h3] <;> simp
  rw [g3, g1]
  refine ⟨rfl, ?_, ?_⟩
  · intro ht
    rw [if_neg (fun h => by omega), if_neg (by omega)]
  · intro ht1 ht2
    refine ⟨?_, ?_⟩
    · constructor
      · intro h
        by_contra hn
        rw [if_neg (fun hc => hn hc.2), if_neg (by omega)] at h
        exact hne h.1
      · intro h
        rw [if_pos ⟨ht1, h⟩, g5, if_pos ⟨ht1, h⟩, HAL_Motor_Brake_true]
        exact ⟨rfl, rfl, rfl⟩
    · intro hn
      rw [if_neg (fun hc => hn hc.2), if_neg (by omega)]

/-- C20 witness: in Opening at 550 ms with a full-scale current sample the step
ends in IdleOpen. -/
theorem C20_stall_detection_witness :
    (Valve_Process ⟨false, 4095⟩ ⟨VALVE_OPENING, 500, 0, 70⟩
      ⟨50, true, true, true, false, 280⟩).1.state = VALVE_IDLE_OPEN :=
  (((C20_stall_detection ⟨false, 4095⟩ ⟨VALVE_OPENING, 500, 0, 70⟩
    ⟨50, true, true, true, false, 280⟩ .MOTOR_OPENING VALVE_IDLE_OPEN rfl
    (Or.inl ⟨rfl, rfl, rfl⟩)).2.2 (by decide) (by decide)).1.mpr (Or.inl (by decide))).1

set_option maxRecDepth 100000 in
/-- C22, the code at the failing input: `Valve_Open` after `Valve_Init`, then 303
periods without fault or stall (5 encoder pulses each, no motor current) leave
the state Opening with phase timer 15000; the next step, with a full-scale motor
current sample, raises the timer to 15050 and ends in IdleOpen, not in Fault. -/
theorem C22_timeout_overridden :
    (Valve_iterate (fun _ => 5) (fun _ => ⟨false, 0⟩) 303
      (Valve_Open (Valve_Init Valve_boot HAL_Motor_boot).1,
        (Valve_Init Valve_boot HAL_Motor_boot).2)).1.state = VALVE_OPENING ∧
    (Valve_iterate (fun _ => 5) (fun _ => ⟨false, 0⟩) 303
      (Valve_Open (Valve_Init Valve_boot HAL_Motor_boot).1,
        (Valve_Init Valve_boot HAL_Motor_boot).2)).1.process_timer = 15000 ∧
    (Valve_period 5 ⟨false, 4095⟩
      (Valve_iterate (fun _ => 5) (fun _ => ⟨false, 0⟩) 303
        (Valve_Open (Valve_Init Valve_boot HAL_Motor_boot).1,
          (Valve_Init Valve_boot HAL_Motor_boot).2))).1.process_timer = 15050 ∧
    (Valve_period 5 ⟨false, 4095⟩
      (Valve_iterate (fun _ => 5) (fun _ => ⟨false, 0⟩) 303
        (Valve_Open (Valve_Init Valve_boot HAL_Motor_boot).1,
          (Valve_Init Valve_boot HAL_Motor_boot).2))).1.state = VALVE_IDLE_OPEN := by
  decide

/-- C23: for every valve state, a `Valve_Process` step in which the driver fault
input is asserted only advances the phase timer, sets the state to Fault and
switches main power off: the commanded speed, the stored encoder value and all
other outputs of the motor driver are as before. -/
theorem C23_fault_pin (env : Valve_Env) (v : Valve_Ctx) (m : HAL_Motor)
    (hf : env.motor_fault = true) :
    Valve_Process env v m =
      ({ v with process_timer := u32 (v.process_timer + 50), state := VALVE_FAULT },
       { m with main_power := false }) :=
  Valve_Process_fault_pin env v m hf

/-- C23 witness: the fault pin asserted while Opening gives Fault. -/
theorem C23_fault_pin_witness :
    (Valve_Process ⟨true, 0⟩ ⟨VALVE_OPENING, 500, 0, 70⟩
      ⟨50, true, true, true, false, 280⟩).1.state = VALVE_FAULT :=
  congrArg (fun s => s.1.state) (C23_fault_pin ⟨true, 0⟩ ⟨VALVE_OPENING, 500, 0, 70⟩
    ⟨50, true, true, true, false, 280⟩ rfl)

/-- C24: in every state reachable from `Valve_Init` by `Valve_Init`, `Valve_Open`,
`Valve_Close`, `Valve_Process` and encoder interrupts, Opening or Closing implies
that motor main power is enabled, and IdleClosed or IdleOpen implies that motor
main power is disabled and the brake is engaged. -/
theorem C24_power_invariant (s : Valve_Ctx × HAL_Motor) (hr : Valve_Reachable s) :
    ((s.1.state = VALVE_OPENING ∨ s.1.state = VALVE_CLOSING) → s.2.main_power = true) ∧
    ((s.1.state = VALVE_IDLE_CLOSED ∨ s.1.state = VALVE_IDLE_OPEN) →
      s.2.main_power = false ∧ s.2.brake = true) :=
  ⟨fun h => ((Valve_Inv_of_Reachable s hr).2.2.1 h).1, (Valve_Inv_of_Reachable s hr).2.2.2⟩

/-- C24 witness: three periods after `Valve_Open` the valve is Opening and main
power is on. -/
theorem C24_power_invariant_witness :
    (Valve_run HAL_Motor_boot [.Open, .Process ⟨false, 0⟩, .Process ⟨false, 0⟩,
      .Process ⟨false, 0⟩]).2.main_power = true :=
  (C24_power_invariant (Valve_run HAL_Motor_boot [.Open, .Process ⟨false, 0⟩,
    .Process ⟨false, 0⟩, .Process ⟨false, 0⟩]) ⟨HAL_Motor_boot, _, rfl⟩).1
    (Or.inl (by decide))

theorem Valve_apply_fault (s : Valve_Ctx × HAL_Motor) (op : Valve_Op)
    (hop : op ≠ .Init) (hs : s.1.state = VALVE_FAULT) :
    (Valve_apply s op).1.state = VALVE_FAULT := by
  cases op with
  | Init => exact absurd rfl hop
  | Open =>
      unfold Valve_apply Valve_Open
      rw [if_neg (by rw [hs]; simp)]; exact hs
  | Close =>
      unfold Valve_apply Valve_Close
      rw [if_neg (by rw [hs]; simp)]; exact hs
  | Process env =>
      show (Valve_Process env s.1 s.2).1.state = VALVE_FAULT
      cases hf : env.motor_fault
      · have hs2 : (({ s.1 with process_timer := u32 (s.1.process_timer + 50) } : Valve_Ctx),
            s.2).1.state = VALVE_FAULT := hs
        rw [Valve_Process_switch env _ _ hf, Valve_switch_other env _ (Or.inr (Or.inr hs2))]
        exact hs
      · rw [Valve_Process_fault_pin env _ _ hf]
  | Encoder => exact hs

/-- C25: once the valve state is Fault, no sequence of `Valve_Open`,
`Valve_Close`, `Valve_Process` calls and encoder interrupts, with any inputs,
changes it; `Valve_Init` does leave Fault, for IdleClosed. -/
theorem C25_fault_absorbing (s : Valve_Ctx × HAL_Motor) (ops : List Valve_Op)
    (hs : s.1.state = VALVE_FAULT) (hops : ∀ op ∈ ops, op ≠ Valve_Op.Init) :
    (ops.foldl Valve_apply s).1.state = VALVE_FAULT ∧
    (Valve_apply (ops.foldl Valve_apply s) .Init).1.state = VALVE_IDLE_CLOSED := by
  refine ⟨?_, rfl⟩
  induction ops generalizing s with
  | nil => exact hs
  | cons op rest ih =>
      exact ih (Valve_apply s op)
        (Valve_apply_fault s op (hops op (List.mem_cons_self _ _)) hs)
        (fun o ho => hops o (List.mem_cons_of_mem _ ho))

/-- C25 witness: after the fault pin put the valve in Fault, an open command, a
close command and a clean step leave it in Fault. -/
theorem C25_fault_absorbing_witness :
    ([Valve_Op.Open, .Close, .Process ⟨false, 0⟩].foldl Valve_apply
      (Valve_run HAL_Motor_boot [.Process ⟨true, 0⟩])).1.state = VALVE_FAULT :=
  (C25_fault_absorbing (Valve_run HAL_Motor_boot [.Process ⟨true, 0⟩])
    [.Open, .Close, .Process ⟨false, 0⟩] (by decide) (by decide)).1

theorem Valve_period_moving_fields (pulses : Nat) (env : Valve_Env)
    (s : Valve_Ctx × HAL_Motor) (dir : MotorDir_t) (done : ValveState_t)
    (hf : env.motor_fault = false)
    (hs : (s.1.state = VALVE_OPENING ∧ dir = .MOTOR_OPENING ∧ done = VALVE_IDLE_OPEN) ∨
      (s.1.state = VALVE_CLOSING ∧ dir = .MOTOR_CLOSING ∧ done = VALVE_IDLE_CLOSED)) :
    (Valve_period pulses env s).1.state =
      (if u32 (s.1.process_timer + 50) > 500 ∧ Valve_stall_seen dir pulses env s = true
        then done
       else if u32 (s.1.process_timer + 50) > 15000 then VALVE_FAULT else s.1.state) ∧
    (Valve_period pulses env s).1.process_timer = u32 (s.1.process_timer + 50) ∧
    (Valve_period pulses env s).1.current_speed =
      (if s.1.current_speed < 100 then u8 (s.1.current_speed + 5) else s.1.current_speed) ∧
    (¬ (u32 (s.1.process_timer + 50) > 500 ∧ Valve_stall_seen dir pulses env s = true) →
      (u32 (s.1.process_timer + 50) > 15000 →
        (Valve_period pulses env s).2.main_power = false ∧
        (Valve_period pulses env s).2.logic_en = false ∧
        (Valve_period pulses env s).2.pwm_compare = 0) ∧
      (¬ u32 (s.1.process_timer + 50) > 15000 →
        (Valve_period pulses env s).2 =
          if s.1.current_speed < 100 then
            HAL_Motor_Move dir (u8 (s.1.current_speed + 5)) (Port1_ISR^[pulses] s.2)
          else Port1_ISR^[pulses] s.2)) := by
  rw [Valve_period_moving pulses env s dir done hf hs]
  simp only [Valve_stall_seen_iff]
  obtain ⟨g1, g2, g3, -, g5⟩ := Valve_case_moving_fields dir done env
    ({ s.1 with process_timer := u32 (s.1.process_timer + 50) }, Port1_ISR^[pulses] s.2)
  obtain ⟨-, -, -, -, -, e6, e7, e8⟩ := Valve_moving_encoder dir
    ({ s.1 with process_timer := u32 (s.1.process_timer + 50) }, Port1_ISR^[pulses] s.2)
  simp only at g1 g2 g3 g5 e6 e7 e8
  refine ⟨g1, g2, g3, ?_⟩
  intro hq
  rw [g5, if_neg hq]
  refine ⟨fun h => ?_, fun h => e8 h⟩
  rw [e6, if_pos h]
  exact ⟨rfl, e7 h⟩

/-- C21: from entry to Opening (Closing) with phase timer 0, if in each of the
first 301 periods the driver fault input is not asserted and `check_stall`, where
it is called (from the 11th period on), returns false, then the state is still
Opening (Closing) after each of the first 300 periods, with phase timer 50 per
period, and is Fault after the 301st, with phase timer 15050, main power cut and
the motor commanded to stop (logic enable off, PWM compare 0). -/
theorem C21_timeout (pulses : Nat → Nat) (envs : Nat → Valve_Env)
    (s : Valve_Ctx × HAL_Motor) (dir : MotorDir_t) (done : ValveState_t)
    (hs : (s.1.state = VALVE_OPENING ∧ dir = .MOTOR_OPENING ∧ done = VALVE_IDLE_OPEN) ∨
      (s.1.state = VALVE_CLOSING ∧ dir = .MOTOR_CLOSING ∧ done = VALVE_IDLE_CLOSED))
    (ht : s.1.process_timer = 0)
    (hf : ∀ j, j ≤ 300 → (envs j).motor_fault = false)
    (hst : ∀ j, j ≤ 300 → 10 ≤ j →
      Valve_stall_seen dir (pulses j) (envs j) (Valve_iterate pulses envs j s) = false) :
    (∀ k, k ≤ 300 → (Valve_iterate pulses envs k s).1.state = s.1.state ∧
      (Valve_iterate pulses envs k s).1.process_timer = 50 * k) ∧
    (Valve_iterate pulses envs 301 s).1.state = VALVE_FAULT ∧
    (Valve_iterate pulses envs 301 s).1.process_timer = 15050 ∧
    (Valve_iterate pulses envs 301 s).2.main_power = false ∧
    (Valve_iterate pulses envs 301 s).2.logic_en = false ∧
    (Valve_iterate pulses envs 301 s).2.pwm_compare = 0 := by
  have hsk : ∀ t : Valve_Ctx × HAL_Motor, t.1.state = s.1.state →
      (t.1.state = VALVE_OPENING ∧ dir = .MOTOR_OPENING ∧ done = VALVE_IDLE_OPEN) ∨
      (t.1.state = VALVE_CLOSING ∧ dir = .MOTOR_CLOSING ∧ done = VALVE_IDLE_CLOSED) := by
    intro t h; rw [h]; exact hs
  have hrun : ∀ k, k ≤ 300 → (Valve_iterate pulses envs k s).1.state = s.1.state ∧
      (Valve_iterate pulses envs k s).1.process_timer = 50 * k := by
    intro k
    induction k with
    | zero => intro _; exact ⟨rfl, ht.trans rfl⟩
    | succ n ih =>
        intro hn
        obtain ⟨i1, i2⟩ := ih (by omega)
        obtain ⟨g1, g2, -, -⟩ := Valve_period_moving_fields (pulses n) (envs n)
          (Valve_iterate pulses envs n s) dir done (hf n (by omega)) (hsk _ i1)
        have hu : u32 (50 * n + 50) = 50 * n + 50 := by unfold u32; omega
        rw [i2, hu] at g1 g2
        have hq : ¬ (50 * n + 50 > 500 ∧
            Valve_stall_seen dir (pulses n) (envs n) (Valve_iterate pulses envs n s) = true) := by
          intro hc
          have := hst n (by omega) (by omega)
          rw [this] at hc
          exact absurd hc.2 (by simp)
        rw [if_neg hq, if_neg (by omega)] at g1
        exact ⟨g1.trans i1, by rw [show Valve_iterate pulses envs (n + 1) s =
          Valve_period (pulses n) (envs n) (Valve_iterate pulses envs n s) from rfl, g2]; omega⟩
  refine ⟨hrun, ?_⟩
  obtain ⟨i1, i2⟩ := hrun 300 (by omega)
  obtain ⟨g1, g2, -, g4⟩ := Valve_period_moving_fields (pulses 300) (envs 300)
    (Valve_iterate pulses envs 300 s) dir done (hf 300 (by omega)) (hsk _ i1)
  have hu : u32 (50 * 300 + 50) = 15050 := by decide
  rw [i2, hu] at g1 g2 g4
  have hq : ¬ (15050 > 500 ∧
      Valve_stall_seen dir (pulses 300) (envs 300) (Valve_iterate pulses envs 300 s) = true) := by
    intro hc
    have := hst 300 (by omega) (by omega)
    rw [this] at hc
    exact absurd hc.2 (by simp)
  rw [if_neg hq, if_pos (by omega)] at g1
  obtain ⟨m1, m2, m3⟩ := (g4 hq).1 (by omega)
  exact ⟨g1, g2, m1, m2, m3⟩

set_option maxRecDepth 100000 in
/-- C21 witness: `Valve_Open` after `Valve_Init`, three periods of power-up delay,
then 301 periods with 5 encoder pulses each and no motor current: the valve ends
in Fault. -/
theorem C21_timeout_witness :
    (Valve_iterate (fun _ => 5) (fun _ => ⟨false, 0⟩) 301
      (Valve_iterate (fun _ => 5) (fun _ => ⟨false, 0⟩) 3
        (Valve_Open (Valve_Init Valve_boot HAL_Motor_boot).1,
          (Valve_Init Valve_boot HAL_Motor_boot).2))).1.state = VALVE_FAULT :=
  (C21_timeout (fun _ => 5) (fun _ => ⟨false, 0⟩)
    (Valve_iterate (fun _ => 5) (fun _ => ⟨false, 0⟩) 3
      (Valve_Open (Valve_Init Valve_boot HAL_Motor_boot).1,
        (Valve_Init Valve_boot HAL_Motor_boot).2))
    .MOTOR_OPENING VALVE_IDLE_OPEN (Or.inl ⟨by decide, rfl, rfl⟩) (by decide)
    (fun _ _ => rfl) (by decide)).2.1

theorem HAL_Motor_Move_drive (dir : MotorDir_t) (sp : Nat) (m : HAL_Motor)
    (hd : dir = .MOTOR_OPENING ∨ dir = .MOTOR_CLOSING) (hsp : sp ≤ 100) :
    (HAL_Motor_Move dir sp m).pwm_compare = 4 * sp ∧
    (HAL_Motor_Move dir sp m).logic_en = true ∧
    (HAL_Motor_Move dir sp m).brake = false ∧
    (HAL_Motor_Move dir sp m).dir_pin = decide (dir = .MOTOR_OPENING) := by
  have h8 : u8 sp = sp := by unfold u8; omega
  have hp : u16 (u32 (MOTOR_PWM_PERIOD * (if u8 sp > 100 then 100 else u8 sp)) / 100) =
      4 * sp := by
    rw [h8, if_neg (by omega)]
    simp only [MOTOR_PWM_PERIOD]
    rw [u32_of_lt (400 * sp) (by omega)]
    have hq : 400 * sp / 100 = 4 * sp := by omega
    rw [hq, u16_of_lt (4 * sp) (by omega)]
  rcases hd with hd | hd
  · rw [hd, HAL_Motor_Move_opening, hp]; exact ⟨rfl, rfl, rfl, rfl⟩
  · rw [hd, HAL_Motor_Move_closing, hp]; exact ⟨rfl, rfl, rfl, rfl⟩

/-- C33: soft start. A PreOpening (PreClosing) step that enters Opening (Closing)
leaves the commanded speed at 20; after k consecutive periods that stay in that
state the commanded speed is min(100, 20 + 5k), which is 100 from k = 16 on, and
for k >= 1 the motor driver is driving in the corresponding direction (logic
enabled, brake released) with a PWM compare value of 4 ticks per percent of that
speed; and the commanded speed is at most 100 in every reachable state. -/
theorem C33_soft_start (pulses : Nat → Nat) (envs : Nat → Valve_Env)
    (s : Valve_Ctx × HAL_Motor) (dir : MotorDir_t) (done : ValveState_t) (k : Nat)
    (hs : (s.1.state = VALVE_OPENING ∧ dir = .MOTOR_OPENING ∧ done = VALVE_IDLE_OPEN) ∨
      (s.1.state = VALVE_CLOSING ∧ dir = .MOTOR_CLOSING ∧ done = VALVE_IDLE_CLOSED))
    (hcs : s.1.current_speed = 20)
    (hstay : ∀ j, j ≤ k → (Valve_iterate pulses envs j s).1.state = s.1.state) :
    (Valve_iterate pulses envs k s).1.current_speed = min 100 (20 + 5 * k) ∧
    (1 ≤ k →
      (Valve_iterate pulses envs k s).2.pwm_compare = 4 * min 100 (20 + 5 * k) ∧
      (Valve_iterate pulses envs k s).2.logic_en = true ∧
      (Valve_iterate pulses envs k s).2.brake = false ∧
      (Valve_iterate pulses envs k s).2.dir_pin = decide (dir = .MOTOR_OPENING)) ∧
    (∀ (p : Nat) (env : Valve_Env) (t : Valve_Ctx × HAL_Motor) (next : ValveState_t),
      env.motor_fault = false →
      ((t.1.state = VALVE_PRE_OPENING ∧ next = VALVE_OPENING) ∨
        (t.1.state = VALVE_PRE_CLOSING ∧ next = VALVE_CLOSING)) →
      (Valve_period p env t).1.current_speed = 20) ∧
    (∀ r : Valve_Ctx × HAL_Motor, Valve_Reachable r → r.1.current_speed ≤ 100) := by
  have hdir : dir = .MOTOR_OPENING ∨ dir = .MOTOR_CLOSING := by
    rcases hs with ⟨-, h, -⟩ | ⟨-, h, -⟩
    · exact Or.inl h
    · exact Or.inr h
  have hne : s.1.state ≠ done ∧ s.1.state ≠ VALVE_FAULT := by
    rcases hs with ⟨h1, -, h3⟩ | ⟨h1, -, h3⟩ <;> rw [h1, h3] <;> simp
  have hsk : ∀ t : Valve_Ctx × HAL_Motor, t.1.state = s.1.state →
      (t.1.state = VALVE_OPENING ∧ dir = .MOTOR_OPENING ∧ done = VALVE_IDLE_OPEN) ∨
      (t.1.state = VALVE_CLOSING ∧ dir = .MOTOR_CLOSING ∧ done = VALVE_IDLE_CLOSED) := by
    intro t h; rw [h]; exact hs
  have hrun : ∀ n, n ≤ k →
      (Valve_iterate pulses envs n s).1.current_speed = min 100 (20 + 5 * n) ∧
      (1 ≤ n →
        (Valve_iterate pulses envs n s).2.pwm_compare = 4 * min 100 (20 + 5 * n) ∧
        (Valve_iterate pulses envs n s).2.logic_en = true ∧
        (Valve_iterate pulses envs n s).2.brake = false ∧
        (Valve_iterate pulses envs n s).2.dir_pin = decide (dir = .MOTOR_OPENING)) := by
    intro n
    induction n with
    | zero => intro _; exact ⟨hcs.trans rfl, fun h => absurd h (by omega)⟩
    | succ n ih =>
        intro hn
        obtain ⟨i1, i2⟩ := ih (by omega)
        have hst0 := hstay n (by omega)
        have hst1 := hstay (n + 1) hn
        have hstep : Valve_iterate pulses envs (n + 1) s =
            Valve_period (pulses n) (envs n) (Valve_iterate pulses envs n s) := rfl
        have hf : (envs n).motor_fault = false := by
          cases hfp : (envs n).motor_fault
          · rfl
          · have := Valve_period_fault_pin (pulses n) (envs n)
              (Valve_iterate pulses envs n s) hfp
            rw [← hstep, hst1] at this
            exact absurd this hne.2
        obtain ⟨g1, -, g3, g4⟩ := Valve_period_moving_fields (pulses n) (envs n)
          (Valve_iterate pulses envs n s) dir done hf (hsk _ hst0)
        rw [← hstep] at g1 g3 g4
        have hq : ¬ (u32 ((Valve_iterate pulses envs n s).1.process_timer + 50) > 500 ∧
            Valve_stall_seen dir (pulses n) (envs n) (Valve_iterate pulses envs n s) = true) := by
          intro hc
          rw [if_pos hc, hst1] at g1
          exact hne.1 g1
        have hto : ¬ u32 ((Valve_iterate pulses envs n s).1.process_timer + 50) > 15000 := by
          intro hc
          rw [if_neg hq, if_pos hc, hst1] at g1
          exact hne.2 g1
        have hm := (g4 hq).2 hto
        rw [i1] at g3 hm
        have h8 : u8 (min 100 (20 + 5 * n) + 5) = min 100 (20 + 5 * n) + 5 := by
          unfold u8; omega
        rw [h8] at g3 hm
        refine ⟨by rw [g3]; split_ifs <;> omega, fun _ => ?_⟩
        rw [hm]
        by_cases hlt : min 100 (20 + 5 * n) < 100
        · rw [if_pos hlt]
          obtain ⟨d1, d2, d3, d4⟩ := HAL_Motor_Move_drive dir (min 100 (20 + 5 * n) + 5)
            (Port1_ISR^[pulses n] (Valve_iterate pulses envs n s).2) hdir (by omega)
          exact ⟨by rw [d1]; omega, d2, d3, d4⟩
        · rw [if_neg hlt]
          obtain ⟨p1, p2, p3, p4, p5⟩ := Port1_ISR_iterate (pulses n)
            (Valve_iterate pulses envs n s).2
          obtain ⟨q1, q2, q3, q4⟩ := i2 (by omega)
          exact ⟨by rw [p5, q1]; omega, by rw [p2, q2], by rw [p4, q3], by rw [p3, q4]⟩
  obtain ⟨r1, r2⟩ := hrun k (Nat.le_refl k)
  refine ⟨r1, r2, ?_, fun r hr => (Valve_Inv_of_Reachable r hr).1⟩
  intro p env t next hf ht
  exact (Valve_period_pre p env t next hf ht).2.2.1

set_option maxRecDepth 100000 in
/-- C33 witness: 16 periods after entry to Opening (no fault, no stall) the
commanded speed is 100. -/
theorem C33_soft_start_witness :
    (Valve_iterate (fun _ => 5) (fun _ => ⟨false, 0⟩) 16
      (Valve_iterate (fun _ => 5) (fun _ => ⟨false, 0⟩) 3
        (Valve_Open (Valve_Init Valve_boot HAL_Motor_boot).1,
          (Valve_Init Valve_boot HAL_Motor_boot).2))).1.current_speed =
      min 100 (20 + 5 * 16) :=
  (C33_soft_start (fun _ => 5) (fun _ => ⟨false, 0⟩)
    (Valve_iterate (fun _ => 5) (fun _ => ⟨false, 0⟩) 3
      (Valve_Open (Valve_Init Valve_boot HAL_Motor_boot).1,
        (Valve_Init Valve_boot HAL_Motor_boot).2))
    .MOTOR_OPENING VALVE_IDLE_OPEN 16 (Or.inl ⟨by decide, rfl, rfl⟩) (by decide)
    (by decide)).1

/-- C36: in every reachable state that is Opening or Closing, a step whose phase
timer after the increment is above 500 ms (the steps in which `check_stall` is
called) has a commanded speed of at least 75 after its ramp, so the speed gate is
open and `check_stall` returns true exactly when the motor current is above 1200
mA or the encoder count grew by fewer than 5 pulses since the stored value; and
at the first such step (timer 550) the stored value is still 0, so that check
compares the whole encoder count since the reset. -/
theorem C36_speed_gate (s : Valve_Ctx × HAL_Motor) (env : Valve_Env) (dir : MotorDir_t)
    (pulses : Nat) (hr : Valve_Reachable s)
    (hs : s.1.state = VALVE_OPENING ∨ s.1.state = VALVE_CLOSING)
    (ht : 500 < u32 (s.1.process_timer + 50)) :
    75 ≤ (Valve_soft_start dir (s.1, Port1_ISR^[pulses] s.2)).1.current_speed ∧
    (Valve_stall_seen dir pulses env s = true ↔
      (check_stall_current_ma env.load_current_raw > 1200 ∨
        sub_u32 (Port1_ISR^[pulses] s.2).encoder_counter s.1.last_encoder_val < 5)) ∧
    (u32 (s.1.process_timer + 50) = 550 →
      s.1.last_encoder_val = 0 ∧
      sub_u32 (Port1_ISR^[pulses] s.2).encoder_counter s.1.last_encoder_val =
        u32 (Port1_ISR^[pulses] s.2).encoder_counter) := by
  obtain ⟨i1, i2, i3, -⟩ := Valve_Inv_of_Reachable s hr
  obtain ⟨-, j2, j3, j4, j5⟩ := i3 hs
  have hu : u32 (s.1.process_timer + 50) = s.1.process_timer + 50 := by unfold u32; omega
  rw [hu] at ht ⊢
  have h8 : u8 (s.1.current_speed + 5) = s.1.current_speed + 5 := by unfold u8; omega
  have hsp : 75 ≤ (if s.1.current_speed < 100 then u8 (s.1.current_speed + 5)
      else s.1.current_speed) := by
    rw [h8]; split_ifs <;> omega
  refine ⟨?_, ?_, ?_⟩
  · rw [Valve_soft_start_eq]; exact hsp
  · rw [Valve_stall_seen_iff]
    constructor
    · rintro (h | h)
      · exact Or.inl h
      · exact Or.inr h.2
    · rintro (h | h)
      · exact Or.inl h
      · exact Or.inr ⟨by omega, h⟩
  · intro h550
    have hl := j5 (by omega)
    refine ⟨hl, ?_⟩
    rw [hl, sub_u32_eq]
    unfold u32
    omega

/-- C36 witness: 10 periods after entry to Opening, the next step (the 11th) has
a commanded speed of at least 75. -/
theorem C36_speed_gate_witness :
    75 ≤ (Valve_soft_start .MOTOR_OPENING
      ((Valve_run HAL_Motor_boot [.Open, .Process ⟨false, 0⟩, .Process ⟨false, 0⟩,
        .Process ⟨false, 0⟩, .Process ⟨false, 0⟩, .Process ⟨false, 0⟩,
        .Process ⟨false, 0⟩, .Process ⟨false, 0⟩, .Process ⟨false, 0⟩,
        .Process ⟨false, 0⟩, .Process ⟨false, 0⟩, .Process ⟨false, 0⟩,
        .Process ⟨false, 0⟩, .Process ⟨false, 0⟩]).1,
       Port1_ISR^[0] (Valve_run HAL_Motor_boot [.Open, .Process ⟨false, 0⟩,
        .Process ⟨false, 0⟩, .Process ⟨false, 0⟩, .Process ⟨false, 0⟩,
        .Process ⟨false, 0⟩, .Process ⟨false, 0⟩, .Process ⟨false, 0⟩,
        .Process ⟨false, 0⟩, .Process ⟨false, 0⟩, .Process ⟨false, 0⟩,
        .Process ⟨false, 0⟩, .Process ⟨false, 0⟩, .Process ⟨false, 0⟩]).2)).1.current_speed :=
  (C36_speed_gate (Valve_run HAL_Motor_boot [.Open, .Process ⟨false, 0⟩,
        .Process ⟨false, 0⟩, .Process ⟨false, 0⟩, .Process ⟨false, 0⟩,
        .Process ⟨false, 0⟩, .Process ⟨false, 0⟩, .Process ⟨false, 0⟩,
        .Process ⟨false, 0⟩, .Process ⟨false, 0⟩, .Process ⟨false, 0⟩,
        .Process ⟨false, 0⟩, .Process ⟨false, 0⟩, .Process ⟨false, 0⟩])
    ⟨false, 0⟩ .MOTOR_OPENING 0 ⟨HAL_Motor_boot, _, rfl⟩ (Or.inl (by decide))
    (by decide)).1

/-! ## Lemmas on the serial driver -/

theorem HAL_UART_copy_length (rx_buffer : List Nat) (n : Nat) (dest : List Nat) :
    (HAL_UART_copy rx_buffer n dest).length = dest.length := by
  induction n with
  | zero => rfl
  | succ k ih => simp only [HAL_UART_copy, List.length_set]; exact ih

theorem rd_lt (buffer : List Nat) (i : Nat) : rd buffer i < 256 := by
  unfold rd u8; omega

theorem u8_rd (buffer : List Nat) (i : Nat) : u8 (rd buffer i) = rd buffer i := by
  unfold rd u8; omega

theorem rd_set_self (buffer : List Nat) (i x : Nat) (h : i < buffer.length) :
    rd (buffer.set i x) i = u8 x := by
  unfold rd
  rw [List.getD_eq_getElem?_getD, List.getElem?_set_self h]
  rfl

theorem rd_set_ne (buffer : List Nat) (i j x : Nat) (h : i ≠ j) :
    rd (buffer.set i x) j = rd buffer j := by
  unfold rd
  rw [List.getD_eq_getElem?_getD, List.getD_eq_getElem?_getD, List.getElem?_set_ne h]

theorem rd_HAL_UART_copy (rx_buffer : List Nat) (n : Nat) (dest : List Nat) (j : Nat)
    (hj : j < n) (hn : n ≤ dest.length) :
    rd (HAL_UART_copy rx_buffer n dest) j = rd rx_buffer j := by
  induction n with
  | zero => omega
  | succ k ih =>
      simp only [HAL_UART_copy]
      by_cases hjk : j = k
      · subst hjk
        rw [rd_set_self _ _ _ (by rw [HAL_UART_copy_length]; omega), u8_rd]
      · rw [rd_set_ne _ _ _ _ (fun h => hjk h.symm)]
        exact ih (by omega) (by omega)

theorem HAL_UART_Inv_ISR (b : Nat) (u : HAL_UART) (h : HAL_UART_Inv u) :
    HAL_UART_Inv (USCI_A1_ISR b u) := by
  obtain ⟨h1, h2⟩ := h
  unfold USCI_A1_ISR
  simp only [UART_RX_BUFFER_SIZE]
  have hu : ∀ x, x < 16 → u16 (x + 1) = x + 1 := by
    intro x hx; unfold u16; omega
  by_cases hlt : u.rx_index < 16
  · rw [if_pos hlt]
    simp only [hu _ hlt]
    by_cases h8 : u.rx_index + 1 ≥ 8
    · rw [if_pos h8]
      exact ⟨by show u.rx_index + 1 ≤ 16; omega, by show (true = true ↔ _); simp; omega⟩
    · rw [if_neg h8]
      refine ⟨by show u.rx_index + 1 ≤ 16; omega, ?_⟩
      show (u.data_ready = true ↔ 8 ≤ u.rx_index + 1)
      constructor
      · intro hr; have := h2.mp hr; omega
      · intro hr; omega
  · rw [if_neg hlt]; exact ⟨h1, h2⟩

theorem HAL_UART_Inv_GetData (dest : List Nat) (u : HAL_UART) (h : HAL_UART_Inv u) :
    HAL_UART_Inv (HAL_UART_GetData u dest).2.1 := by
  unfold HAL_UART_GetData
  split_ifs with hr
  · exact h
  · exact ⟨by show 0 ≤ 16; omega, by show (false = true ↔ 8 ≤ 0); simp⟩

theorem HAL_UART_Inv_of_Reachable (u : HAL_UART) (h : HAL_UART_Reachable u) :
    HAL_UART_Inv u := by
  obtain ⟨ops, rfl⟩ := h
  have key : ∀ (l : List HAL_UART_Op) (v : HAL_UART), HAL_UART_Inv v →
      HAL_UART_Inv (l.foldl HAL_UART_apply v) := by
    intro l
    induction l with
    | nil => intro v hv; exact hv
    | cons op rest ih =>
        intro v hv
        apply ih
        cases op with
        | Rx b => exact HAL_UART_Inv_ISR b v hv
        | GetData d => exact HAL_UART_Inv_GetData d v hv
  exact key ops _ ⟨by decide, by decide⟩

theorem HAL_UART_GetData_ready (u : HAL_UART) (dest : List Nat) (h : u.data_ready = true) :
    HAL_UART_GetData u dest =
      (u.rx_index, { u with rx_index := 0, data_ready := false },
        HAL_UART_copy u.rx_buffer u.rx_index dest) := by
  unfold HAL_UART_GetData
  rw [if_neg (by simp [h])]

theorem HAL_UART_GetData_idle (u : HAL_UART) (dest : List Nat) (h : u.data_ready = false) :
    HAL_UART_GetData u dest = (0, u, dest) := by
  unfold HAL_UART_GetData
  rw [if_pos (by simp [h])]

/-- C38: in every serial driver state reachable from the empty buffer by receive
interrupts and `HAL_UART_GetData` calls, the fill index is at most 16 and the
ready flag is set exactly when at least 8 bytes are buffered; hence
`HAL_UART_GetData` returns a count of at most 16 and leaves the length of the
destination buffer unchanged, a byte arriving at a full buffer changes nothing,
and whenever `HAL_UART_IsDataReady` is true the returned length is at least 8, so
that `Telemetry_Process` never takes its `len < 8` branch. -/
theorem C38_rx_buffer (u : HAL_UART) (hr : HAL_UART_Reachable u) (dest : List Nat)
    (received_byte : Nat) :
    u.rx_index ≤ 16 ∧
    (u.data_ready = true ↔ 8 ≤ u.rx_index) ∧
    (HAL_UART_GetData u dest).1 ≤ 16 ∧
    (HAL_UART_GetData u dest).2.2.length = dest.length ∧
    (u.rx_index = 16 → USCI_A1_ISR received_byte u = u) ∧
    (HAL_UART_IsDataReady u = true →
      8 ≤ (HAL_UART_GetData u dest).1 ∧ ¬ u16 (HAL_UART_GetData u dest).1 < 8) ∧
    (∀ s : Telemetry_Ctx, s.uart = u → HAL_UART_IsDataReady s.uart = true →
      Telemetry_Process s = Telemetry_dispatch (Telemetry_retrieve s)) := by
  obtain ⟨h1, h2⟩ := HAL_UART_Inv_of_Reachable u hr
  have hready : u.data_ready = true →
      (HAL_UART_GetData u dest).1 = u.rx_index := by
    intro h; rw [HAL_UART_GetData_ready u dest h]
  refine ⟨h1, h2, ?_, ?_, ?_, ?_, ?_⟩
  · cases hd : u.data_ready
    · rw [HAL_UART_GetData_idle u dest hd]; show 0 ≤ 16; omega
    · rw [HAL_UART_GetData_ready u dest hd]; exact h1
  · cases hd : u.data_ready
    · rw [HAL_UART_GetData_idle u dest hd]
    · rw [HAL_UART_GetData_ready u dest hd]; exact HAL_UART_copy_length _ _ _
  · intro h16
    unfold USCI_A1_ISR
    simp only [UART_RX_BUFFER_SIZE]
    rw [if_neg (by omega)]
  · intro hd
    have hd2 : u.data_ready = true := hd
    rw [hready hd2]
    have := h2.mp hd2
    refine ⟨this, ?_⟩
    unfold u16; omega
  · intro s hs hd
    have hd2 : s.uart.data_ready = true := hd
    unfold Telemetry_Process
    rw [if_neg (by simp [hd]), HAL_UART_GetData_ready s.uart s.rx_data hd2]
    rw [hs] at hd2 ⊢
    have := h2.mp hd2
    rw [if_neg (by show ¬ u16 u.rx_index < 8; unfold u16; omega)]

/-- C38 witness: after eight received bytes the ready flag is set and
`HAL_UART_GetData` returns 8. -/
theorem C38_rx_buffer_witness :
    8 ≤ (HAL_UART_GetData (HAL_UART_run [.Rx 1, .Rx 3, .Rx 0, .Rx 0, .Rx 0, .Rx 1, .Rx 132,
      .Rx 10]) (List.replicate 16 0)).1 :=
  ((C38_rx_buffer (HAL_UART_run [.Rx 1, .Rx 3, .Rx 0, .Rx 0, .Rx 0, .Rx 1, .Rx 132, .Rx 10])
    ⟨_, rfl⟩ (List.replicate 16 0) 0).2.2.2.2.2.1 (by decide)).1

/-! ## Lemmas on the CRC -/

theorem xor_A001_ge (y : Nat) (h : y < 32768) : 32768 ≤ y ^^^ 0xA001 := by
  have h1 : (y ^^^ 0xA001).testBit 15 = true := by
    rw [Nat.testBit_xor, Nat.testBit_lt_two_pow (show y < 2 ^ 15 from h)]
    decide
  exact Nat.testBit_implies_ge h1

theorem crc16_shift_odd (x : Nat) (h : x % 2 = 1) : crc16_shift x = (x / 2) ^^^ 0xA001 := by
  unfold crc16_shift
  rw [Nat.and_one_is_mod, if_pos (by omega), Nat.shiftRight_eq_div_pow]

theorem crc16_shift_even (x : Nat) (h : x % 2 = 0) : crc16_shift x = x / 2 := by
  unfold crc16_shift
  rw [Nat.and_one_is_mod, if_neg (by omega), Nat.shiftRight_eq_div_pow]

theorem crc16_shift_lt (x : Nat) (h : x < 65536) : crc16_shift x < 65536 := by
  rcases Nat.mod_two_eq_zero_or_one x with he | ho
  · rw [crc16_shift_even x he]; omega
  · rw [crc16_shift_odd x ho]
    exact Nat.xor_lt_two_pow (show x / 2 < 2 ^ 16 by omega) (show 0xA001 < 2 ^ 16 by decide)

theorem crc16_shift_injective (x y : Nat) (hx : x < 65536) (hy : y < 65536)
    (h : crc16_shift x = crc16_shift y) : x = y := by
  rcases Nat.mod_two_eq_zero_or_one x with hxe | hxo <;>
  rcases Nat.mod_two_eq_zero_or_one y with hye | hyo
  · rw [crc16_shift_even x hxe, crc16_shift_even y hye] at h; omega
  · rw [crc16_shift_even x hxe, crc16_shift_odd y hyo] at h
    have := xor_A001_ge (y / 2) (by omega)
    omega
  · rw [crc16_shift_odd x hxo, crc16_shift_even y hye] at h
    have := xor_A001_ge (x / 2) (by omega)
    omega
  · rw [crc16_shift_odd x hxo, crc16_shift_odd y hyo] at h
    have := Nat.xor_left_injective h
    simp only at this
    omega

theorem crc16_shift_iterate_lt (n : Nat) (x : Nat) (h : x < 65536) :
    crc16_shift^[n] x < 65536 := by
  induction n generalizing x with
  | zero => exact h
  | succ k ih =>
      rw [Function.iterate_succ_apply]
      exact ih _ (crc16_shift_lt x h)

theorem crc16_shift_iterate_injective (n : Nat) (x y : Nat) (hx : x < 65536)
    (hy : y < 65536) (h : crc16_shift^[n] x = crc16_shift^[n] y) : x = y := by
  induction n generalizing x y with
  | zero => exact h
  | succ k ih =>
      rw [Function.iterate_succ_apply, Function.iterate_succ_apply] at h
      exact crc16_shift_injective x y hx hy
        (ih _ _ (crc16_shift_lt x hx) (crc16_shift_lt y hy) h)

theorem crc16_update_lt (crc byte : Nat) (hc : crc < 65536) (hb : byte < 256) :
    crc16_update crc byte < 65536 := by
  unfold crc16_update
  exact crc16_shift_iterate_lt 8 _
    (Nat.xor_lt_two_pow (show crc < 2 ^ 16 from hc) (show byte < 2 ^ 16 by omega))

theorem crc16_update_injective_crc (c c' byte : Nat) (hc : c < 65536) (hc' : c' < 65536)
    (hb : byte < 256) (h : crc16_update c byte = crc16_update c' byte) : c = c' := by
  unfold crc16_update at h
  have hx : ∀ z, z < 65536 → z ^^^ byte < 65536 := fun z hz =>
    Nat.xor_lt_two_pow (show z < 2 ^ 16 from hz) (show byte < 2 ^ 16 by omega)
  exact Nat.xor_left_injective
    (crc16_shift_iterate_injective 8 _ _ (hx c hc) (hx c' hc') h)

theorem crc16_update_injective_byte (c b b' : Nat) (hc : c < 65536) (hb : b < 256)
    (hb' : b' < 256) (h : crc16_update c b = crc16_update c b') : b = b' := by
  unfold crc16_update at h
  have hx : ∀ z, z < 256 → c ^^^ z < 65536 := fun z hz =>
    Nat.xor_lt_two_pow (show c < 2 ^ 16 from hc) (show z < 2 ^ 16 by omega)
  exact Nat.xor_right_injective
    (crc16_shift_iterate_injective 8 _ _ (hx b hb) (hx b' hb') h)

theorem calculate_crc_eq_foldl (buffer : List Nat) (length : Nat) :
    calculate_crc buffer length =
      ((List.range (u16 length)).map (rd buffer)).foldl crc16_update 0xFFFF := by
  unfold calculate_crc
  rw [List.foldl_map]

theorem crc16_foldl_lt (l : List Nat) (c : Nat) (hc : c < 65536) (hl : ∀ b ∈ l, b < 256) :
    l.foldl crc16_update c < 65536 := by
  induction l generalizing c with
  | nil => exact hc
  | cons b rest ih =>
      exact ih _ (crc16_update_lt c b hc (hl b (List.mem_cons_self _ _)))
        (fun x hx => hl x (List.mem_cons_of_mem _ hx))

theorem crc16_foldl_injective (l : List Nat) (c c' : Nat) (hc : c < 65536)
    (hc' : c' < 65536) (hl : ∀ b ∈ l, b < 256)
    (h : l.foldl crc16_update c = l.foldl crc16_update c') : c = c' := by
  induction l generalizing c c' with
  | nil => exact h
  | cons b rest ih =>
      have hb := hl b (List.mem_cons_self _ _)
      exact crc16_update_injective_crc c c' b hc hc' hb
        (ih _ _ (crc16_update_lt c b hc hb) (crc16_update_lt c' b hc' hb)
          (fun x hx => hl x (List.mem_cons_of_mem _ hx)) h)

theorem crc16_foldl_byte_change (pre post : List Nat) (b b' c : Nat) (hc : c < 65536)
    (hpre : ∀ x ∈ pre, x < 256) (hpost : ∀ x ∈ post, x < 256) (hb : b < 256)
    (hb' : b' < 256) (hne : b ≠ b') :
    (pre ++ b :: post).foldl crc16_update c ≠ (pre ++ b' :: post).foldl crc16_update c := by
  intro h
  rw [List.foldl_append, List.foldl_append, List.foldl_cons, List.foldl_cons] at h
  have hd := crc16_foldl_lt pre c hc hpre
  have h2 := crc16_foldl_injective post _ _ (crc16_update_lt _ b hd hb)
    (crc16_update_lt _ b' hd hb') hpost h
  exact hne (crc16_update_injective_byte _ b b' hd hb hb' h2)

theorem calculate_crc_lt (buffer : List Nat) (length : Nat) :
    calculate_crc buffer length < 65536 := by
  rw [calculate_crc_eq_foldl]
  apply crc16_foldl_lt _ _ (by decide)
  intro b hb
  obtain ⟨i, -, rfl⟩ := List.mem_map.mp hb
  exact rd_lt buffer i

theorem calculate_crc_congr (a b : List Nat) (length : Nat)
    (h : ∀ j, j < u16 length → rd a j = rd b j) :
    calculate_crc a length = calculate_crc b length := by
  rw [calculate_crc_eq_foldl, calculate_crc_eq_foldl]
  congr 1
  apply List.map_congr_left
  intro j hj
  exact h j (List.mem_range.mp hj)

theorem and_FF (x : Nat) : x &&& 0xFF = x % 256 :=
  Nat.and_pow_two_sub_one_eq_mod x 8

theorem crc_low_high (c : Nat) (h : c < 65536) :
    u16 ((((c >>> 8) &&& 0xFF) <<< 8) ||| (c &&& 0xFF)) = c := by
  rw [and_FF, and_FF, Nat.shiftRight_eq_div_pow, Nat.shiftLeft_eq]
  have h1 : c / 2 ^ 8 % 256 = c / 256 := by
    have : (2 : Nat) ^ 8 = 256 := by norm_num
    rw [this]; omega
  rw [h1, Nat.mul_comm]
  rw [← Nat.mul_add_lt_is_or (show c % 256 < 2 ^ 8 by
    have : (2 : Nat) ^ 8 = 256 := by norm_num
    omega) (c / 256)]
  have : (2 : Nat) ^ 8 = 256 := by norm_num
  rw [this]
  unfold u16
  omega

theorem rd_append_left (p q : List Nat) (j : Nat) (h : j < p.length) :
    rd (p ++ q) j = rd p j := by
  unfold rd
  rw [List.getD_append p q 0 j h]

theorem rd_append_right (p q : List Nat) (j : Nat) :
    rd (p ++ q) (p.length + j) = rd q j := by
  unfold rd
  rw [List.getD_append_right p q 0 (p.length + j) (by omega)]
  congr 2
  omega

theorem calculate_crc_prefix (p q : List Nat) (h : p.length < 65536) :
    calculate_crc (p ++ q) p.length = calculate_crc p p.length := by
  apply calculate_crc_congr
  intro j hj
  have : u16 p.length = p.length := u16_of_lt _ h
  exact rd_append_left p q j (by omega)

theorem calculate_crc_append_two (p : List Nat) (x y : Nat) (h : p.length + 2 < 65536) :
    calculate_crc (p ++ [x, y]) (p.length + 2) =
      crc16_update (crc16_update (calculate_crc p p.length) (u8 x)) (u8 y) := by
  rw [calculate_crc_eq_foldl, calculate_crc_eq_foldl, u16_of_lt _ h,
    u16_of_lt p.length (by omega)]
  rw [show p.length + 2 = (p.length + 1) + 1 from rfl, List.range_succ, List.range_succ]
  simp only [List.map_append, List.map_cons, List.map_nil, List.foldl_append, List.foldl_cons,
    List.foldl_nil]
  have h0 : rd (p ++ [x, y]) p.length = u8 x := by
    have := rd_append_right p [x, y] 0
    simpa [rd] using this
  have h1 : rd (p ++ [x, y]) (p.length + 1) = u8 y := by
    have := rd_append_right p [x, y] 1
    simpa [rd] using this
  rw [h0, h1]
  congr 2
  apply congrArg (fun l => List.foldl crc16_update 65535 l)
  apply List.map_congr_left
  intro j hj
  exact rd_append_left p [x, y] j (List.mem_range.mp hj)

theorem xor_low_byte (c : Nat) : c ^^^ (c % 256) = 256 * (c / 256) := by
  have hm : (c ^^^ (c % 256)) % 2 ^ 8 = 0 := by
    apply Nat.eq_of_testBit_eq
    intro i
    rw [Nat.testBit_mod_two_pow, Nat.testBit_xor, show (256 : Nat) = 2 ^ 8 by norm_num,
      Nat.testBit_mod_two_pow, Nat.zero_testBit]
    by_cases hi : i < 8 <;> simp [hi]
  have hd : (c ^^^ (c % 256)) >>> 8 = c >>> 8 := by
    apply Nat.eq_of_testBit_eq
    intro i
    rw [Nat.testBit_shiftRight, Nat.testBit_shiftRight, Nat.testBit_xor,
      show (256 : Nat) = 2 ^ 8 by norm_num, Nat.testBit_mod_two_pow]
    simp
  rw [Nat.shiftRight_eq_div_pow, Nat.shiftRight_eq_div_pow] at hd
  have h8 : (2 : Nat) ^ 8 = 256 := by norm_num
  rw [h8] at hm hd
  omega

theorem crc16_shift_iterate_low_zero (x : Nat) (h : x % 256 = 0) :
    crc16_shift^[8] x = x / 256 := by
  have e1 := crc16_shift_even x (by omega)
  have e2 := crc16_shift_even (x / 2) (by omega)
  have e3 := crc16_shift_even (x / 2 / 2) (by omega)
  have e4 := crc16_shift_even (x / 2 / 2 / 2) (by omega)
  have e5 := crc16_shift_even (x / 2 / 2 / 2 / 2) (by omega)
  have e6 := crc16_shift_even (x / 2 / 2 / 2 / 2 / 2) (by omega)
  have e7 := crc16_shift_even (x / 2 / 2 / 2 / 2 / 2 / 2) (by omega)
  have e8 := crc16_shift_even (x / 2 / 2 / 2 / 2 / 2 / 2 / 2) (by omega)
  simp only [Function.iterate_succ_apply, Function.iterate_zero, id_eq, e1, e2, e3, e4, e5, e6,
    e7, e8]
  omega

theorem crc16_residue (c : Nat) (h : c < 65536) :
    crc16_update (crc16_update c (u8 (c &&& 0xFF))) (u8 (c >>> 8)) = 0 := by
  have h1 : u8 (c &&& 0xFF) = c % 256 := by rw [and_FF]; unfold u8; omega
  have h2 : u8 (c >>> 8) = c / 256 := by
    rw [Nat.shiftRight_eq_div_pow]
    have : (2 : Nat) ^ 8 = 256 := by norm_num
    rw [this]; unfold u8; omega
  rw [h1, h2]
  have h3 : crc16_update c (c % 256) = c / 256 := by
    unfold crc16_update
    rw [xor_low_byte, crc16_shift_iterate_low_zero _ (by omega)]
    omega
  rw [h3]
  unfold crc16_update
  rw [Nat.xor_self]
  decide

/-- C35: CRC residue. For every byte sequence p that `calculate_crc` can be
handed together with its two CRC bytes (length + 2 below 2^16, the range of the
`uint16_t` length parameter), with c the CRC of p, the CRC of p followed by c &
0xFF and c >> 8 is 0; and the CRC of the empty sequence is 0xFFFF. -/
theorem C35_crc_residue (p : List Nat) (h : p.length + 2 < 65536) :
    calculate_crc (p ++ [calculate_crc p p.length &&& 0xFF, calculate_crc p p.length >>> 8])
      (p.length + 2) = 0 ∧
    calculate_crc [] 0 = 0xFFFF := by
  refine ⟨?_, by decide⟩
  rw [calculate_crc_append_two p _ _ h]
  exact crc16_residue _ (calculate_crc_lt p p.length)

/-- C35 witness: the request 01 03 00 00 00 01 with its CRC bytes has CRC 0. -/
theorem C35_crc_residue_witness :
    calculate_crc ([1, 3, 0, 0, 0, 1] ++
      [calculate_crc [1, 3, 0, 0, 0, 1] [1, 3, 0, 0, 0, 1].length &&& 0xFF,
        calculate_crc [1, 3, 0, 0, 0, 1] [1, 3, 0, 0, 0, 1].length >>> 8])
      ([1, 3, 0, 0, 0, 1].length + 2) = 0 :=
  (C35_crc_residue [1, 3, 0, 0, 0, 1] (by simp)).1

/-! ## Lemmas on the telemetry handler -/

theorem Telemetry_Process_idle (s : Telemetry_Ctx) (h : s.uart.data_ready = false) :
    Telemetry_Process s = s := by
  unfold Telemetry_Process HAL_UART_IsDataReady
  rw [if_pos (by simp [h])]

theorem Telemetry_Process_short (s : Telemetry_Ctx) (h : s.uart.data_ready = true)
    (hi : s.uart.rx_index < 8) :
    Telemetry_Process s = Telemetry_retrieve s := by
  unfold Telemetry_Process HAL_UART_IsDataReady
  rw [if_neg (by simp [h]), HAL_UART_GetData_ready s.uart s.rx_data h]
  rw [if_pos (by show u16 s.uart.rx_index < 8; unfold u16; omega)]

theorem Telemetry_Process_ready (s : Telemetry_Ctx) (hsz : Telemetry_sized s)
    (hr : Telemetry_frame_ready s) :
    Telemetry_Process s = Telemetry_dispatch (Telemetry_retrieve s) := by
  obtain ⟨-, -, -, h4⟩ := hsz
  obtain ⟨h, hi⟩ := hr
  simp only [UART_RX_BUFFER_SIZE] at h4
  unfold Telemetry_Process HAL_UART_IsDataReady
  rw [if_neg (by simp [h]), HAL_UART_GetData_ready s.uart s.rx_data h]
  rw [if_neg (by show ¬ u16 s.uart.rx_index < 8; unfold u16; omega)]

theorem Telemetry_retrieve_fields (s : Telemetry_Ctx) :
    (Telemetry_retrieve s).valve = s.valve ∧
    (Telemetry_retrieve s).motor = s.motor ∧
    (Telemetry_retrieve s).mppt = s.mppt ∧
    (Telemetry_retrieve s).tx_data = s.tx_data ∧
    (Telemetry_retrieve s).uart.tx_line = s.uart.tx_line := by
  unfold Telemetry_retrieve
  refine ⟨rfl, rfl, rfl, rfl, ?_⟩
  cases hd : s.uart.data_ready
  · rw [HAL_UART_GetData_idle s.uart s.rx_data hd]
  · rw [HAL_UART_GetData_ready s.uart s.rx_data hd]

theorem Telemetry_retrieve_frame (s : Telemetry_Ctx) (hsz : Telemetry_sized s)
    (hr : Telemetry_frame_ready s) (j : Nat) (hj : j < 8) :
    rd (Telemetry_retrieve s).rx_data j = rd s.uart.rx_buffer j := by
  obtain ⟨h1, -, -, h4⟩ := hsz
  obtain ⟨h, hi⟩ := hr
  simp only [UART_RX_BUFFER_SIZE] at h4
  unfold Telemetry_retrieve
  rw [HAL_UART_GetData_ready s.uart s.rx_data h]
  exact rd_HAL_UART_copy _ _ _ j (by omega) (by omega)

theorem Telemetry_retrieve_values (s : Telemetry_Ctx) (hsz : Telemetry_sized s)
    (hr : Telemetry_frame_ready s) :
    calculate_crc (Telemetry_retrieve s).rx_data 6 = calculate_crc s.uart.rx_buffer 6 ∧
    Telemetry_received_crc (Telemetry_retrieve s).rx_data =
      Telemetry_received_crc s.uart.rx_buffer ∧
    Telemetry_reg_addr (Telemetry_retrieve s).rx_data = Telemetry_reg_addr s.uart.rx_buffer ∧
    Telemetry_reg_data (Telemetry_retrieve s).rx_data = Telemetry_reg_data s.uart.rx_buffer ∧
    rd (Telemetry_retrieve s).rx_data 0 = rd s.uart.rx_buffer 0 ∧
    rd (Telemetry_retrieve s).rx_data 1 = rd s.uart.rx_buffer 1 ∧
    (List.range 8).map (rd (Telemetry_retrieve s).rx_data) =
      (List.range 8).map (rd s.uart.rx_buffer) := by
  have hf := Telemetry_retrieve_frame s hsz hr
  refine ⟨?_, ?_, ?_, ?_, hf 0 (by omega), hf 1 (by omega), ?_⟩
  · apply calculate_crc_congr
    intro j hj
    exact hf j (by rw [u16_of_lt 6 (by omega)] at hj; omega)
  · unfold Telemetry_received_crc
    rw [hf 7 (by omega), hf 6 (by omega)]
  · unfold Telemetry_reg_addr
    rw [hf 2 (by omega), hf 3 (by omega)]
  · unfold Telemetry_reg_data
    rw [hf 4 (by omega), hf 5 (by omega)]
  · apply List.map_congr_left
    intro j hj
    exact hf j (List.mem_range.mp hj)

theorem list_take_seven (l : List Nat) (h : 7 ≤ l.length) :
    ∃ a0 a1 a2 a3 a4 a5 a6 t, l = a0 :: a1 :: a2 :: a3 :: a4 :: a5 :: a6 :: t := by
  rcases l with _ | ⟨a0, _ | ⟨a1, _ | ⟨a2, _ | ⟨a3, _ | ⟨a4, _ | ⟨a5, _ | ⟨a6, t⟩⟩⟩⟩⟩⟩⟩
  all_goals first
    | exact ⟨_, _, _, _, _, _, _, _, rfl⟩
    | (simp at h)

theorem Telemetry_response_head_cons (v a0 a1 a2 a3 a4 a5 a6 : Nat) (t : List Nat) :
    Telemetry_response_head v (a0 :: a1 :: a2 :: a3 :: a4 :: a5 :: a6 :: t) =
      0x01 :: 0x03 :: 0x02 :: ((v >>> 8) &&& 0xFF) :: (v &&& 0xFF) :: a5 :: a6 :: t := by
  simp [Telemetry_response_head, List.set]

theorem calculate_crc_head (b0 b1 b2 b3 b4 : Nat) (t : List Nat) :
    calculate_crc (b0 :: b1 :: b2 :: b3 :: b4 :: t) 5 = calculate_crc [b0, b1, b2, b3, b4] 5 := by
  apply calculate_crc_congr
  intro j hj
  rw [u16_of_lt 5 (by omega)] at hj
  have : j = 0 ∨ j = 1 ∨ j = 2 ∨ j = 3 ∨ j = 4 := by omega
  rcases this with rfl | rfl | rfl | rfl | rfl <;> rfl

theorem rd_packet_bytes (x y c a5 a6 : Nat) (t : List Nat) :
    (List.range 7).map
      (rd (((1 :: 3 :: 2 :: (x &&& 0xFF) :: (y &&& 0xFF) :: a5 :: a6 :: t).set 5
        (c &&& 0xFF)).set 6 ((c >>> 8) &&& 0xFF))) =
    [1, 3, 2, x &&& 0xFF, y &&& 0xFF, c &&& 0xFF, (c >>> 8) &&& 0xFF] := by
  have hu : ∀ z : Nat, u8 (z &&& 0xFF) = z &&& 0xFF := by
    intro z; rw [and_FF]; unfold u8; omega
  simp only [List.set, List.range, List.range.loop, List.map, rd, List.getD_cons_zero,
    List.getD_cons_succ, hu]
  rfl

theorem Telemetry_response_bytes (v : Nat) (tx_data : List Nat) (h : 7 ≤ tx_data.length) :
    (List.range 7).map (rd (Telemetry_response_packet v tx_data)) =
      [0x01, 0x03, 0x02, (v >>> 8) &&& 0xFF, v &&& 0xFF,
        calculate_crc [0x01, 0x03, 0x02, (v >>> 8) &&& 0xFF, v &&& 0xFF] 5 &&& 0xFF,
        (calculate_crc [0x01, 0x03, 0x02, (v >>> 8) &&& 0xFF, v &&& 0xFF] 5 >>> 8) &&& 0xFF] := by
  obtain ⟨a0, a1, a2, a3, a4, a5, a6, t, rfl⟩ := list_take_seven tx_data h
  unfold Telemetry_response_packet
  rw [Telemetry_response_head_cons, calculate_crc_head]
  exact rd_packet_bytes (v >>> 8) v _ a5 a6 t

theorem Telemetry_dispatch_retrieve (s : Telemetry_Ctx) (hsz : Telemetry_sized s)
    (hr : Telemetry_frame_ready s) :
    Telemetry_Process s =
      if calculate_crc s.uart.rx_buffer 6 ≠ Telemetry_received_crc s.uart.rx_buffer then
        Telemetry_retrieve s
      else if rd s.uart.rx_buffer 0 ≠ DEVICE_ID then Telemetry_retrieve s
      else if rd s.uart.rx_buffer 1 = 0x03 then
        Telemetry_read (Telemetry_reg_addr s.uart.rx_buffer) (Telemetry_retrieve s)
      else if rd s.uart.rx_buffer 1 = 0x06 then
        Telemetry_write (Telemetry_reg_addr s.uart.rx_buffer)
          (Telemetry_reg_data s.uart.rx_buffer) (Telemetry_retrieve s)
      else Telemetry_retrieve s := by
  rw [Telemetry_Process_ready s hsz hr]
  obtain ⟨h1, h2, h3, h4, h5, h6, -⟩ := Telemetry_retrieve_values s hsz hr
  unfold Telemetry_dispatch
  rw [h1, h2, h3, h4, h5, h6]

theorem Telemetry_response_val_retrieve (s : Telemetry_Ctx) (reg_addr : Nat) :
    Telemetry_response_val (Telemetry_retrieve s) reg_addr =
      Telemetry_response_val s reg_addr := by
  obtain ⟨h1, h2, h3, -, -⟩ := Telemetry_retrieve_fields s
  unfold Telemetry_response_val
  rw [h1, h2, h3]

theorem Telemetry_read_fields (reg_addr : Nat) (s : Telemetry_Ctx) (hsz : Telemetry_sized s) :
    (Telemetry_read reg_addr (Telemetry_retrieve s)).uart.tx_line =
      s.uart.tx_line ++
        [0x01, 0x03, 0x02, (Telemetry_response_val s reg_addr >>> 8) &&& 0xFF,
          Telemetry_response_val s reg_addr &&& 0xFF,
          calculate_crc [0x01, 0x03, 0x02, (Telemetry_response_val s reg_addr >>> 8) &&& 0xFF,
            Telemetry_response_val s reg_addr &&& 0xFF] 5 &&& 0xFF,
          (calculate_crc [0x01, 0x03, 0x02, (Telemetry_response_val s reg_addr >>> 8) &&& 0xFF,
            Telemetry_response_val s reg_addr &&& 0xFF] 5 >>> 8) &&& 0xFF] ∧
    (Telemetry_read reg_addr (Telemetry_retrieve s)).valve = s.valve ∧
    (Telemetry_read reg_addr (Telemetry_retrieve s)).motor = s.motor ∧
    (Telemetry_read reg_addr (Telemetry_retrieve s)).mppt = s.mppt := by
  obtain ⟨h1, h2, h3, h4, h5⟩ := Telemetry_retrieve_fields s
  refine ⟨?_, h1, h2, h3⟩
  unfold Telemetry_read HAL_UART_TxBuffer
  show (Telemetry_retrieve s).uart.tx_line ++ (List.range (u16 7)).map _ = _
  rw [h5, h4, Telemetry_response_val_retrieve, u16_of_lt 7 (by omega),
    Telemetry_response_bytes _ _ (by rw [hsz.2.1]; omega)]

theorem Telemetry_write_fields (reg_data : Nat) (s : Telemetry_Ctx)
    (hsz : Telemetry_sized s) (hr : Telemetry_frame_ready s) :
    (Telemetry_write REG_COMMAND_VALVE reg_data (Telemetry_retrieve s)).uart.tx_line =
      s.uart.tx_line ++ (List.range 8).map (rd s.uart.rx_buffer) ∧
    (Telemetry_write REG_COMMAND_VALVE reg_data (Telemetry_retrieve s)).valve =
      (if reg_data = 1 then Valve_Open s.valve else Valve_Close s.valve) ∧
    (Telemetry_write REG_COMMAND_VALVE reg_data (Telemetry_retrieve s)).motor = s.motor ∧
    (Telemetry_write REG_COMMAND_VALVE reg_data (Telemetry_retrieve s)).mppt = s.mppt := by
  obtain ⟨h1, h2, h3, -, h5⟩ := Telemetry_retrieve_fields s
  obtain ⟨-, -, -, -, -, -, h7⟩ := Telemetry_retrieve_values s hsz hr
  unfold Telemetry_write
  rw [if_pos rfl]
  refine ⟨?_, ?_, h2, h3⟩
  · unfold HAL_UART_TxBuffer
    show (Telemetry_retrieve s).uart.tx_line ++ (List.range (u16 8)).map _ = _
    rw [h5, u16_of_lt 8 (by omega), h7]
  · show (if reg_data = 1 then Valve_Open (Telemetry_retrieve s).valve
      else Valve_Close (Telemetry_retrieve s).valve) = _
    rw [h1]

theorem Telemetry_write_other (reg_addr reg_data : Nat) (s : Telemetry_Ctx)
    (h : reg_addr ≠ REG_COMMAND_VALVE) : Telemetry_write reg_addr reg_data s = s := by
  unfold Telemetry_write
  rw [if_neg h]

/-- C5: for a buffered frame with matching CRC, device id 0x01 and function
0x03, `Telemetry_Process` transmits exactly the 7 bytes 01 03 02 vHi vLo crcLo
crcHi, where crc is `calculate_crc` of the first five and v is the value of the
addressed register: the valve state code for address 1, the battery voltage for
2, the PV voltage for 3, the battery current for 4, the encoder count modulo
2^16 for 5, and 0xFFFF for every other address; valve controller, motor driver
and charge controller are unchanged. -/
theorem C5_read_response (s : Telemetry_Ctx) (hsz : Telemetry_sized s)
    (hr : Telemetry_frame_ready s)
    (hcrc : calculate_crc s.uart.rx_buffer 6 = Telemetry_received_crc s.uart.rx_buffer)
    (hid : rd s.uart.rx_buffer 0 = 0x01) (hfn : rd s.uart.rx_buffer 1 = 0x03) :
    (Telemetry_Process s).uart.tx_line =
      s.uart.tx_line ++
        [0x01, 0x03, 0x02,
          (Telemetry_response_val s (Telemetry_reg_addr s.uart.rx_buffer) >>> 8) &&& 0xFF,
          Telemetry_response_val s (Telemetry_reg_addr s.uart.rx_buffer) &&& 0xFF,
          calculate_crc [0x01, 0x03, 0x02,
            (Telemetry_response_val s (Telemetry_reg_addr s.uart.rx_buffer) >>> 8) &&& 0xFF,
            Telemetry_response_val s (Telemetry_reg_addr s.uart.rx_buffer) &&& 0xFF] 5 &&& 0xFF,
          (calculate_crc [0x01, 0x03, 0x02,
            (Telemetry_response_val s (Telemetry_reg_addr s.uart.rx_buffer) >>> 8) &&& 0xFF,
            Telemetry_response_val s (Telemetry_reg_addr s.uart.rx_buffer) &&& 0xFF] 5 >>> 8)
            &&& 0xFF] ∧
    (Telemetry_Process s).valve = s.valve ∧
    (Telemetry_Process s).motor = s.motor ∧
    (Telemetry_Process s).mppt = s.mppt ∧
    Telemetry_response_val s 0x0001 = s.valve.state.toNat ∧
    Telemetry_response_val s 0x0002 = u16 s.mppt.mppt_status.battery_voltage_mv ∧
    Telemetry_response_val s 0x0003 = u16 s.mppt.mppt_status.pv_voltage_mv ∧
    Telemetry_response_val s 0x0004 = u16 s.mppt.mppt_status.battery_current_ma ∧
    Telemetry_response_val s 0x0005 = s.motor.encoder_counter % 65536 ∧
    (∀ a, a ≠ 1 → a ≠ 2 → a ≠ 3 → a ≠ 4 → a ≠ 5 → Telemetry_response_val s a = 0xFFFF) ∧
    Telemetry_response_val s 0x0099 = 0xFFFF ∧
    Telemetry_response_val s 0x0010 = 0xFFFF := by
  have hp : Telemetry_Process s =
      Telemetry_read (Telemetry_reg_addr s.uart.rx_buffer) (Telemetry_retrieve s) := by
    rw [Telemetry_dispatch_retrieve s hsz hr, if_neg (by simp [hcrc]),
      if_neg (by simp [hid]), if_pos hfn]
  obtain ⟨g1, g2, g3, g4⟩ := Telemetry_read_fields (Telemetry_reg_addr s.uart.rx_buffer) s hsz
  rw [hp]
  have hother : ∀ a, a ≠ 1 → a ≠ 2 → a ≠ 3 → a ≠ 4 → a ≠ 5 →
      Telemetry_response_val s a = 0xFFFF := by
    intro a h1 h2 h3 h4 h5
    unfold Telemetry_response_val
    simp only [REG_VALVE_STATE, REG_BATT_VOLTAGE, REG_PV_VOLTAGE, REG_MOTOR_CURRENT,
      REG_ENCODER_COUNT]
    rw [if_neg h1, if_neg h2, if_neg h3, if_neg h4, if_neg h5]
  refine ⟨g1, g2, g3, g4, ?_, rfl, rfl, rfl, rfl, hother,
    hother _ (by decide) (by decide) (by decide) (by decide) (by decide),
    hother _ (by decide) (by decide) (by decide) (by decide) (by decide)⟩
  show u16 (Valve_GetState s.valve).toNat = _
  unfold Valve_GetState u16
  cases s.valve.state <;> rfl

set_option maxRecDepth 100000 in
/-- C5 witness: the read request 01 03 00 01 00 01 D5 CA for the valve state,
received after power-up, is answered with 01 03 02 00 00 B8 44. -/
theorem C5_read_response_witness :
    (Telemetry_Process (Telemetry_with_frame [1, 3, 0, 1, 0, 1, 213, 202] Valve_boot)).uart.tx_line =
      [1, 3, 2, 0, 0, 184, 68] :=
  (C5_read_response (Telemetry_with_frame [1, 3, 0, 1, 0, 1, 213, 202] Valve_boot)
    (by decide) (by decide) (by decide) (by decide) (by decide)).1.trans (by decide)

/-- C6: for a buffered frame with matching CRC, device id 0x01, function 0x06
and address 0x0010, `Telemetry_Process` leaves the valve controller as
`Valve_Open` does when the data value is 1 and as `Valve_Close` does for every
other data value, and transmits exactly the 8 bytes of the request. -/
theorem C6_write_command (s : Telemetry_Ctx) (hsz : Telemetry_sized s)
    (hr : Telemetry_frame_ready s)
    (hcrc : calculate_crc s.uart.rx_buffer 6 = Telemetry_received_crc s.uart.rx_buffer)
    (hid : rd s.uart.rx_buffer 0 = 0x01) (hfn : rd s.uart.rx_buffer 1 = 0x06)
    (haddr : Telemetry_reg_addr s.uart.rx_buffer = 0x0010) :
    (Telemetry_reg_data s.uart.rx_buffer = 1 →
      (Telemetry_Process s).valve = Valve_Open s.valve) ∧
    (Telemetry_reg_data s.uart.rx_buffer ≠ 1 →
      (Telemetry_Process s).valve = Valve_Close s.valve) ∧
    (Telemetry_Process s).uart.tx_line =
      s.uart.tx_line ++ (List.range 8).map (rd s.uart.rx_buffer) ∧
    (Telemetry_Process s).motor = s.motor ∧
    (Telemetry_Process s).mppt = s.mppt := by
  have hp : Telemetry_Process s =
      Telemetry_write REG_COMMAND_VALVE (Telemetry_reg_data s.uart.rx_buffer)
        (Telemetry_retrieve s) := by
    rw [Telemetry_dispatch_retrieve s hsz hr, if_neg (by simp [hcrc]),
      if_neg (by simp [hid]), if_neg (by rw [hfn]; decide), if_pos hfn, haddr]
    rfl
  obtain ⟨g1, g2, g3, g4⟩ :=
    Telemetry_write_fields (Telemetry_reg_data s.uart.rx_buffer) s hsz hr
  rw [hp]
  refine ⟨fun h => ?_, fun h => ?_, g1, g3, g4⟩
  · rw [g2, if_pos h]
  · rw [g2, if_neg h]

set_option maxRecDepth 100000 in
/-- C6 witness: the write request 01 06 00 10 00 01 49 CF, received after
power-up with the valve closed and idle, starts the opening sequence. -/
theorem C6_write_command_witness :
    (Telemetry_Process (Telemetry_with_frame [1, 6, 0, 16, 0, 1, 73, 207] Valve_boot)).valve =
      Valve_Open Valve_boot :=
  (C6_write_command (Telemetry_with_frame [1, 6, 0, 16, 0, 1, 73, 207] Valve_boot)
    (by decide) (by decide) (by decide) (by decide) (by decide) (by decide)).1 (by decide)

/-- C40: a frame with matching CRC, device id 0x01, function 0x06 and address
0x0010 that arrives while the valve is pre-opening, opening, pre-closing,
closing or in fault is answered with the 8 bytes of the request, and the valve
controller (state, phase timer, commanded speed) is unchanged. -/
theorem C40_ack_when_rejected (s : Telemetry_Ctx) (hsz : Telemetry_sized s)
    (hr : Telemetry_frame_ready s)
    (hcrc : calculate_crc s.uart.rx_buffer 6 = Telemetry_received_crc s.uart.rx_buffer)
    (hid : rd s.uart.rx_buffer 0 = 0x01) (hfn : rd s.uart.rx_buffer 1 = 0x06)
    (haddr : Telemetry_reg_addr s.uart.rx_buffer = 0x0010)
    (hbusy : s.valve.state = VALVE_PRE_OPENING ∨ s.valve.state = VALVE_OPENING ∨
      s.valve.state = VALVE_PRE_CLOSING ∨ s.valve.state = VALVE_CLOSING ∨
      s.valve.state = VALVE_FAULT) :
    (Telemetry_Process s).uart.tx_line =
      s.uart.tx_line ++ (List.range 8).map (rd s.uart.rx_buffer) ∧
    (Telemetry_Process s).valve = s.valve ∧
    (Telemetry_Process s).valve.state = s.valve.state ∧
    (Telemetry_Process s).valve.process_timer = s.valve.process_timer ∧
    (Telemetry_Process s).valve.current_speed = s.valve.current_speed := by
  have hp : Telemetry_Process s =
      Telemetry_write REG_COMMAND_VALVE (Telemetry_reg_data s.uart.rx_buffer)
        (Telemetry_retrieve s) := by
    rw [Telemetry_dispatch_retrieve s hsz hr, if_neg (by simp [hcrc]),
      if_neg (by simp [hid]), if_neg (by rw [hfn]; decide), if_pos hfn, haddr]
    rfl
  obtain ⟨g1, g2, -, -⟩ :=
    Telemetry_write_fields (Telemetry_reg_data s.uart.rx_buffer) s hsz hr
  have hidle : ¬ (s.valve.state = VALVE_IDLE_CLOSED ∨ s.valve.state = VALVE_IDLE_OPEN) := by
    rcases hbusy with h | h | h | h | h <;> rw [h] <;> decide
  have hv : (Telemetry_Process s).valve = s.valve := by
    rw [hp, g2]
    unfold Valve_Open Valve_Close
    rw [if_neg hidle, if_neg hidle, ite_self]
  rw [hv]
  rw [hp]
  exact ⟨g1, rfl, rfl, rfl, rfl⟩

set_option maxRecDepth 100000 in
/-- C40 witness: the write request 01 06 00 10 00 01 49 CF that arrives while
the valve is opening is echoed. -/
theorem C40_ack_when_rejected_witness :
    (Telemetry_Process (Telemetry_with_frame [1, 6, 0, 16, 0, 1, 73, 207]
      { state := VALVE_OPENING, process_timer := 100, last_encoder_val := 0,
        current_speed := 30 })).uart.tx_line = [1, 6, 0, 16, 0, 1, 73, 207] :=
  (C40_ack_when_rejected (Telemetry_with_frame [1, 6, 0, 16, 0, 1, 73, 207]
      { state := VALVE_OPENING, process_timer := 100, last_encoder_val := 0,
        current_speed := 30 })
    (by decide) (by decide) (by decide) (by decide) (by decide) (by decide)
    (by decide)).1.trans (by decide)

theorem Telemetry_retrieve_quiet (s : Telemetry_Ctx) :
    (Telemetry_retrieve s).uart.tx_line = s.uart.tx_line ∧
    (Telemetry_retrieve s).valve = s.valve :=
  ⟨(Telemetry_retrieve_fields s).2.2.2.2, (Telemetry_retrieve_fields s).1⟩

/-- Whenever `Telemetry_Process` transmits or changes the valve controller, a
complete frame was buffered whose CRC and device id match and which is a read or
a write to the command register. -/
theorem Telemetry_Process_acts (s : Telemetry_Ctx) (hsz : Telemetry_sized s)
    (h : (Telemetry_Process s).uart.tx_line ≠ s.uart.tx_line ∨
      (Telemetry_Process s).valve ≠ s.valve) :
    Telemetry_frame_ready s ∧
    calculate_crc s.uart.rx_buffer 6 = Telemetry_received_crc s.uart.rx_buffer ∧
    rd s.uart.rx_buffer 0 = DEVICE_ID ∧
    (rd s.uart.rx_buffer 1 = 0x03 ∨
      (rd s.uart.rx_buffer 1 = 0x06 ∧
        Telemetry_reg_addr s.uart.rx_buffer = REG_COMMAND_VALVE)) := by
  obtain ⟨q1, q2⟩ := Telemetry_retrieve_quiet s
  have hquiet : Telemetry_Process s = Telemetry_retrieve s → False := by
    intro he
    rw [he, q1, q2] at h
    rcases h with h | h <;> exact h rfl
  by_cases hd : s.uart.data_ready = true
  · by_cases hi : 8 ≤ s.uart.rx_index
    · have hr : Telemetry_frame_ready s := ⟨hd, hi⟩
      have hp := Telemetry_dispatch_retrieve s hsz hr
      refine ⟨hr, ?_⟩
      by_cases hcrc : calculate_crc s.uart.rx_buffer 6 = Telemetry_received_crc s.uart.rx_buffer
      · refine ⟨hcrc, ?_⟩
        rw [if_neg (not_not.mpr hcrc)] at hp
        by_cases hid : rd s.uart.rx_buffer 0 = DEVICE_ID
        · refine ⟨hid, ?_⟩
          rw [if_neg (not_not.mpr hid)] at hp
          by_cases h3 : rd s.uart.rx_buffer 1 = 0x03
          · exact Or.inl h3
          · rw [if_neg h3] at hp
            by_cases h6 : rd s.uart.rx_buffer 1 = 0x06
            · rw [if_pos h6] at hp
              by_cases ha : Telemetry_reg_addr s.uart.rx_buffer = REG_COMMAND_VALVE
              · exact Or.inr ⟨h6, ha⟩
              · rw [Telemetry_write_other _ _ _ ha] at hp
                exact (hquiet hp).elim
            · rw [if_neg h6] at hp
              exact (hquiet hp).elim
        · rw [if_pos hid] at hp
          exact (hquiet hp).elim
      · rw [if_pos hcrc] at hp
        exact (hquiet hp).elim
    · exact (hquiet (Telemetry_Process_short s hd (by omega))).elim
  · have hp := Telemetry_Process_idle s (by simpa using hd)
    rw [hp] at h
    rcases h with h | h <;> exact (h rfl).elim

/-- C4: `Telemetry_Process` transmits or changes the valve controller only if a
complete frame is buffered whose CRC16 over bytes 0..5 equals bytes 6..7 read
low byte first, whose byte 0 is DEVICE_ID, and which is function 0x03, or
function 0x06 addressed to register 0x0010; in every other case the transmitted
bytes and the valve controller are unchanged. -/
theorem C4_acts_only_on_valid_frame (s : Telemetry_Ctx) (hsz : Telemetry_sized s) :
    (((Telemetry_Process s).uart.tx_line ≠ s.uart.tx_line ∨
        (Telemetry_Process s).valve ≠ s.valve) →
      Telemetry_frame_ready s ∧
      calculate_crc s.uart.rx_buffer 6 = Telemetry_received_crc s.uart.rx_buffer ∧
      rd s.uart.rx_buffer 0 = 0x01 ∧
      (rd s.uart.rx_buffer 1 = 0x03 ∨
        (rd s.uart.rx_buffer 1 = 0x06 ∧ Telemetry_reg_addr s.uart.rx_buffer = 0x0010))) ∧
    ((¬ Telemetry_frame_ready s ∨
        calculate_crc s.uart.rx_buffer 6 ≠ Telemetry_received_crc s.uart.rx_buffer ∨
        rd s.uart.rx_buffer 0 ≠ 0x01 ∨
        (rd s.uart.rx_buffer 1 ≠ 0x03 ∧ rd s.uart.rx_buffer 1 ≠ 0x06) ∨
        (rd s.uart.rx_buffer 1 = 0x06 ∧ Telemetry_reg_addr s.uart.rx_buffer ≠ 0x0010)) →
      (Telemetry_Process s).uart.tx_line = s.uart.tx_line ∧
      (Telemetry_Process s).valve = s.valve) := by
  refine ⟨Telemetry_Process_acts s hsz, fun hbad => ?_⟩
  by_contra hc
  have hact : (Telemetry_Process s).uart.tx_line ≠ s.uart.tx_line ∨
      (Telemetry_Process s).valve ≠ s.valve := by
    by_contra hn
    push_neg at hn
    exact hc hn
  obtain ⟨a1, a2, a3, a4⟩ := Telemetry_Process_acts s hsz hact
  rcases hbad with h | h | h | h | h
  · exact h a1
  · exact h a2
  · exact h a3
  · rcases a4 with a | a
    · exact h.1 a
    · exact h.2 a.1
  · rcases a4 with a | a
    · rw [h.1] at a; exact absurd a (by decide)
    · exact h.2 a.2

set_option maxRecDepth 100000 in
/-- C4 witness: the frame 01 03 00 01 00 01 D5 CB, whose last CRC byte is
wrong, is neither answered nor acted upon. -/
theorem C4_acts_only_on_valid_frame_witness :
    (Telemetry_Process (Telemetry_with_frame [1, 3, 0, 1, 0, 1, 213, 203] Valve_boot)).uart.tx_line =
        (Telemetry_with_frame [1, 3, 0, 1, 0, 1, 213, 203] Valve_boot).uart.tx_line ∧
    (Telemetry_Process (Telemetry_with_frame [1, 3, 0, 1, 0, 1, 213, 203] Valve_boot)).valve =
        (Telemetry_with_frame [1, 3, 0, 1, 0, 1, 213, 203] Valve_boot).valve :=
  (C4_acts_only_on_valid_frame (Telemetry_with_frame [1, 3, 0, 1, 0, 1, 213, 203] Valve_boot)
    (by decide)).2 (Or.inr (Or.inl (by decide)))

theorem crc16_frame_change (b b' : Nat → Nat) (i : Nat) (hi : i < 6)
    (hb : ∀ j, b j < 256) (hb' : ∀ j, b' j < 256) (hsame : ∀ j, j ≠ i → b' j = b j)
    (hne : b' i ≠ b i) :
    ((List.range 6).map b').foldl crc16_update 0xFFFF ≠
      ((List.range 6).map b).foldl crc16_update 0xFFFF := by
  have hcases : i = 0 ∨ i = 1 ∨ i = 2 ∨ i = 3 ∨ i = 4 ∨ i = 5 := by omega
  rcases hcases with rfl | rfl | rfl | rfl | rfl | rfl
  · show ([b' 0, b' 1, b' 2, b' 3, b' 4, b' 5]).foldl crc16_update 0xFFFF ≠
      ([b 0, b 1, b 2, b 3, b 4, b 5]).foldl crc16_update 0xFFFF
    rw [hsame 1 (by decide), hsame 2 (by decide), hsame 3 (by decide), hsame 4 (by decide), hsame 5 (by decide)]
    exact crc16_foldl_byte_change [] [b 1, b 2, b 3, b 4, b 5] (b' 0) (b 0) 0xFFFF (by norm_num)
      (by simp [hb]) (by simp [hb]) (hb' 0) (hb 0) hne
  · show ([b' 0, b' 1, b' 2, b' 3, b' 4, b' 5]).foldl crc16_update 0xFFFF ≠
      ([b 0, b 1, b 2, b 3, b 4, b 5]).foldl crc16_update 0xFFFF
    rw [hsame 0 (by decide), hsame 2 (by decide), hsame 3 (by decide), hsame 4 (by decide), hsame 5 (by decide)]
    exact crc16_foldl_byte_change [b 0] [b 2, b 3, b 4, b 5] (b' 1) (b 1) 0xFFFF (by norm_num)
      (by simp [hb]) (by simp [hb]) (hb' 1) (hb 1) hne
  · show ([b' 0, b' 1, b' 2, b' 3, b' 4, b' 5]).foldl crc16_update 0xFFFF ≠
      ([b 0, b 1, b 2, b 3, b 4, b 5]).foldl crc16_update 0xFFFF
    rw [hsame 0 (by decide), hsame 1 (by decide), hsame 3 (by decide), hsame 4 (by decide), hsame 5 (by decide)]
    exact crc16_foldl_byte_change [b 0, b 1] [b 3, b 4, b 5] (b' 2) (b 2) 0xFFFF (by norm_num)
      (by simp [hb]) (by simp [hb]) (hb' 2) (hb 2) hne
  · show ([b' 0, b' 1, b' 2, b' 3, b' 4, b' 5]).foldl crc16_update 0xFFFF ≠
      ([b 0, b 1, b 2, b 3, b 4, b 5]).foldl crc16_update 0xFFFF
    rw [hsame 0 (by decide), hsame 1 (by decide), hsame 2 (by decide), hsame 4 (by decide), hsame 5 (by decide)]
    exact crc16_foldl_byte_change [b 0, b 1, b 2] [b 4, b 5] (b' 3) (b 3) 0xFFFF (by norm_num)
      (by simp [hb]) (by simp [hb]) (hb' 3) (hb 3) hne
  · show ([b' 0, b' 1, b' 2, b' 3, b' 4, b' 5]).foldl crc16_update 0xFFFF ≠
      ([b 0, b 1, b 2, b 3, b 4, b 5]).foldl crc16_update 0xFFFF
    rw [hsame 0 (by decide), hsame 1 (by decide), hsame 2 (by decide), hsame 3 (by decide), hsame 5 (by decide)]
    exact crc16_foldl_byte_change [b 0, b 1, b 2, b 3] [b 5] (b' 4) (b 4) 0xFFFF (by norm_num)
      (by simp [hb]) (by simp [hb]) (hb' 4) (hb 4) hne
  · show ([b' 0, b' 1, b' 2, b' 3, b' 4, b' 5]).foldl crc16_update 0xFFFF ≠
      ([b 0, b 1, b 2, b 3, b 4, b 5]).foldl crc16_update 0xFFFF
    rw [hsame 0 (by decide), hsame 1 (by decide), hsame 2 (by decide), hsame 3 (by decide), hsame 4 (by decide)]
    exact crc16_foldl_byte_change [b 0, b 1, b 2, b 3, b 4] [] (b' 5) (b 5) 0xFFFF (by norm_num)
      (by simp [hb]) (by simp [hb]) (hb' 5) (hb 5) hne

theorem flip_bit_lt (a k : Nat) (ha : a < 256) (hk : k < 8) : a ^^^ (1 <<< k) < 256 := by
  rw [Nat.one_shiftLeft]
  have h2 : 2 ^ k < 2 ^ 8 := Nat.pow_lt_pow_right (by norm_num) hk
  exact Nat.xor_lt_two_pow (n := 8) ha h2

theorem flip_bit_ne (a k : Nat) : a ^^^ (1 <<< k) ≠ a := by
  intro h
  have h1 : a ^^^ (a ^^^ (1 <<< k)) = a ^^^ a := by rw [h]
  rw [Nat.xor_cancel_left, Nat.xor_self, Nat.one_shiftLeft] at h1
  exact absurd h1 (by positivity)

theorem Telemetry_flip_bit_crc (s : Telemetry_Ctx) (hsz : Telemetry_sized s) (i k : Nat)
    (hi : i < 6) (hk : k < 8) :
    calculate_crc (Telemetry_flip_bit i k s).uart.rx_buffer 6 ≠
      calculate_crc s.uart.rx_buffer 6 ∧
    Telemetry_received_crc (Telemetry_flip_bit i k s).uart.rx_buffer =
      Telemetry_received_crc s.uart.rx_buffer := by
  have hlen : i < s.uart.rx_buffer.length := by rw [hsz.2.2.1]; simp; omega
  have hx := flip_bit_lt (rd s.uart.rx_buffer i) k (rd_lt _ _) hk
  constructor
  · rw [calculate_crc_eq_foldl, calculate_crc_eq_foldl, u16_of_lt 6 (by omega)]
    refine crc16_frame_change _ _ i hi (rd_lt _) (rd_lt _) ?_ ?_
    · intro j hj
      exact rd_set_ne _ i j _ (fun h => hj h.symm)
    · show rd (s.uart.rx_buffer.set i (rd s.uart.rx_buffer i ^^^ (1 <<< k))) i ≠ _
      rw [rd_set_self _ _ _ hlen]
      have : u8 (rd s.uart.rx_buffer i ^^^ (1 <<< k)) = rd s.uart.rx_buffer i ^^^ (1 <<< k) := by
        unfold u8; omega
      rw [this]
      exact flip_bit_ne _ _
  · show Telemetry_received_crc (s.uart.rx_buffer.set i _) = _
    unfold Telemetry_received_crc
    rw [rd_set_ne _ i 7 _ (by omega), rd_set_ne _ i 6 _ (by omega)]

theorem rd_pair (a b : Nat) : rd [a, b] 0 = u8 a ∧ rd [a, b] 1 = u8 b := ⟨rfl, rfl⟩

theorem rd_tail_of_seven (b0 b1 b2 b3 b4 b5 b6 : Nat) :
    rd [b0, b1, b2, b3, b4, b5, b6] 5 = u8 b5 ∧ rd [b0, b1, b2, b3, b4, b5, b6] 6 = u8 b6 :=
  ⟨rfl, rfl⟩

theorem u8_and_FF (x : Nat) : u8 (x &&& 0xFF) = x &&& 0xFF := by
  rw [and_FF]; unfold u8; omega

/-- C2: the CRC16 validates itself. For every byte sequence p followed by the
low byte and then the high byte of c = `calculate_crc` p, the receiver's
recombination (hi << 8) | lo of the two appended bytes is c, and the CRC the
receiver computes over the first |p| bytes of the extended sequence is c too.
And whenever `Telemetry_Process` transmits 7 bytes, the last two bytes
recombined are the CRC of the first five. -/
theorem C2_crc_self_verifying (p : List Nat) :
    u16 ((rd (p ++ [calculate_crc p p.length &&& 0xFF,
              (calculate_crc p p.length >>> 8) &&& 0xFF]) (p.length + 1) <<< 8) |||
          rd (p ++ [calculate_crc p p.length &&& 0xFF,
              (calculate_crc p p.length >>> 8) &&& 0xFF]) p.length) =
      calculate_crc p p.length ∧
    calculate_crc (p ++ [calculate_crc p p.length &&& 0xFF,
        (calculate_crc p p.length >>> 8) &&& 0xFF]) p.length =
      calculate_crc p p.length ∧
    (∀ (s : Telemetry_Ctx) (r : List Nat), Telemetry_sized s →
      (Telemetry_Process s).uart.tx_line = s.uart.tx_line ++ r → r.length = 7 →
      u16 ((rd r 6 <<< 8) ||| rd r 5) = calculate_crc r 5) := by
  have hc := calculate_crc_lt p p.length
  refine ⟨?_, ?_, ?_⟩
  · have e1 := rd_append_right p [calculate_crc p p.length &&& 0xFF,
      (calculate_crc p p.length >>> 8) &&& 0xFF] 1
    have e0 := rd_append_right p [calculate_crc p p.length &&& 0xFF,
      (calculate_crc p p.length >>> 8) &&& 0xFF] 0
    rw [Nat.add_zero] at e0
    rw [e1, e0]
    rw [(rd_pair _ _).1, (rd_pair _ _).2, u8_and_FF, u8_and_FF]
    exact crc_low_high _ hc
  · apply calculate_crc_congr
    intro j hj
    exact rd_append_left p _ j (lt_of_lt_of_le hj (by unfold u16; exact Nat.mod_le _ _))
  · intro s r hsz hr hlen
    obtain ⟨q1, -⟩ := Telemetry_retrieve_quiet s
    have hquiet : Telemetry_Process s = Telemetry_retrieve s → False := by
      intro he
      rw [he, q1] at hr
      have : r = [] := by simpa using hr
      rw [this] at hlen
      exact absurd hlen (by decide)
    by_cases hd : s.uart.data_ready = true
    · by_cases hi : 8 ≤ s.uart.rx_index
      · have hrdy : Telemetry_frame_ready s := ⟨hd, hi⟩
        have hp := Telemetry_dispatch_retrieve s hsz hrdy
        by_cases hcrc : calculate_crc s.uart.rx_buffer 6 =
            Telemetry_received_crc s.uart.rx_buffer
        · rw [if_neg (not_not.mpr hcrc)] at hp
          by_cases hid : rd s.uart.rx_buffer 0 = DEVICE_ID
          · rw [if_neg (not_not.mpr hid)] at hp
            by_cases h3 : rd s.uart.rx_buffer 1 = 0x03
            · rw [if_pos h3] at hp
              obtain ⟨g1, -, -, -⟩ :=
                Telemetry_read_fields (Telemetry_reg_addr s.uart.rx_buffer) s hsz
              rw [hp, g1] at hr
              have hr2 := (List.append_cancel_left hr).symm
              rw [hr2]
              generalize Telemetry_response_val s (Telemetry_reg_addr s.uart.rx_buffer) = v
              have hc5 := calculate_crc_lt [0x01, 0x03, 0x02, (v >>> 8) &&& 0xFF, v &&& 0xFF] 5
              generalize hcdef :
                calculate_crc [0x01, 0x03, 0x02, (v >>> 8) &&& 0xFF, v &&& 0xFF] 5 = c at hc5 ⊢
              rw [calculate_crc_head, hcdef]
              rw [(rd_tail_of_seven _ _ _ _ _ _ _).1, (rd_tail_of_seven _ _ _ _ _ _ _).2,
                u8_and_FF, u8_and_FF]
              exact crc_low_high c hc5
            · rw [if_neg h3] at hp
              by_cases h6 : rd s.uart.rx_buffer 1 = 0x06
              · rw [if_pos h6] at hp
                by_cases ha : Telemetry_reg_addr s.uart.rx_buffer = REG_COMMAND_VALVE
                · rw [ha] at hp
                  obtain ⟨g1, -, -, -⟩ :=
                    Telemetry_write_fields (Telemetry_reg_data s.uart.rx_buffer) s hsz hrdy
                  rw [hp, g1] at hr
                  have hr2 := (List.append_cancel_left hr).symm
                  rw [hr2] at hlen
                  simp at hlen
                · rw [Telemetry_write_other _ _ _ ha] at hp
                  exact (hquiet hp).elim
              · rw [if_neg h6] at hp
                exact (hquiet hp).elim
          · rw [if_pos hid] at hp
            exact (hquiet hp).elim
        · rw [if_pos hcrc] at hp
          exact (hquiet hp).elim
      · exact (hquiet (Telemetry_Process_short s hd (by omega))).elim
    · have hp := Telemetry_Process_idle s (by simpa using hd)
      rw [hp] at hr
      have : r = [] := by simpa using hr
      rw [this] at hlen
      exact absurd hlen (by decide)

set_option maxRecDepth 100000 in
/-- C2 witness: the 7 bytes 01 03 02 00 00 B8 44 sent in answer to the read
request 01 03 00 01 00 01 D5 CA carry the CRC of their first five bytes. -/
theorem C2_crc_self_verifying_witness :
    u16 ((rd [1, 3, 2, 0, 0, 184, 68] 6 <<< 8) ||| rd [1, 3, 2, 0, 0, 184, 68] 5) =
      calculate_crc [1, 3, 2, 0, 0, 184, 68] 5 :=
  (C2_crc_self_verifying [1, 3, 2, 0, 0]).2.2
    (Telemetry_with_frame [1, 3, 0, 1, 0, 1, 213, 202] Valve_boot) [1, 3, 2, 0, 0, 184, 68]
    (by decide) (by decide) (by decide)

/-- C3: for every complete buffered frame that passes the CRC check of
`Telemetry_Process`, after flipping any one bit k of any one of the bytes 0..5
the CRC check fails, and `Telemetry_Process` then transmits nothing and leaves
the valve controller unchanged. -/
theorem C3_single_bit_flip (s : Telemetry_Ctx) (hsz : Telemetry_sized s)
    (hr : Telemetry_frame_ready s)
    (hcrc : calculate_crc s.uart.rx_buffer 6 = Telemetry_received_crc s.uart.rx_buffer)
    (i k : Nat) (hi : i < 6) (hk : k < 8) :
    calculate_crc (Telemetry_flip_bit i k s).uart.rx_buffer 6 ≠
      Telemetry_received_crc (Telemetry_flip_bit i k s).uart.rx_buffer ∧
    (Telemetry_Process (Telemetry_flip_bit i k s)).uart.tx_line = s.uart.tx_line ∧
    (Telemetry_Process (Telemetry_flip_bit i k s)).valve = s.valve := by
  obtain ⟨c1, c2⟩ := Telemetry_flip_bit_crc s hsz i k hi hk
  have hbad : calculate_crc (Telemetry_flip_bit i k s).uart.rx_buffer 6 ≠
      Telemetry_received_crc (Telemetry_flip_bit i k s).uart.rx_buffer := by
    rw [c2, ← hcrc]; exact c1
  have hsz2 : Telemetry_sized (Telemetry_flip_bit i k s) := by
    obtain ⟨a1, a2, a3, a4⟩ := hsz
    refine ⟨a1, a2, ?_, a4⟩
    show (s.uart.rx_buffer.set i _).length = _
    rw [List.length_set]; exact a3
  have hr2 : Telemetry_frame_ready (Telemetry_flip_bit i k s) := hr
  obtain ⟨q1, q2⟩ := Telemetry_retrieve_quiet (Telemetry_flip_bit i k s)
  rw [Telemetry_dispatch_retrieve _ hsz2 hr2, if_pos hbad, q1, q2]
  exact ⟨hbad, rfl, rfl⟩

set_option maxRecDepth 100000 in
/-- C3 witness: with bit 0 of byte 3 of the read request 01 03 00 01 00 01 D5 CA
flipped, nothing is transmitted. -/
theorem C3_single_bit_flip_witness :
    (Telemetry_Process (Telemetry_flip_bit 3 0
      (Telemetry_with_frame [1, 3, 0, 1, 0, 1, 213, 202] Valve_boot))).uart.tx_line =
      (Telemetry_with_frame [1, 3, 0, 1, 0, 1, 213, 202] Valve_boot).uart.tx_line :=
  (C3_single_bit_flip (Telemetry_with_frame [1, 3, 0, 1, 0, 1, 213, 202] Valve_boot)
    (by decide) (by decide) (by decide) 3 0 (by decide) (by decide)).2.1

theorem Calculate_Voltage_gap (x y : Nat) (hx : x ≤ 4095) (hy : y ≤ 4095) :
    Calculate_Voltage x VOLTAGE_RATIO_X10 ≠ Calculate_Voltage y VOLTAGE_RATIO_X10 + 1000 := by
  rw [(Calculate_Voltage_le x hx).2.2, (Calculate_Voltage_le y hy).2.2]
  intro h
  by_cases hc : x ≤ y + 87 <;> omega

theorem MPPT_Env_of_ADC_range (t t2 : Nat) (a : HAL_ADC)
    (ha : ∀ x ∈ a.adc_results, x ≤ 4095) :
    u16 (MPPT_Env_of_ADC t t2 a).pv_voltage_mv = HAL_ADC_GetPV_Voltage_mV a ∧
    u16 (MPPT_Env_of_ADC t t2 a).battery_voltage_mv = HAL_ADC_GetBatt_Voltage_mV a ∧
    HAL_ADC_GetPV_Voltage_mV a ≤ 46988 ∧
    HAL_ADC_GetBatt_Voltage_mV a ≤ 46988 ∧
    HAL_ADC_GetPV_Voltage_mV a ≠ HAL_ADC_GetBatt_Voltage_mV a + 1000 ∧
    ¬ (u16 (MPPT_Env_of_ADC t t2 a).pv_current_ma > 15000 ∧
        u16 (MPPT_Env_of_ADC t t2 a).pv_voltage_mv < 5000) := by
  have h0 := HAL_ADC_result_le a ha 0
  have h1 := HAL_ADC_result_le a ha 1
  have hp : HAL_ADC_GetPV_Voltage_mV a ≤ 46988 := (Calculate_Voltage_le _ h0).1
  have hb : HAL_ADC_GetBatt_Voltage_mV a ≤ 46988 := (Calculate_Voltage_le _ h1).1
  have hpi : u16 (MPPT_Env_of_ADC t t2 a).pv_current_ma ≤ 2499 := by
    have := Calculate_Current_le (HAL_ADC_result a 2) (HAL_ADC_result_le a ha 2)
    show u16 (Calculate_Current (HAL_ADC_result a 2) CURRENT_FACTOR_X10) ≤ 2499
    unfold u16; omega
  refine ⟨?_, ?_, hp, hb, Calculate_Voltage_gap _ _ h0 h1, fun h => by omega⟩
  · show u16 (HAL_ADC_GetPV_Voltage_mV a) = _
    exact u16_of_lt _ (by omega)
  · show u16 (HAL_ADC_GetBatt_Voltage_mV a) = _
    exact u16_of_lt _ (by omega)

theorem MPPT_Process_idle_fields (env : MPPT_Env) (c : MPPT_Ctx)
    (hexec : MPPT_interval_pending env c = false)
    (hs : c.mppt_status.state = MPPT_STATE_IDLE)
    (hov : u16 env.battery_voltage_mv ≤ 29300)
    (hsc : ¬ (u16 env.pv_current_ma > 15000 ∧ u16 env.pv_voltage_mv < 5000)) :
    (MPPT_Process env c).mppt_status.state =
      (if c.mppt_status.charging_enabled = false then MPPT_STATE_IDLE
       else if u16 env.pv_voltage_mv < 25000 then MPPT_STATE_NIGHT
       else if u16 env.pv_voltage_mv < u16 (u16 env.battery_voltage_mv + 1000) then
         MPPT_STATE_IDLE
       else if ¬ (u16 env.battery_voltage_mv > 10000) then MPPT_STATE_IDLE
       else MPPT_STATE_STARTUP) ∧
    (MPPT_Process env c).mppt_status.duty_ticks = 0 ∧
    (MPPT_Process env c).pwm.pwm_running = false ∧
    (MPPT_Process env c).pwm.panel_en = false ∧
    (MPPT_Process env c).pwm.load_en = false := by
  rw [MPPT_Process_idle env c hexec hs hov hsc, MPPT_case_idle_eq, MPPT_before_switch_eq]
  unfold MPPT_energy_update
  refine ⟨?_, rfl, ?_, rfl, rfl⟩
  · simp only [PANEL_MIN_MV, PANEL_START_DELTA_MV, MPPT_checked_state_ok env _ hov hsc, hs,
      decide_eq_false_iff_not]
  · exact HAL_PWM_Stop_running _

set_option maxRecDepth 100000 in
/-- C8, the code at the failing input: after start-up the controller stores
30237 mW in its Bulk step, goes to Absorb and Float, and returns to Bulk from a
Float step that observes 20788 mW; the next step is a P&O step that observes the
same 20788 mW as the step before it, and the perturb direction is reversed from
+1 to -1, because the comparison is made with the 30237 mW that the earlier Bulk
step stored. All readings are the conversions of 12-bit samples. -/
theorem C8_stale_power_reversal :
    (MPPT_run 0 HAL_PWM_boot [.EnableCharging,
        .Process (MPPT_Env_of_ADC 100 100 ⟨[2700, 2200, 1600, 800, 0]⟩),
        .Process (MPPT_Env_of_ADC 1200 1200 ⟨[2700, 2200, 1600, 800, 0]⟩),
        .Process (MPPT_Env_of_ADC 1300 1300 ⟨[2700, 2520, 1600, 800, 0]⟩),
        .Process (MPPT_Env_of_ADC 1400 1400 ⟨[2700, 2520, 1100, 800, 0]⟩)]).mppt_status.state = MPPT_STATE_FLOAT ∧
    (MPPT_run 0 HAL_PWM_boot [.EnableCharging,
        .Process (MPPT_Env_of_ADC 100 100 ⟨[2700, 2200, 1600, 800, 0]⟩),
        .Process (MPPT_Env_of_ADC 1200 1200 ⟨[2700, 2200, 1600, 800, 0]⟩),
        .Process (MPPT_Env_of_ADC 1300 1300 ⟨[2700, 2520, 1600, 800, 0]⟩),
        .Process (MPPT_Env_of_ADC 1400 1400 ⟨[2700, 2520, 1100, 800, 0]⟩),
        .Process (MPPT_Env_of_ADC 1500 1500 ⟨[2700, 2200, 1100, 800, 0]⟩)]).mppt_status.state = MPPT_STATE_BULK ∧
    (MPPT_run 0 HAL_PWM_boot [.EnableCharging,
        .Process (MPPT_Env_of_ADC 100 100 ⟨[2700, 2200, 1600, 800, 0]⟩),
        .Process (MPPT_Env_of_ADC 1200 1200 ⟨[2700, 2200, 1600, 800, 0]⟩),
        .Process (MPPT_Env_of_ADC 1300 1300 ⟨[2700, 2520, 1600, 800, 0]⟩),
        .Process (MPPT_Env_of_ADC 1400 1400 ⟨[2700, 2520, 1100, 800, 0]⟩),
        .Process (MPPT_Env_of_ADC 1500 1500 ⟨[2700, 2200, 1100, 800, 0]⟩)]).mppt_status.pv_power_mw = 20788 ∧
    (MPPT_run 0 HAL_PWM_boot [.EnableCharging,
        .Process (MPPT_Env_of_ADC 100 100 ⟨[2700, 2200, 1600, 800, 0]⟩),
        .Process (MPPT_Env_of_ADC 1200 1200 ⟨[2700, 2200, 1600, 800, 0]⟩),
        .Process (MPPT_Env_of_ADC 1300 1300 ⟨[2700, 2520, 1600, 800, 0]⟩),
        .Process (MPPT_Env_of_ADC 1400 1400 ⟨[2700, 2520, 1100, 800, 0]⟩),
        .Process (MPPT_Env_of_ADC 1500 1500 ⟨[2700, 2200, 1100, 800, 0]⟩)]).last_power_mw = 30237 ∧
    (MPPT_run 0 HAL_PWM_boot [.EnableCharging,
        .Process (MPPT_Env_of_ADC 100 100 ⟨[2700, 2200, 1600, 800, 0]⟩),
        .Process (MPPT_Env_of_ADC 1200 1200 ⟨[2700, 2200, 1600, 800, 0]⟩),
        .Process (MPPT_Env_of_ADC 1300 1300 ⟨[2700, 2520, 1600, 800, 0]⟩),
        .Process (MPPT_Env_of_ADC 1400 1400 ⟨[2700, 2520, 1100, 800, 0]⟩),
        .Process (MPPT_Env_of_ADC 1500 1500 ⟨[2700, 2200, 1100, 800, 0]⟩)]).perturb_direction = 1 ∧
    MPPT_interval_pending (MPPT_Env_of_ADC 1600 1600 ⟨[2700, 2200, 1100, 800, 0]⟩)
      (MPPT_run 0 HAL_PWM_boot [.EnableCharging,
        .Process (MPPT_Env_of_ADC 100 100 ⟨[2700, 2200, 1600, 800, 0]⟩),
        .Process (MPPT_Env_of_ADC 1200 1200 ⟨[2700, 2200, 1600, 800, 0]⟩),
        .Process (MPPT_Env_of_ADC 1300 1300 ⟨[2700, 2520, 1600, 800, 0]⟩),
        .Process (MPPT_Env_of_ADC 1400 1400 ⟨[2700, 2520, 1100, 800, 0]⟩),
        .Process (MPPT_Env_of_ADC 1500 1500 ⟨[2700, 2200, 1100, 800, 0]⟩)]) = false ∧
    (MPPT_Process (MPPT_Env_of_ADC 1600 1600 ⟨[2700, 2200, 1100, 800, 0]⟩)
      (MPPT_run 0 HAL_PWM_boot [.EnableCharging,
        .Process (MPPT_Env_of_ADC 100 100 ⟨[2700, 2200, 1600, 800, 0]⟩),
        .Process (MPPT_Env_of_ADC 1200 1200 ⟨[2700, 2200, 1600, 800, 0]⟩),
        .Process (MPPT_Env_of_ADC 1300 1300 ⟨[2700, 2520, 1600, 800, 0]⟩),
        .Process (MPPT_Env_of_ADC 1400 1400 ⟨[2700, 2520, 1100, 800, 0]⟩),
        .Process (MPPT_Env_of_ADC 1500 1500 ⟨[2700, 2200, 1100, 800, 0]⟩)])).mppt_status.pv_power_mw = 20788 ∧
    (MPPT_Process (MPPT_Env_of_ADC 1600 1600 ⟨[2700, 2200, 1100, 800, 0]⟩)
      (MPPT_run 0 HAL_PWM_boot [.EnableCharging,
        .Process (MPPT_Env_of_ADC 100 100 ⟨[2700, 2200, 1600, 800, 0]⟩),
        .Process (MPPT_Env_of_ADC 1200 1200 ⟨[2700, 2200, 1600, 800, 0]⟩),
        .Process (MPPT_Env_of_ADC 1300 1300 ⟨[2700, 2520, 1600, 800, 0]⟩),
        .Process (MPPT_Env_of_ADC 1400 1400 ⟨[2700, 2520, 1100, 800, 0]⟩),
        .Process (MPPT_Env_of_ADC 1500 1500 ⟨[2700, 2200, 1100, 800, 0]⟩)])).perturb_direction = -1 := by
  decide

/-- C26: from state Idle, an executed step on readings converted from 12-bit
samples, with no overvoltage (a PV short circuit cannot occur on such readings),
ends in Startup if and only if charging is enabled, PV voltage >= 25000 mV, PV
voltage > battery voltage + 1000 mV and battery voltage > 10000 mV; it ends in
Night if and only if charging is enabled and PV voltage < 25000 mV; in every
other case it stays Idle. In all three cases PWM is stopped, both driver rails
are disabled and duty_ticks is 0. No pair of samples converts to PV voltage =
battery voltage + 1000 mV. -/
theorem C26_idle_step (c : MPPT_Ctx) (t t2 : Nat) (a : HAL_ADC)
    (ha : ∀ x ∈ a.adc_results, x ≤ 4095)
    (hs : c.mppt_status.state = MPPT_STATE_IDLE)
    (hexec : MPPT_interval_pending (MPPT_Env_of_ADC t t2 a) c = false)
    (hov : HAL_ADC_GetBatt_Voltage_mV a ≤ 29300) :
    ((MPPT_Process (MPPT_Env_of_ADC t t2 a) c).mppt_status.state = MPPT_STATE_STARTUP ↔
      c.mppt_status.charging_enabled = true ∧ HAL_ADC_GetPV_Voltage_mV a ≥ 25000 ∧
      HAL_ADC_GetPV_Voltage_mV a > HAL_ADC_GetBatt_Voltage_mV a + 1000 ∧
      HAL_ADC_GetBatt_Voltage_mV a > 10000) ∧
    ((MPPT_Process (MPPT_Env_of_ADC t t2 a) c).mppt_status.state = MPPT_STATE_NIGHT ↔
      c.mppt_status.charging_enabled = true ∧ HAL_ADC_GetPV_Voltage_mV a < 25000) ∧
    (¬ (c.mppt_status.charging_enabled = true ∧ HAL_ADC_GetPV_Voltage_mV a ≥ 25000 ∧
        HAL_ADC_GetPV_Voltage_mV a > HAL_ADC_GetBatt_Voltage_mV a + 1000 ∧
        HAL_ADC_GetBatt_Voltage_mV a > 10000) →
      ¬ (c.mppt_status.charging_enabled = true ∧ HAL_ADC_GetPV_Voltage_mV a < 25000) →
      (MPPT_Process (MPPT_Env_of_ADC t t2 a) c).mppt_status.state = MPPT_STATE_IDLE) ∧
    (MPPT_Process (MPPT_Env_of_ADC t t2 a) c).pwm.pwm_running = false ∧
    (MPPT_Process (MPPT_Env_of_ADC t t2 a) c).pwm.panel_en = false ∧
    (MPPT_Process (MPPT_Env_of_ADC t t2 a) c).pwm.load_en = false ∧
    (MPPT_Process (MPPT_Env_of_ADC t t2 a) c).mppt_status.duty_ticks = 0 ∧
    HAL_ADC_GetPV_Voltage_mV a ≠ HAL_ADC_GetBatt_Voltage_mV a + 1000 := by
  obtain ⟨r1, r2, r3, r4, r5, hsc⟩ := MPPT_Env_of_ADC_range t t2 a ha
  have hov2 : u16 (MPPT_Env_of_ADC t t2 a).battery_voltage_mv ≤ 29300 := by rw [r2]; exact hov
  obtain ⟨g1, g2, g3, g4, g5⟩ := MPPT_Process_idle_fields _ c hexec hs hov2 hsc
  rw [r1, r2, u16_of_lt (HAL_ADC_GetBatt_Voltage_mV a + 1000) (by omega)] at g1
  refine ⟨?_, ?_, ?_, g3, g4, g5, g2, r5⟩
  · rw [g1]
    cases hen : c.mppt_status.charging_enabled
    · simp
    · simp only [Bool.true_eq_false, if_false, true_and]
      split_ifs <;> simp <;> omega
  · rw [g1]
    cases hen : c.mppt_status.charging_enabled
    · simp
    · simp only [Bool.true_eq_false, if_false, true_and]
      split_ifs <;> simp <;> omega
  · intro h1 h2
    rw [g1]
    cases hen : c.mppt_status.charging_enabled
    · simp
    · rw [hen] at h1 h2
      simp only [Bool.true_eq_false, if_false, true_and] at h1 h2 ⊢
      split_ifs <;> first | rfl | (exfalso; omega)

set_option maxRecDepth 100000 in
/-- C26 witness: with charging enabled, samples that convert to PV 26391 mV and
battery 24096 mV start the controller. -/
theorem C26_idle_step_witness :
    (MPPT_Process (MPPT_Env_of_ADC 100 100 ⟨[2300, 2100, 1600, 800, 0]⟩)
      (MPPT_run 0 HAL_PWM_boot [.EnableCharging])).mppt_status.state = MPPT_STATE_STARTUP :=
  (C26_idle_step (MPPT_run 0 HAL_PWM_boot [.EnableCharging]) 100 100
    ⟨[2300, 2100, 1600, 800, 0]⟩ (by decide) (by decide) (by decide) (by decide)).1.mpr
    (by decide)

end SmartValve
